import Mathlib

/-!
# VirtualNetworkStore / VirtualNetworkStorePool

A shallow embedding of `src/vnm/VirtualNetworkStore.cc`,
`src/vnm/VirtualNetworkStorePool.cc` and their headers.

C++ member functions that mutate `this` and write an `error_str` out-parameter
become pure functions returning the result code together with the new error
string and the new object.  Collaborators whose code lives outside the four
source files (attribute template, SQL back end, configuration of the drivers,
string utilities) are modelled explicitly and marked as such.
-/

namespace OneVnm

/-! ## String utilities (`one_util`) -/

/-- Modelled from the spec: `isspace` of the C locale, used by `one_util::trim`. -/
def isspace (c : Char) : Bool :=
  c = ' ' || c = '\t' || c = '\n' || c = '\r' || c.toNat = 11 || c.toNat = 12

/-- Modelled from the spec: `one_util::trim`, which removes the white space at both
ends of a string ("trimmed" in the description of the validator). -/
def trim (s : String) : String :=
  ⟨((s.data.dropWhile isspace).reverse.dropWhile isspace).reverse⟩

/-- Modelled from the spec: `one_util::toupper`, the conversion to upper case of the
validator ("case-normalized to upper case"). -/
def toupper (s : String) : String :=
  ⟨s.data.map Char.toUpper⟩

/-- Modelled from the spec: the scan of `one_util::split`: the pieces of a character
list between occurrences of `delim`; `cur` holds the piece being read, reversed. -/
def splitChars (delim : Char) : List Char → List Char → List (List Char)
  | cur, [] => [cur.reverse]
  | cur, c :: cs =>
    if c = delim then cur.reverse :: splitChars delim [] cs
    else splitChars delim (c :: cur) cs

/-- Modelled from the spec: `one_util::split(st, delim)` with its default
`clean_empty = true`: the pieces between delimiters, empty pieces dropped
("comma-separated names"). -/
def split (st : String) (delim : Char) : List String :=
  ((splitChars delim [] st.data).filter (fun p => !p.isEmpty)).map String.mk

/-- Modelled from the spec: the digits `ostream << int` writes: the decimal digits of
`n`, most significant first; `fuel` bounds the number of digits produced. -/
def natDigits : Nat → Nat → List Char
  | 0, _ => []
  | fuel + 1, n =>
    if n < 10 then [Nat.digitChar n]
    else natDigits fuel (n / 10) ++ [Nat.digitChar (n % 10)]

/-- Modelled from the spec: the text `ostream << int` writes for a number that is not
negative. -/
def nat_to_chars (n : Nat) : List Char := natDigits (n + 1) n

/-- Modelled from the spec: the text `ostream << int` writes: the decimal digits, with
a leading `-` for negative values. -/
def int_to_chars : Int → List Char
  | .ofNat n => nat_to_chars n
  | .negSucc n => '-' :: nat_to_chars (n + 1)

/-- Modelled from the spec: `ostream << int`, the decimal text of an `int`. -/
def int_to_str (n : Int) : String := ⟨int_to_chars n⟩

/-! ## Attribute template -/

/-- Modelled from the spec: `VectorAttribute`, a named map from keys to string
values (the shape of a driver entry of the configuration). -/
abbrev VectorAttribute := List (String × String)

/-- Modelled from the spec: `VectorAttribute::vector_value(name, value)`, which
returns `-1` (here `none`) when the key is absent and the stored string otherwise. -/
def VectorAttribute.vector_value (v : VectorAttribute) (name : String) : Option String :=
  (v.find? (fun kv => kv.1 = name)).map Prod.snd

/-- Modelled from the spec: an entry of the attribute template, "ordered key/value
attribute store with single- and vector-valued entries". -/
inductive Attribute where
  | single (name : String) (value : String)
  | vector (name : String) (values : VectorAttribute)
deriving DecidableEq, Repr

/-- Modelled from the spec: `Attribute::name`, the name of a template entry. -/
def Attribute.name : Attribute → String
  | .single n _ => n
  | .vector n _ => n

/-- Modelled from the spec: `VirtualNetworkStoreTemplate`, the attribute template of
a record, as the sequence of its entries. -/
abbrev Template := List Attribute

/-- Modelled from the spec: `Template::get(name, value)` for a string value: the value
of the first single-valued entry called `name`, the empty string when there is none. -/
def Template.get : Template → String → String
  | [], _ => ""
  | .single n v :: rest, name => if n = name then v else Template.get rest name
  | .vector _ _ :: rest, name => Template.get rest name

/-- Modelled from the spec: `Template::erase(name)`, which removes every entry called
`name`. -/
def Template.erase (t : Template) (name : String) : Template :=
  t.filter (fun a => a.name ≠ name)

/-- Modelled from the spec: `Template::replace(name, value)`, which removes the entries
called `name` and adds one single-valued entry with the new value. -/
def Template.replace (t : Template) (name value : String) : Template :=
  t.erase name ++ [Attribute.single name value]

/-! ## XML documents (`ObjectXML`) -/

/-- Modelled from the spec: `one_util::escape_xml` ("escaped for the structured
format"): the five characters with a predefined entity are replaced by it. -/
def escape_xml_chars : List Char → List Char
  | [] => []
  | c :: cs =>
    (if c = '&' then "&amp;".data
     else if c = '<' then "&lt;".data
     else if c = '>' then "&gt;".data
     else if c = Char.ofNat 39 then "&apos;".data
     else if c = Char.ofNat 34 then "&quot;".data
     else [c]) ++ escape_xml_chars cs

/-- Modelled from the spec: `one_util::escape_xml` on strings. -/
def escape_xml (s : String) : String := ⟨escape_xml_chars s.data⟩

/-- Modelled from the spec: a sequence of sibling nodes of a parsed document, linked
as the nodes of the XML library are, by `children` and `next`. -/
inductive XmlNodes where
  | nil : XmlNodes
  | text (content : List Char) (next : XmlNodes) : XmlNodes
  | elem (name : List Char) (children : XmlNodes) (next : XmlNodes) : XmlNodes
deriving DecidableEq, Repr

/-- Modelled from the spec: an element node of a parsed document (what an `xmlNodePtr`
of `get_nodes` points to): its name and its children. -/
abbrev XmlElement := List Char × XmlNodes

/-- Modelled from the spec: the XML parser behind `ObjectXML`: characters allowed in an
element name after the first one (ASCII names only). -/
def isNameChar (c : Char) : Bool :=
  c.isAlphanum || c = '_' || c = '-' || c = '.' || c = ':'

/-- Modelled from the spec: the XML parser behind `ObjectXML`: characters allowed at the
start of an element name. -/
def isNameStart (c : Char) : Bool :=
  c.isAlpha || c = '_' || c = ':'

/-- Modelled from the spec: the XML parser behind `ObjectXML`: characters an XML
document may contain (the production `Char` of XML 1.0). -/
def isXmlChar (c : Char) : Bool :=
  c = '\t' || c = '\n' || c = '\r' ||
    (32 ≤ c.toNat && c.toNat != 65534 && c.toNat != 65535)

/-- Modelled from the spec: the XML parser behind `ObjectXML`: reads name characters up
to the `>` that ends a tag; gives the name and what follows the `>`. -/
def readNameChars : List Char → Option (List Char × List Char)
  | [] => none
  | c :: cs =>
    if c = '>' then some ([], cs)
    else if isNameChar c then
      match readNameChars cs with
      | none => none
      | some (n, rest) => some (c :: n, rest)
    else none

/-- Modelled from the spec: the XML parser behind `ObjectXML`: reads the rest of a start
tag `<name>` (after the `<`). -/
def readName (input : List Char) : Option (List Char × List Char) :=
  match input with
  | [] => none
  | c :: _ => if isNameStart c then readNameChars input else none

/-- Modelled from the spec: the XML parser behind `ObjectXML`: removes the end tag
`</tag>` from the front of the input. -/
def expectClose (tag : List Char) (input : List Char) : Option (List Char) :=
  if ('<' :: '/' :: tag ++ ['>']).isPrefixOf input then some (input.drop (tag.length + 3))
  else none

/-- Modelled from the spec: the XML parser behind `ObjectXML`: the predefined entity at
the front of the input (after the `&`): the character it stands for and the number
of characters it takes. -/
def readEntity (input : List Char) : Option (Char × Nat) :=
  if "amp;".data.isPrefixOf input then some ('&', 4)
  else if "lt;".data.isPrefixOf input then some ('<', 3)
  else if "gt;".data.isPrefixOf input then some ('>', 3)
  else if "apos;".data.isPrefixOf input then some (Char.ofNat 39, 5)
  else if "quot;".data.isPrefixOf input then some (Char.ofNat 34, 5)
  else none

/-- Modelled from the spec: the XML parser behind `ObjectXML`: character data as the
XML library delivers it: entities replaced, line ends normalised to `\n`, anything
that is not an XML character refused.  The first
argument counts characters still to be skipped (the rest of an entity). -/
def decodeText : Nat → List Char → Option (List Char)
  | _, [] => some []
  | k + 1, _ :: cs => decodeText k cs
  | 0, c :: cs =>
    if c = '&' then
      match readEntity cs with
      | none => none
      | some (d, k) =>
        match decodeText k cs with
        | none => none
        | some t => some (d :: t)
    else if c = '\r' then
      if cs.head? = some '\n' then decodeText 0 cs
      else
        match decodeText 0 cs with
        | none => none
        | some t => some ('\n' :: t)
    else if isXmlChar c then
      match decodeText 0 cs with
      | none => none
      | some t => some (c :: t)
    else none

/-- Modelled from the spec: the XML parser behind `ObjectXML`: parses a sequence of
sibling nodes up to the end of the input or to the next end tag; gives the nodes
and the input left.  Only elements without XML attributes and
character data are understood; anything else makes the document malformed (`none`).
`fuel` bounds the recursion, the length of the input plus one is enough. -/
def parseNodes : Nat → List Char → Option (XmlNodes × List Char)
  | 0, _ => none
  | _ + 1, [] => some (.nil, [])
  | fuel + 1, c :: cs =>
    if c = '<' then
      if cs.head? = some '/' then some (.nil, c :: cs)
      else
        match readName cs with
        | none => none
        | some (tag, rest1) =>
          match parseNodes fuel rest1 with
          | none => none
          | some (children, rest2) =>
            match expectClose tag rest2 with
            | none => none
            | some rest3 =>
              match parseNodes fuel rest3 with
              | none => none
              | some (next, rest4) => some (.elem tag children next, rest4)
    else
      match decodeText 0 ((c :: cs).takeWhile (fun x => x ≠ '<')) with
      | none => none
      | some t =>
        match parseNodes fuel ((c :: cs).dropWhile (fun x => x ≠ '<')) with
        | none => none
        | some (next, rest2) => some (.text t next, rest2)

/-- Modelled from the spec: the internal XML object of `ObjectXML`: `none` when the
text could not be parsed, otherwise the top level of the document, which holds the
root element. -/
abbrev ObjectXML := Option XmlNodes

/-- Modelled from the spec: `ObjectXML::update_from_str`, the parse of the structured
text.  A document is exactly one root element. -/
def update_from_str (xml : String) : ObjectXML :=
  match parseNodes (xml.data.length + 1) xml.data with
  | some (.elem name children .nil, []) => some (.elem name children .nil)
  | _ => none

/-- Modelled from the spec: `ObjectXML(node)`, the document whose root is `node`. -/
def ObjectXML.of_node (node : XmlElement) : ObjectXML :=
  some (.elem node.1 node.2 .nil)

/-- Modelled from the spec: one step of an XPath of `ObjectXML`: the elements called
`step` (any element for `*`) among sibling nodes. -/
def XmlNodes.select (step : List Char) : XmlNodes → List XmlElement
  | .nil => []
  | .text _ next => XmlNodes.select step next
  | .elem name children next =>
    if step = ['*'] ∨ step = name then (name, children) :: XmlNodes.select step next
    else XmlNodes.select step next

/-- Modelled from the spec: the XPath evaluation of `ObjectXML`: the elements reached
from sibling nodes by a path of child steps, in document order. -/
def XmlNodes.walk : List (List Char) → XmlNodes → List XmlElement
  | [], _ => []
  | [step], ns => ns.select step
  | step :: steps, ns => (ns.select step).flatMap (fun e => XmlNodes.walk steps e.2)

/-- Modelled from the spec: `ObjectXML::get_nodes` for an absolute path of element
names such as `/VIRTUALNETWORKSTORE/TEMPLATE`. -/
def ObjectXML.get_nodes (doc : ObjectXML) (xpath_expr : String) : List XmlElement :=
  match doc with
  | none => []
  | some top => top.walk ((split xpath_expr '/').map String.data)

/-- Modelled from the spec: the content `ObjectXML::xpaths` takes from a node: the text
an element starts with, when it starts with text. -/
def XmlNodes.content : XmlNodes → Option String
  | .text t _ => some ⟨t⟩
  | _ => none

/-- Modelled from the spec: `ObjectXML::xpaths`: the text of every element the path
selects; an element that does not start with text contributes nothing. -/
def ObjectXML.xpaths (doc : ObjectXML) (xpath_expr : String) : List String :=
  (doc.get_nodes xpath_expr).filterMap (fun e => e.2.content)

/-- Modelled from the spec: the number `istringstream >> dec` reads: the value of the
decimal digits `ds` appended to the number `acc`. -/
def digitsValue (acc : Nat) (ds : List Char) : Nat :=
  ds.foldl (fun a c => 10 * a + (c.toNat - 48)) acc

/-- Modelled from the spec: `istringstream >> dec >> int`: white space is skipped, an
optional sign and the decimal digits after it are read (what follows them is left
unread); the extraction fails without a digit or when the value is no `int`. -/
def parse_int (s : List Char) : Option Int :=
  let s1 := s.dropWhile isspace
  let neg := s1.head? = some '-'
  let s2 := if s1.head? = some '-' ∨ s1.head? = some '+' then s1.tail else s1
  let ds := s2.takeWhile Char.isDigit
  if ds = [] then none
  else
    let v : Int := if neg then -(digitsValue 0 ds : Int) else (digitsValue 0 ds : Int)
    if -2147483648 ≤ v ∧ v ≤ 2147483647 then some v else none

/-- Modelled from the spec: `ObjectXML::xpath(string&, path, default)`: the first value
of `xpaths`, or the default and `-1`. -/
def ObjectXML.xpath_str (doc : ObjectXML) (xpath_expr : String) (dflt : String) :
    Int × String :=
  match doc.xpaths xpath_expr with
  | [] => (-1, dflt)
  | v :: _ => (0, v)

/-- Modelled from the spec: `ObjectXML::xpath(int&, path, default)`: the first value of
`xpaths` read as an `int`; the default and `-1` when there is none or it is no
number. -/
def ObjectXML.xpath_int (doc : ObjectXML) (xpath_expr : String) (dflt : Int) : Int × Int :=
  match doc.xpaths xpath_expr with
  | [] => (-1, dflt)
  | v :: _ =>
    match parse_int v.data with
    | none => (-1, dflt)
    | some n => (0, n)

/-! ## Codec of the collaborators -/

/-- Modelled from the spec: the loop of `VectorAttribute::to_xml` over the entries:
entries with an empty key are skipped, values are escaped. -/
def vector_entries_to_xml : VectorAttribute → String
  | [] => ""
  | kv :: rest =>
    (if kv.1 = "" then ""
     else "<" ++ kv.1 ++ ">" ++ escape_xml kv.2 ++ "</" ++ kv.1 ++ ">")
      ++ vector_entries_to_xml rest

/-- Modelled from the spec: `Attribute::to_xml` of single and vector attributes. -/
def Attribute.to_xml : Attribute → String
  | .single n v => "<" ++ n ++ ">" ++ escape_xml v ++ "</" ++ n ++ ">"
  | .vector n vs => "<" ++ n ++ ">" ++ vector_entries_to_xml vs ++ "</" ++ n ++ ">"

/-- Modelled from the spec: the loop of `Template::to_xml`: the text of the entries, in
the order of the template. -/
def attributes_to_xml : Template → String
  | [] => ""
  | a :: rest => a.to_xml ++ attributes_to_xml rest

/-- Modelled from the spec: `Template::to_xml` ("attribute-template block"), with the
root name `TEMPLATE`. -/
def Template.to_xml (t : Template) : String :=
  "<TEMPLATE>" ++ attributes_to_xml t ++ "</TEMPLATE>"

/-- Modelled from the spec: `Template::single_xml_att`: an element whose only child is
text is a single attribute. -/
def single_xml_att (node : XmlElement) : Option Attribute :=
  match node.2 with
  | .text content .nil => some (.single ⟨node.1⟩ ⟨content⟩)
  | _ => none

/-- Modelled from the spec: the first loop of `Template::vector_xml_att`: the sibling
nodes from the first element on. -/
def XmlNodes.from_first_element : XmlNodes → XmlNodes
  | .nil => .nil
  | .text _ next => XmlNodes.from_first_element next
  | .elem n c next => .elem n c next

/-- Modelled from the spec: `VectorAttribute::replace(name, value)`. -/
def VectorAttribute.replace (v : VectorAttribute) (name value : String) : VectorAttribute :=
  v.filter (fun kv => kv.1 ≠ name) ++ [(name, value)]

/-- Modelled from the spec: the loop of `Template::vector_xml_att` over the children of
an element: every child that starts with text sets the entry of its name. -/
def vector_xml_entries : XmlNodes → VectorAttribute → VectorAttribute
  | .nil, acc => acc
  | .text _ next, acc => vector_xml_entries next acc
  | .elem n ch next, acc =>
    match ch with
    | .text content _ => vector_xml_entries next (acc.replace ⟨n⟩ ⟨content⟩)
    | _ => vector_xml_entries next acc

/-- Modelled from the spec: `Template::vector_xml_att`: an element with an element child
is a vector attribute. -/
def vector_xml_att (node : XmlElement) : Option Attribute :=
  match node.2.from_first_element with
  | .nil => none
  | first => some (.vector ⟨node.1⟩ (vector_xml_entries first []))

/-- Modelled from the spec: `Template::rebuild_attributes`: the template is cleared and
every element child that is a single or a vector attribute is added, in document
order. -/
def rebuild_attributes : XmlNodes → Template
  | .nil => []
  | .text _ next => rebuild_attributes next
  | .elem n ch next =>
    match single_xml_att (n, ch) with
    | some a => a :: rebuild_attributes next
    | none =>
      match vector_xml_att (n, ch) with
      | some a => a :: rebuild_attributes next
      | none => rebuild_attributes next

/-- Modelled from the spec: `Template::from_xml_node` for a node that exists: result
code `0` and the rebuilt template. -/
def Template.from_xml_node (node : XmlElement) : Int × Template :=
  (0, rebuild_attributes node.2)

/-- Modelled from the spec: the loop of `ObjectCollection::to_xml`: the text of the ids
of a collection. -/
def ids_to_xml : List Int → String
  | [] => ""
  | id :: rest => "<ID>" ++ int_to_str id ++ "</ID>" ++ ids_to_xml rest

/-- Modelled from the spec: `ObjectCollection::to_xml` ("cluster-id block",
"member-network-id block"). -/
def ObjectCollection.to_xml (collection_name : String) (collection_set : List Int) : String :=
  "<" ++ collection_name ++ ">" ++ ids_to_xml collection_set ++ "</" ++ collection_name ++ ">"

/-- Modelled from the spec: `set<int>::insert`, on the ascending list of the elements. -/
def set_insert (x : Int) : List Int → List Int
  | [] => [x]
  | y :: ys =>
    if x < y then x :: y :: ys
    else if x = y then y :: ys
    else y :: set_insert x ys

/-- Modelled from the spec: one turn of the loop of `ObjectCollection::from_xml_node`: the text `v` is read as
an `int` and inserted in the set; when it is no number the result code becomes
`-1`. -/
def ObjectCollection.read_id (acc : Int × List Int) (v : String) : Int × List Int :=
  match parse_int v.data with
  | none => (-1, acc.2)
  | some id => (acc.1, set_insert id acc.2)

/-- Modelled from the spec: `ObjectCollection::from_xml_node`: every `ID` of the node is
read as an `int` and inserted in the set; one that is no number makes the result
`-1`. -/
def ObjectCollection.from_xml_node (collection_name : String) (collection_set : List Int)
    (node : XmlElement) : Int × List Int :=
  ((ObjectXML.of_node node).xpaths ("/" ++ collection_name ++ "/ID")).foldl
    ObjectCollection.read_id (0, collection_set)

/-- Modelled from the spec: `ObjectCollection::from_xml(xml, xpath_prefix)`: `-1` when
the document has no node for the collection, otherwise `from_xml_node` of the
first one. -/
def ObjectCollection.from_xml (collection_name : String) (collection_set : List Int)
    (xml : ObjectXML) ( xpath_prefix : String) : Int × List Int :=
  match xml.get_nodes ( xpath_prefix ++ collection_name) with
  | [] => (-1, collection_set)
  | node :: _ => ObjectCollection.from_xml_node collection_name collection_set node

/-- Modelled from the spec: `ObjectCollection::add(id)`, the "idempotent set insert":
`set<int>::insert` of the id; the result is `0` when the id was inserted.  The spec
gives no result code for an id that the set holds already; it is reported here like
the removal of an absent id, with `-1`. -/
def ObjectCollection.add (collection_set : List Int) (id : Int) : Int × List Int :=
  (if id ∈ collection_set then -1 else 0, set_insert id collection_set)

/-- Modelled from the spec: `ObjectCollection::del(id)`, the "idempotent set remove":
`set<int>::erase` of the id; "remove of an absent id is reported as a non-fatal error
code", `-1`, when the number of elements erased is not `1`. -/
def ObjectCollection.del (collection_set : List Int) (id : Int) : Int × List Int :=
  (if collection_set.count id ≠ 1 then -1 else 0, collection_set.filter (fun x => x ≠ id))

/-- Modelled from the spec: `ObjectXML::validate_xml`: `0` when the text parses. -/
def validate_xml (xml_doc : String) : Int :=
  if (update_from_str xml_doc).isSome then 0 else -1

/-! ## Configuration of the drivers -/

/-- Modelled from the spec: the part of `Nebula::instance()` that the record uses,
"DriverRegistry exposes lookup(driverName) → (requiredAttrsCsv | not-found)".
`get_vn_conf_attribute mad = none` stands for a non-zero return code;
`enable_other_permissions` is the configuration attribute `ENABLE_OTHER_PERMISSIONS`. -/
structure Nebula where
  get_vn_conf_attribute : String → Option VectorAttribute
  enable_other_permissions : Bool

/-! ## SQL back end -/

/-- A row of table `virtualnetworkstore_pool`, with the columns of `db_names`. -/
structure Row where
  oid : Int
  name : String
  body : String
  uid : Int
  gid : Int
  owner_u : Int
  group_u : Int
  other_u : Int
deriving DecidableEq, Repr

/-- The statements the record and the pool hand to `SqlDB::exec`: the `INSERT` and
`REPLACE` of `insert_replace`, and (modelled from the spec) the `DELETE` of
`PoolObjectSQL::drop` and the update of the stored id counter. -/
inductive SqlCmd where
  | insert_row (row : Row)
  | replace_row (row : Row)
  | delete_row (oid : Int)
  | update_last_oid (last : Int)
deriving DecidableEq, Repr

/-- Modelled from the spec: the `SqlDB` object ("ObjectStore").  `rows` is the table of
the pool, `last_oid` the persisted id counter (`-1` when none was ever stored),
`journal` the statements executed so far, oldest first.  `verdict` gives the result
code of a statement against the current rows (so that storage failures of any kind
can be represented) and `escape_str` is the quoting function, `none` standing for a
null pointer. -/
structure SqlDB where
  rows : List Row
  last_oid : Int
  journal : List SqlCmd
  verdict : List Row → SqlCmd → Int
  escape_str : String → Option String

/-- Modelled from the spec: the effect of a statement that the back end accepted
("insertOrReplace", "delete", and the update of the stored id counter). -/
def SqlDB.apply (db : SqlDB) : SqlCmd → SqlDB
  | .insert_row row => { db with rows := db.rows ++ [row] }
  | .replace_row row => { db with rows := db.rows.filter (fun r => r.oid ≠ row.oid) ++ [row] }
  | .delete_row oid => { db with rows := db.rows.filter (fun r => r.oid ≠ oid) }
  | .update_last_oid last => { db with last_oid := last }

/-- Modelled from the spec: `SqlDB::exec`.  The statement is recorded in the journal;
it takes effect exactly when the result code is `0`. -/
def SqlDB.exec (db : SqlDB) (cmd : SqlCmd) : Int × SqlDB :=
  let rc := db.verdict db.rows cmd
  let db1 := { db with journal := db.journal ++ [cmd] }
  if rc = 0 then (rc, db1.apply cmd) else (rc, db1)

/-! ## The record -/

/-- Modelled from the spec: `VirtualNetworkStoreState`, "enum {READY, DISABLED}",
declared outside the source files; a C++ enumeration, kept as its integer value. -/
abbrev VirtualNetworkStoreState := Int

/-- Modelled from the spec: the first enumerator of `VirtualNetworkStoreState`. -/
def READY : VirtualNetworkStoreState := 0

/-- Modelled from the spec: the second enumerator of `VirtualNetworkStoreState`. -/
def DISABLED : VirtualNetworkStoreState := 1

/-- The `VirtualNetworkStore` object: the members inherited from `PoolObjectSQL`
(`oid` … `obj_template`, `valid`), the set of `Clusterable`, and its own members
`vn_mad`, `state`, `virtual_networks`.  A `set<int>` is kept as the list of its
elements in the order in which the set iterates them. -/
structure VirtualNetworkStore where
  oid : Int
  name : String
  uid : Int
  gid : Int
  uname : String
  gname : String
  owner_u : Int
  owner_m : Int
  owner_a : Int
  group_u : Int
  group_m : Int
  group_a : Int
  other_u : Int
  other_m : Int
  other_a : Int
  valid : Bool
  cluster_ids : List Int
  vn_mad : String
  state : VirtualNetworkStoreState
  virtual_networks : List Int
  obj_template : Template
deriving DecidableEq, Repr

namespace VirtualNetworkStore

/-- `PoolObjectSQL::get_template_attribute(name, value)`. -/
def get_template_attribute (self : VirtualNetworkStore) (name : String) : String :=
  self.obj_template.get name

/-- `VirtualNetworkStore::virtual_networks_size`. -/
def virtual_networks_size (self : VirtualNetworkStore) : Int :=
  self.virtual_networks.length

/-- `VirtualNetworkStore::add_virtual_network`: result code and the object afterwards. -/
def add_virtual_network (self : VirtualNetworkStore) (id : Int) : Int × VirtualNetworkStore :=
  let r := ObjectCollection.add self.virtual_networks id
  (r.1, { self with virtual_networks := r.2 })

/-- `VirtualNetworkStore::del_virtual_network`: result code and the object afterwards. -/
def del_virtual_network (self : VirtualNetworkStore) (id : Int) : Int × VirtualNetworkStore :=
  let r := ObjectCollection.del self.virtual_networks id
  (r.1, { self with virtual_networks := r.2 })

/-- `VirtualNetworkStore::enable`. -/
def enable (self : VirtualNetworkStore) (enable : Bool) (error_str : String) :
    Int × String × VirtualNetworkStore :=
  if enable then (0, error_str, { self with state := READY })
  else (0, error_str, { self with state := DISABLED })

/-- Outcome of the loop of `set_vn_mad` over the required names: `none` when every
name has a non-empty value, otherwise the (trimmed, upper-case) name at which the
loop jumped to `error_required`. -/
def set_vn_mad_loop (self : VirtualNetworkStore) : List String → Option String
  | [] => none
  | it :: rest =>
    let required_attr := toupper (trim it)
    let value := self.get_template_attribute required_attr
    if value = "" then some required_attr else set_vn_mad_loop self rest

/-- `VirtualNetworkStore::set_vn_mad`: result code and error string. -/
def set_vn_mad (self : VirtualNetworkStore) (nd : Nebula) (mad : String)
    (error_str : String) : Int × String :=
  match nd.get_vn_conf_attribute mad with
  | none =>
    -- error_conf
    (-1, "VN_MAD named \"" ++ mad ++ "\" is not defined in oned.conf")
  | some vatt =>
    match vatt.vector_value "REQUIRED_ATTRS" with
    | none => (0, error_str)
    | some required_attrs =>
      match set_vn_mad_loop self (split required_attrs ',') with
      | none => (0, error_str)
      | some required_attr =>
        -- error_required
        (-1, "VirtualNetworkStore template is missing the \"" ++ required_attr
              ++ "\" attribute or it's empty.")

/-- Modelled from the spec: the arithmetic of `PoolObjectSQL::set_umask`: bit `bit` of
`perms & ~umask`, as `0` or `1` (the integers are read in two's complement). -/
def perm_bit (perms umask : Int) (bit : Nat) : Int :=
  if (perms / 2 ^ bit) % 2 = 1 ∧ (umask / 2 ^ bit) % 2 = 0 then 1 else 0

/-- Modelled from the spec: `PoolObjectSQL::set_umask` ("owner/group/other access bits,
derived from a umask at creation"): the base permissions are `0777` for the
administrative user or group, `0666` when permissions for others are enabled and
`0660` otherwise; the bits of the umask are taken off. -/
def set_umask (self : VirtualNetworkStore) (nd : Nebula) (umask : Int) : VirtualNetworkStore :=
  let perms : Int :=
    if self.uid = 0 ∨ self.gid = 0 then 511
    else if nd.enable_other_permissions then 438
    else 432
  { self with
    owner_u := perm_bit perms umask 8, owner_m := perm_bit perms umask 7,
    owner_a := perm_bit perms umask 6, group_u := perm_bit perms umask 5,
    group_m := perm_bit perms umask 4, group_a := perm_bit perms umask 3,
    other_u := perm_bit perms umask 2, other_m := perm_bit perms umask 1,
    other_a := perm_bit perms umask 0 }

/-- The constructor `VirtualNetworkStore::VirtualNetworkStore`.  The base class
constructor `PoolObjectSQL(-1, VIRTUALNETWORKSTORE, "", uid, gid, uname, gname,
table)` gives id `-1`, an empty name, the owner, the default permission bits and a
valid object; a null `vns_template` is `none`. -/
def new (nd : Nebula) (uid gid : Int) (uname gname : String) (umask : Int)
    (vns_template : Option Template) (cluster_ids : List Int) : VirtualNetworkStore :=
  let base : VirtualNetworkStore :=
    { oid := -1, name := "", uid := uid, gid := gid, uname := uname, gname := gname,
      owner_u := 1, owner_m := 1, owner_a := 0, group_u := 0, group_m := 0, group_a := 0,
      other_u := 0, other_m := 0, other_a := 0, valid := true,
      cluster_ids := cluster_ids,
      vn_mad := "",
      state := READY,
      virtual_networks := [],
      obj_template := match vns_template with
        | some t => t
        | none => [] }
  { base.set_umask nd umask with group_u := 1 }

/-- Modelled from the spec: `PoolObjectSQL::erase_template_attribute(name, value)`:
the value is read as by `get_template_attribute`, then every entry of that name is
removed.  Gives the value and the object. -/
def erase_template_attribute (self : VirtualNetworkStore) (name : String) :
    String × VirtualNetworkStore :=
  (self.obj_template.get name, { self with obj_template := self.obj_template.erase name })

/-- Modelled from the spec: `PoolObjectSQL::perms_to_xml` ("permission block"). -/
def perms_to_xml (self : VirtualNetworkStore) : String :=
  "<PERMISSIONS>" ++
    "<OWNER_U>" ++ int_to_str self.owner_u ++ "</OWNER_U>" ++
    "<OWNER_M>" ++ int_to_str self.owner_m ++ "</OWNER_M>" ++
    "<OWNER_A>" ++ int_to_str self.owner_a ++ "</OWNER_A>" ++
    "<GROUP_U>" ++ int_to_str self.group_u ++ "</GROUP_U>" ++
    "<GROUP_M>" ++ int_to_str self.group_m ++ "</GROUP_M>" ++
    "<GROUP_A>" ++ int_to_str self.group_a ++ "</GROUP_A>" ++
    "<OTHER_U>" ++ int_to_str self.other_u ++ "</OTHER_U>" ++
    "<OTHER_M>" ++ int_to_str self.other_m ++ "</OTHER_M>" ++
    "<OTHER_A>" ++ int_to_str self.other_a ++ "</OTHER_A>" ++
  "</PERMISSIONS>"

/-- Modelled from the spec: `PoolObjectSQL::perms_from_xml`: the nine permission bits
are read with default `0`; the result codes are added up. -/
def perms_from_xml (self : VirtualNetworkStore) (doc : ObjectXML) :
    Int × VirtualNetworkStore :=
  let r1 := doc.xpath_int "/*/PERMISSIONS/OWNER_U" 0
  let r2 := doc.xpath_int "/*/PERMISSIONS/OWNER_M" 0
  let r3 := doc.xpath_int "/*/PERMISSIONS/OWNER_A" 0
  let r4 := doc.xpath_int "/*/PERMISSIONS/GROUP_U" 0
  let r5 := doc.xpath_int "/*/PERMISSIONS/GROUP_M" 0
  let r6 := doc.xpath_int "/*/PERMISSIONS/GROUP_A" 0
  let r7 := doc.xpath_int "/*/PERMISSIONS/OTHER_U" 0
  let r8 := doc.xpath_int "/*/PERMISSIONS/OTHER_M" 0
  let r9 := doc.xpath_int "/*/PERMISSIONS/OTHER_A" 0
  (r1.1 + r2.1 + r3.1 + r4.1 + r5.1 + r6.1 + r7.1 + r8.1 + r9.1,
   { self with
     owner_u := r1.2, owner_m := r2.2, owner_a := r3.2,
     group_u := r4.2, group_m := r5.2, group_a := r6.2,
     other_u := r7.2, other_m := r8.2, other_a := r9.2 })

/-- `VirtualNetworkStore::to_xml`. -/
def to_xml (self : VirtualNetworkStore) : String :=
  "<VIRTUALNETWORKSTORE>" ++
    "<ID>" ++ int_to_str self.oid ++ "</ID>" ++
    "<UID>" ++ int_to_str self.uid ++ "</UID>" ++
    "<GID>" ++ int_to_str self.gid ++ "</GID>" ++
    "<UNAME>" ++ self.uname ++ "</UNAME>" ++
    "<GNAME>" ++ self.gname ++ "</GNAME>" ++
    "<NAME>" ++ self.name ++ "</NAME>" ++
    self.perms_to_xml ++
    "<VN_MAD>" ++ escape_xml self.vn_mad ++ "</VN_MAD>" ++
    "<STATE>" ++ int_to_str self.state ++ "</STATE>" ++
    ObjectCollection.to_xml "CLUSTERS" self.cluster_ids ++
    ObjectCollection.to_xml "VIRTUALNETWORKS" self.virtual_networks ++
    self.obj_template.to_xml ++
  "</VIRTUALNETWORKSTORE>"

/-- `VirtualNetworkStore::from_xml`: result code and the object afterwards. -/
def from_xml (self : VirtualNetworkStore) (xml : String) : Int × VirtualNetworkStore :=
  -- Initialize the internal XML object
  let doc := update_from_str xml
  -- Get class base attributes
  let r_oid := doc.xpath_int "/VIRTUALNETWORKSTORE/ID" (-1)
  let r_uid := doc.xpath_int "/VIRTUALNETWORKSTORE/UID" (-1)
  let r_gid := doc.xpath_int "/VIRTUALNETWORKSTORE/GID" (-1)
  let r_uname := doc.xpath_str "/VIRTUALNETWORKSTORE/UNAME" "not_found"
  let r_gname := doc.xpath_str "/VIRTUALNETWORKSTORE/GNAME" "not_found"
  let r_name := doc.xpath_str "/VIRTUALNETWORKSTORE/NAME" "not_found"
  let r_vn_mad := doc.xpath_str "/VIRTUALNETWORKSTORE/VN_MAD" "not_found"
  let r_state := doc.xpath_int "/VIRTUALNETWORKSTORE/STATE" 0
  let self1 : VirtualNetworkStore :=
    { self with
      oid := r_oid.2, uid := r_uid.2, gid := r_gid.2, uname := r_uname.2,
      gname := r_gname.2, name := r_name.2, vn_mad := r_vn_mad.2 }
  -- Permissions
  let r_perms := self1.perms_from_xml doc
  let self2 : VirtualNetworkStore := { r_perms.2 with state := r_state.2 }
  -- Set of virtual networks IDs
  let r_vnets := ObjectCollection.from_xml "VIRTUALNETWORKS" self2.virtual_networks doc
    "/VIRTUALNETWORKSTORE/"
  -- Set of cluster IDs
  let r_clusters := ObjectCollection.from_xml "CLUSTERS" self2.cluster_ids doc
    "/VIRTUALNETWORKSTORE/"
  let self3 : VirtualNetworkStore :=
    { self2 with virtual_networks := r_vnets.2, cluster_ids := r_clusters.2 }
  let rc := r_oid.1 + r_uid.1 + r_gid.1 + r_uname.1 + r_gname.1 + r_name.1 + r_vn_mad.1
    + r_state.1 + r_perms.1 + r_vnets.1 + r_clusters.1
  -- Get associated classes
  match doc.get_nodes "/VIRTUALNETWORKSTORE/TEMPLATE" with
  | [] => (-1, self3)
  | node :: _ =>
    let r_tmpl := Template.from_xml_node node
    if rc + r_tmpl.1 ≠ 0 then (-1, { self3 with obj_template := r_tmpl.2 })
    else (0, { self3 with obj_template := r_tmpl.2 })

/-- The values of the columns `db_names` that `insert_replace` puts in its statement. -/
def row (self : VirtualNetworkStore) : Row :=
  { oid := self.oid, name := self.name, body := self.to_xml, uid := self.uid,
    gid := self.gid, owner_u := self.owner_u, group_u := self.group_u,
    other_u := self.other_u }

/-- `VirtualNetworkStore::insert_replace`: result code, error string and the back end
afterwards.  The statement is given with the values it denotes: the quoting that
`escape_str` adds is taken off again by the SQL engine. -/
def insert_replace (self : VirtualNetworkStore) (db : SqlDB) (replace : Bool)
    (error_str : String) : Int × String × SqlDB :=
  match db.escape_str self.name with
  | none => (-1, "Error inserting VirtualNetworkStore in DB.", db)
  | some _ =>
    match db.escape_str self.to_xml with
    | none => (-1, "Error inserting VirtualNetworkStore in DB.", db)
    | some sql_xml =>
      if validate_xml sql_xml ≠ 0 then
        (-1, "Error transforming the VirtualNetworkStore to XML.", db)
      else
        let res := db.exec (if replace then .replace_row self.row else .insert_row self.row)
        (res.1, error_str, res.2)

/-- First two statements of `insert`: `NAME` is taken out of the template into `name`
and `VN_MAD` is read from the template into `vn_mad`. -/
def insert_read_template (self : VirtualNetworkStore) : VirtualNetworkStore :=
  -- VirtualNetworkStorePool::allocate checks NAME
  let e := self.erase_template_attribute "NAME"
  let self1 : VirtualNetworkStore := { e.2 with name := e.1 }
  { self1 with vn_mad := self1.get_template_attribute "VN_MAD" }

/-- `VirtualNetworkStore::insert`: result code, error string, the object and the back
end afterwards. -/
def insert (self : VirtualNetworkStore) (nd : Nebula) (db : SqlDB) (error_str : String) :
    Int × String × VirtualNetworkStore × SqlDB :=
  let self2 := self.insert_read_template
  if self2.vn_mad = "" then
    (-1, "No VN_MAD in template.", self2, db)
  else
    let v := self2.set_vn_mad nd self2.vn_mad error_str
    if v.1 ≠ 0 then (-1, v.2, self2, db)
    else
      -- Insert the VirtualNetworkStore
      let r := self2.insert_replace db false v.2
      (r.1, r.2.1, self2, r.2.2)

/-- `VirtualNetworkStore::update`, defined in the header: `insert_replace(db, true,
error_str)` with an error string of its own; result code and the back end
afterwards. -/
def update (self : VirtualNetworkStore) (db : SqlDB) : Int × SqlDB :=
  let r := self.insert_replace db true ""
  (r.1, r.2.2)

/-- The call `enable(enable, error_str)` made while the back end is `db`: result code,
error string, the object and the back end afterwards.  `enable` has no `SqlDB`
argument and its body calls no other function, so the back end afterwards is `db`. -/
def enable_on (self : VirtualNetworkStore) (db : SqlDB) (enable : Bool) (error_str : String) :
    Int × String × VirtualNetworkStore × SqlDB :=
  let r := self.enable enable error_str
  (r.1, r.2.1, r.2.2, db)

/-- `PoolObjectSQL::replace_template_attribute(name, value)`. -/
def replace_template_attribute (self : VirtualNetworkStore) (name value : String) :
    VirtualNetworkStore :=
  { self with obj_template := self.obj_template.replace name value }

/-- First part of `post_update_template` ("Set the VN_MAD of the VirtualNetworkStore
(class & template)"): the object as it is when `set_vn_mad` is called. -/
def post_update_template_vn_mad (self : VirtualNetworkStore) : VirtualNetworkStore :=
  let new_vn_mad := self.get_template_attribute "VN_MAD"
  if new_vn_mad = "" then
    self.replace_template_attribute "VN_MAD" self.vn_mad
  else if new_vn_mad ≠ self.vn_mad then
    { self with vn_mad := new_vn_mad }
  else self

/-- `VirtualNetworkStore::post_update_template`: result code, error string and the
object afterwards. -/
def post_update_template (self : VirtualNetworkStore) (nd : Nebula) (error_str : String) :
    Int × String × VirtualNetworkStore :=
  let old_vn_mad := self.vn_mad
  let self1 := self.post_update_template_vn_mad
  let res := self1.set_vn_mad nd self1.vn_mad error_str
  if res.1 ≠ 0 then
    (-1, res.2, { self1 with vn_mad := old_vn_mad })
  else
    (0, res.2, self1)

/-- Modelled from the spec: `PoolObjectSQL::drop(db)`, the storage delete of a record
("delete(id) → ok|error"): it executes the `DELETE` statement for `oid` and, when the
statement succeeds, marks the object as no longer valid.  Returns the result code of
the statement. -/
def drop (self : VirtualNetworkStore) (db : SqlDB) : Int × VirtualNetworkStore × SqlDB :=
  let res := db.exec (.delete_row self.oid)
  if res.1 = 0 then (res.1, { self with valid := false }, res.2)
  else (res.1, self, res.2)

end VirtualNetworkStore

/-! ## Result codes that the decoder adds up -/

/-- The value of `rc` in `from_xml` when it looks for the template: the sum of the
result codes of the fields read so far, in the order of the source. -/
def from_xml_sum (self : VirtualNetworkStore) (doc : ObjectXML) : Int :=
  (doc.xpath_int "/VIRTUALNETWORKSTORE/ID" (-1)).1
    + (doc.xpath_int "/VIRTUALNETWORKSTORE/UID" (-1)).1
    + (doc.xpath_int "/VIRTUALNETWORKSTORE/GID" (-1)).1
    + (doc.xpath_str "/VIRTUALNETWORKSTORE/UNAME" "not_found").1
    + (doc.xpath_str "/VIRTUALNETWORKSTORE/GNAME" "not_found").1
    + (doc.xpath_str "/VIRTUALNETWORKSTORE/NAME" "not_found").1
    + (doc.xpath_str "/VIRTUALNETWORKSTORE/VN_MAD" "not_found").1
    + (doc.xpath_int "/VIRTUALNETWORKSTORE/STATE" 0).1
    + (self.perms_from_xml doc).1
    + (ObjectCollection.from_xml "VIRTUALNETWORKS" self.virtual_networks doc
        "/VIRTUALNETWORKSTORE/").1
    + (ObjectCollection.from_xml "CLUSTERS" self.cluster_ids doc "/VIRTUALNETWORKSTORE/").1

/-! ## Invariant of the driver -/

/-- The first half of the invariant "`driverName` must resolve in DriverRegistry": the
configuration has an entry for the `vn_mad` of the record. -/
def driver_resolves (nd : Nebula) (r : VirtualNetworkStore) : Bool :=
  (nd.get_vn_conf_attribute r.vn_mad).isSome

/-- The invariant "`driverName` must resolve in DriverRegistry and satisfy that driver's
required-attribute list", stated on its own and not through `set_vn_mad`: the
configuration has an entry for `vn_mad`, and every name of its `REQUIRED_ATTRS`
(trimmed, in upper case) has a non-empty value in the template of the record. -/
def driver_invariant (nd : Nebula) (r : VirtualNetworkStore) : Bool :=
  match nd.get_vn_conf_attribute r.vn_mad with
  | none => false
  | some vatt =>
    match vatt.vector_value "REQUIRED_ATTRS" with
    | none => true
    | some required_attrs =>
      (split required_attrs ',').all
        (fun it => r.get_template_attribute (toupper (trim it)) != "")

/-- The records that a successful `insert` produces and that any sequence of template
replacements, each followed by `post_update_template` (whatever it returns), makes
of them. -/
inductive Reachable (nd : Nebula) : VirtualNetworkStore → Prop
  | inserted (c : VirtualNetworkStore) (db : SqlDB) (error_str : String) :
      (c.insert nd db error_str).1 = 0 → Reachable nd (c.insert nd db error_str).2.2.1
  | updated (r : VirtualNetworkStore) (t : Template) (error_str : String) :
      Reachable nd r →
      Reachable nd
        (({ r with obj_template := t } : VirtualNetworkStore).post_update_template nd
          error_str).2.2

/-! ## Records that the codec handles -/

/-- Characters that come back from the XML parser as they were written: XML characters
other than the carriage return (which the parser turns into a line feed). -/
def isPlainChar (c : Char) : Bool := isXmlChar c && c != '\r'

/-- A value that can be written escaped: not empty (an element without text gives no
value when it is read back) and made of plain characters. -/
def valid_text (s : String) : Bool := !s.data.isEmpty && s.data.all isPlainChar

/-- A value that can be written as it is, without escaping: a `valid_text` without `<`
and `&`. -/
def valid_raw_text (s : String) : Bool :=
  valid_text s && s.data.all (fun c => c != '<' && c != '&')

/-- A name that can be used as the name of an element. -/
def valid_xml_name (t : List Char) : Bool :=
  match t with
  | [] => false
  | c :: cs => isNameStart c && cs.all isNameChar

/-- The values of an `int`. -/
def is_int (n : Int) : Bool := decide (-2147483648 ≤ n) && decide (n ≤ 2147483647)

/-- A list in strictly ascending order, as a `set<int>` iterates. -/
def ascending : List Int → Bool
  | [] => true
  | a :: rest =>
    (match rest with
     | [] => true
     | b :: _ => decide (a < b)) && ascending rest

/-- The elements of a `set<int>`: `int`s in ascending order. -/
def valid_id_set (l : List Int) : Bool := l.all is_int && ascending l

/-- No key occurs twice. -/
def distinct_keys : VectorAttribute → Bool
  | [] => true
  | kv :: rest => rest.all (fun e => e.1 != kv.1) && distinct_keys rest

/-- Entries of a vector attribute that can be written and read back: at least one
entry, keys that are element names and occur once, values that are `valid_text`. -/
def valid_entries (vs : VectorAttribute) : Bool :=
  !vs.isEmpty && vs.all (fun kv => valid_xml_name kv.1.data && valid_text kv.2)
    && distinct_keys vs

/-- A template entry that can be written and read back. -/
def Attribute.valid : Attribute → Bool
  | .single n v => valid_xml_name n.data && valid_text v
  | .vector n vs => valid_xml_name n.data && valid_entries vs

/-- A valid record, for the codec: every number is an `int`, the names of the owner
and of the record can be written as they are, the driver name can be written
escaped, both sets are sets of `int`s and every template entry can be written. -/
def VirtualNetworkStore.valid_record (r : VirtualNetworkStore) : Bool :=
  is_int r.oid && is_int r.uid && is_int r.gid &&
  valid_raw_text r.uname && valid_raw_text r.gname && valid_raw_text r.name &&
  is_int r.owner_u && is_int r.owner_m && is_int r.owner_a &&
  is_int r.group_u && is_int r.group_m && is_int r.group_a &&
  is_int r.other_u && is_int r.other_m && is_int r.other_a &&
  valid_text r.vn_mad && is_int r.state &&
  valid_id_set r.cluster_ids && valid_id_set r.virtual_networks &&
  r.obj_template.all Attribute.valid

/-! ## The document of a record -/

/-- Start tag of an element. -/
def openTag (t : List Char) : List Char := '<' :: (t ++ ['>'])

/-- End tag of an element. -/
def closeTag (t : List Char) : List Char := '<' :: '/' :: (t ++ ['>'])

/-- The text of an element. -/
def tagged (tag : String) (body sib : List Char) : List Char :=
  openTag tag.data ++ (body ++ (closeTag tag.data ++ sib))

/-- What may follow a complete sequence of sibling nodes: the end of the input or an
end tag. -/
def EndOrClose (rest : List Char) : Prop :=
  rest = [] ∨ ∃ r, rest = '<' :: '/' :: r

/-- The text `s` is read by the parser as the sibling nodes `ns`, whatever end tag
follows and with any sufficient fuel. -/
def ParsesTo (s : List Char) (ns : XmlNodes) : Prop :=
  ∀ (rest : List Char) (fuel : Nat), EndOrClose rest → (s ++ rest).length < fuel →
    parseNodes fuel (s ++ rest) = some (ns, rest)

/-- An element that holds one text. -/
def leaf (tag : String) (t : List Char) (next : XmlNodes) : XmlNodes :=
  .elem tag.data (.text t .nil) next

/-- The nodes `ids_to_xml` writes. -/
def ids_nodes : List Int → XmlNodes
  | [] => .nil
  | id :: rest => leaf "ID" (int_to_chars id) (ids_nodes rest)

/-- The nodes `vector_entries_to_xml` writes for valid entries. -/
def entries_nodes : VectorAttribute → XmlNodes
  | [] => .nil
  | kv :: rest => .elem kv.1.data (.text kv.2.data .nil) (entries_nodes rest)

/-- The nodes `attributes_to_xml` writes for valid entries. -/
def attribute_nodes : Template → XmlNodes
  | [] => .nil
  | .single n v :: rest => .elem n.data (.text v.data .nil) (attribute_nodes rest)
  | .vector n vs :: rest => .elem n.data (entries_nodes vs) (attribute_nodes rest)

/-- The nodes `perms_to_xml` writes. -/
def VirtualNetworkStore.perms_nodes (r : VirtualNetworkStore) : XmlNodes :=
  leaf "OWNER_U" (int_to_chars r.owner_u) (leaf "OWNER_M" (int_to_chars r.owner_m)
  (leaf "OWNER_A" (int_to_chars r.owner_a) (leaf "GROUP_U" (int_to_chars r.group_u)
  (leaf "GROUP_M" (int_to_chars r.group_m) (leaf "GROUP_A" (int_to_chars r.group_a)
  (leaf "OTHER_U" (int_to_chars r.other_u) (leaf "OTHER_M" (int_to_chars r.other_m)
  (leaf "OTHER_A" (int_to_chars r.other_a) .nil))))))))

/-- The children of the root element that `to_xml` writes for a valid record. -/
def VirtualNetworkStore.xml_nodes (r : VirtualNetworkStore) : XmlNodes :=
  leaf "ID" (int_to_chars r.oid) (leaf "UID" (int_to_chars r.uid)
  (leaf "GID" (int_to_chars r.gid) (leaf "UNAME" r.uname.data
  (leaf "GNAME" r.gname.data (leaf "NAME" r.name.data
  (.elem "PERMISSIONS".data r.perms_nodes
  (leaf "VN_MAD" r.vn_mad.data (leaf "STATE" (int_to_chars r.state)
  (.elem "CLUSTERS".data (ids_nodes r.cluster_ids)
  (.elem "VIRTUALNETWORKS".data (ids_nodes r.virtual_networks)
  (.elem "TEMPLATE".data (attribute_nodes r.obj_template) .nil)))))))))))

/-- The text between the tags of the root element. -/
def VirtualNetworkStore.xml_chars (r : VirtualNetworkStore) : List Char :=
  tagged "ID" (int_to_chars r.oid) (tagged "UID" (int_to_chars r.uid)
  (tagged "GID" (int_to_chars r.gid) (tagged "UNAME" r.uname.data
  (tagged "GNAME" r.gname.data (tagged "NAME" r.name.data
  (tagged "PERMISSIONS"
    (tagged "OWNER_U" (int_to_chars r.owner_u) (tagged "OWNER_M" (int_to_chars r.owner_m)
    (tagged "OWNER_A" (int_to_chars r.owner_a) (tagged "GROUP_U" (int_to_chars r.group_u)
    (tagged "GROUP_M" (int_to_chars r.group_m) (tagged "GROUP_A" (int_to_chars r.group_a)
    (tagged "OTHER_U" (int_to_chars r.other_u) (tagged "OTHER_M" (int_to_chars r.other_m)
    (tagged "OTHER_A" (int_to_chars r.other_a) [])))))))))
  (tagged "VN_MAD" (escape_xml_chars r.vn_mad.data) (tagged "STATE" (int_to_chars r.state)
  (tagged "CLUSTERS" (ids_to_xml r.cluster_ids).data
  (tagged "VIRTUALNETWORKS" (ids_to_xml r.virtual_networks).data
  (tagged "TEMPLATE" (attributes_to_xml r.obj_template).data [])))))))))))

/-- The names of the elements among sibling nodes, in document order. -/
def XmlNodes.names : XmlNodes → List String
  | .nil => []
  | .text _ next => XmlNodes.names next
  | .elem name _ next => ⟨name⟩ :: XmlNodes.names next

/-- The parsed document of a valid record. -/
def VirtualNetworkStore.xml_document (r : VirtualNetworkStore) : ObjectXML :=
  some (.elem "VIRTUALNETWORKSTORE".data r.xml_nodes .nil)

/-! ## The pool -/

/-- `VirtualNetworkStorePool::DEFAULT_VNS_NAME`. -/
def DEFAULT_VNS_NAME : String := "default"

/-- `VirtualNetworkStorePool::DEFAULT_VNS_ID`. -/
def DEFAULT_VNS_ID : Int := 0

/-- Modelled from the spec: `UserPool::ONEADMIN_ID`, the id of the administrative user. -/
def UserPool.ONEADMIN_ID : Int := 0

/-- Modelled from the spec: `GroupPool::ONEADMIN_ID`, the id of the administrative
group. -/
def GroupPool.ONEADMIN_ID : Int := 0

/-- Modelled from the spec: `GroupPool::ONEADMIN_NAME`, the name of the administrative
group. -/
def GroupPool.ONEADMIN_NAME : String := "oneadmin"

/-- Modelled from the spec: `ClusterPool::DEFAULT_CLUSTER_ID`, the id of the default
cluster. -/
def ClusterPool.DEFAULT_CLUSTER_ID : Int := 0

/-- Modelled from the spec: `INT_MAX`, the largest value of an `int`. -/
def INT_MAX : Int := 2147483647

/-- The collaborators of the pool whose code is outside the source files, taken as
parameters: the configuration, `PoolObjectSQL::name_is_valid(name, error_str)` (the
verdict and the error string afterwards), `Template::parse_str_or_xml(text,
error_str)` (result code, error string afterwards, parsed template) and the run-time
value `UserPool::oneadmin_name`. -/
structure Externals where
  nd : Nebula
  name_is_valid : String → String → Bool × String
  parse_str_or_xml : String → String → Int × String × Template
  oneadmin_name : String

/-- The `VirtualNetworkStorePool` object: the members of `PoolSQL` that the source
files use (`db`, `lastOID`, and the objects held in memory, `cache`) and its own
`inherit_attrs`. -/
structure VirtualNetworkStorePool where
  db : SqlDB
  lastOID : Int
  cache : List VirtualNetworkStore
  inherit_attrs : List String

namespace VirtualNetworkStorePool

/-- Modelled from the spec: the object `obj` is the one the in-memory maps of the pool
point to, so a change made through the pointer is seen through the maps. -/
def sync (self : VirtualNetworkStorePool) (obj : VirtualNetworkStore) :
    VirtualNetworkStorePool :=
  { self with cache := self.cache.map (fun o => if o.oid = obj.oid then obj else o) }

/-- `VirtualNetworkStorePool::create`, the factory method. -/
def create (nd : Nebula) : VirtualNetworkStore :=
  VirtualNetworkStore.new nd (-1) (-1) "" "" 0 none []

/-- Modelled from the spec: `PoolSQL::get_lastOID`, the id counter. -/
def get_lastOID (self : VirtualNetworkStorePool) : Int := self.lastOID

/-- Modelled from the spec: `PoolSQL::set_update_lastOID`: sets the id counter and
writes it to the storage. -/
def set_update_lastOID (self : VirtualNetworkStorePool) (last : Int) :
    VirtualNetworkStorePool :=
  { self with lastOID := last, db := (self.db.exec (.update_last_oid last)).2 }

/-- Modelled from the spec: `get(name, lock)` of the pool, that is
`PoolSQL::get(name, -1, lock)` with `key(name, uid) = name`: "returns the cached
record if present; otherwise loads from ObjectStore via Codec, inserts into cache,
then returns it", with "loadByName(name) → body|not-found".  Gives the record found,
if any, and the pool afterwards. -/
def get (self : VirtualNetworkStorePool) (nd : Nebula) (name : String) :
    Option VirtualNetworkStore × VirtualNetworkStorePool :=
  match self.cache.find? (fun o => decide (o.name = name) && o.valid) with
  | some o => (some o, self)
  | none =>
    match self.db.rows.find? (fun r => decide (r.name = name)) with
    | none => (none, self)
    | some row =>
      let r := (create nd).from_xml row.body
      if r.1 ≠ 0 then (none, self)
      else (some r.2, { self with cache := self.cache ++ [r.2] })

/-- Modelled from the spec: the id that `PoolSQL::allocate` gives to the next object
(`if (lastOID == INT_MAX) lastOID = -1;` and then `++lastOID`). -/
def next_oid (self : VirtualNetworkStorePool) : Int :=
  (if self.lastOID = INT_MAX then -1 else self.lastOID) + 1

/-- Modelled from the spec: `PoolSQL::allocate(objsql, error_str)`: "persists the
record, assigns it the next sequential id".  The candidate gets the id after
`lastOID` and is inserted; when the insertion fails the counter is put back and the
result is `-1`, otherwise the result is the new id and the counter is written to the
storage (unless the result is `-1`).  The candidate object itself is deleted in both
cases. -/
def PoolSQL_allocate (self : VirtualNetworkStorePool) (nd : Nebula)
    (objsql : VirtualNetworkStore) (error_str : String) :
    Int × String × VirtualNetworkStorePool :=
  let lastOID1 := self.next_oid
  let r := ({ objsql with oid := lastOID1, valid := true }).insert nd self.db error_str
  let lastOID2 := if r.1 ≠ 0 then lastOID1 - 1 else lastOID1
  let rc := if r.1 ≠ 0 then -1 else lastOID1
  if rc ≠ -1 then
    -- update_lastOID
    (rc, r.2.1, { self with db := (r.2.2.2.exec (.update_last_oid lastOID2)).2,
                            lastOID := lastOID2 })
  else
    (rc, r.2.1, { self with db := r.2.2.2, lastOID := lastOID2 })

/-- `VirtualNetworkStorePool::allocate`: the value returned, the value left in `*oid`,
the error string and the pool afterwards. -/
def allocate (self : VirtualNetworkStorePool) (ext : Externals) (uid gid : Int)
    (uname gname : String) (umask : Int) (vns_template : Option Template)
    (cluster_ids : List Int) (error_str : String) :
    Int × Int × String × VirtualNetworkStorePool :=
  let vns := VirtualNetworkStore.new ext.nd uid gid uname gname umask vns_template cluster_ids
  let name := vns.get_template_attribute "NAME"
  let nv := ext.name_is_valid name error_str
  if nv.1 = false then
    -- error_name
    (-1, -1, nv.2, self)
  else
    let g := self.get ext.nd name
    match g.1 with
    | some vns_aux =>
      -- error_duplicated
      (-1, -1, "NAME is already taken by VIRTUALNETWORKSTORE " ++ int_to_str vns_aux.oid
        ++ ".", g.2)
    | none =>
      let a := g.2.PoolSQL_allocate ext.nd vns nv.2
      (a.1, a.1, a.2.1, a.2.2)

/-- `VirtualNetworkStorePool::drop`: result code, error message, the object and the
pool afterwards. -/
def drop (self : VirtualNetworkStorePool) (vns : VirtualNetworkStore) (error_msg : String) :
    Int × String × VirtualNetworkStore × VirtualNetworkStorePool :=
  if vns.virtual_networks_size > 0 then
    (-3, "VirtualNetworkStore " ++ int_to_str vns.oid ++ " is not empty.", vns, self)
  else
    let res := vns.drop self.db
    let pool1 := ({ self with db := res.2.2 }).sync res.2.1
    if res.1 ≠ 0 then (-1, "SQL DB error", res.2.1, pool1)
    else (res.1, error_msg, res.2.1, pool1)

/-- The constructor `VirtualNetworkStorePool::VirtualNetworkStorePool` over the back
end `db`; `inherit_attrs` holds the values of `_inherit_attrs`.  The base class
constructor reads the persisted id counter into `lastOID` (`-1` when there is
none).  `Except.error` is the `runtime_error` thrown at `error_bootstrap`. -/
def new (ext : Externals) (db : SqlDB) (inherit_attrs : List String) :
    Except String VirtualNetworkStorePool :=
  let self : VirtualNetworkStorePool :=
    { db := db, lastOID := db.last_oid, cache := [], inherit_attrs := inherit_attrs }
  let error_str := ""
  -- lastOID is set in PoolSQL::init_cb
  if self.get_lastOID = -1 then
    let cluster_ids := set_insert ClusterPool.DEFAULT_CLUSTER_ID []
    -- Create the default VirtualNetworkStore
    let p := ext.parse_str_or_xml ("NAME   = " ++ DEFAULT_VNS_NAME ++ "\n" ++ "VN_MAD = dummy")
      error_str
    if p.1 < 0 then
      .error ("Error trying to create default VirtualNetworkStore: " ++ p.2.1)
    else
      let a := self.allocate ext UserPool.ONEADMIN_ID GroupPool.ONEADMIN_ID ext.oneadmin_name
        GroupPool.ONEADMIN_NAME 95 (some p.2.2) cluster_ids p.2.1
      if a.2.1 < 0 then
        .error ("Error trying to create default VirtualNetworkStore: " ++ a.2.2.1)
      else
        -- User created VirtualNetworkStores will start from ID 100
        .ok (a.2.2.2.set_update_lastOID 99)
  else
    .ok self

/-- The back end as the constructor `VirtualNetworkStorePool::VirtualNetworkStorePool`
leaves it on each of its paths, also on those that throw: `db` belongs to the caller
and outlives the pool. -/
def new_db (ext : Externals) (db : SqlDB) (inherit_attrs : List String) : SqlDB :=
  let self : VirtualNetworkStorePool :=
    { db := db, lastOID := db.last_oid, cache := [], inherit_attrs := inherit_attrs }
  let error_str := ""
  -- lastOID is set in PoolSQL::init_cb
  if self.get_lastOID = -1 then
    let cluster_ids := set_insert ClusterPool.DEFAULT_CLUSTER_ID []
    let p := ext.parse_str_or_xml ("NAME   = " ++ DEFAULT_VNS_NAME ++ "\n" ++ "VN_MAD = dummy")
      error_str
    if p.1 < 0 then
      -- error_bootstrap
      self.db
    else
      let a := self.allocate ext UserPool.ONEADMIN_ID GroupPool.ONEADMIN_ID ext.oneadmin_name
        GroupPool.ONEADMIN_NAME 95 (some p.2.2) cluster_ids p.2.1
      if a.2.1 < 0 then
        -- error_bootstrap
        a.2.2.2.db
      else
        (a.2.2.2.set_update_lastOID 99).db
  else
    self.db

end VirtualNetworkStorePool

/-! ## Sample values -/

/-- A back end that accepts every statement and quotes every string as itself. -/
def sampleDb : SqlDB :=
  { rows := [], last_oid := -1, journal := [],
    verdict := fun _ _ => 0, escape_str := fun s => some s }

/-- A back end like `sampleDb` on which every statement fails with code `7`. -/
def brokenDb : SqlDB :=
  { sampleDb with verdict := fun _ _ => 7 }

/-- A configuration with the drivers `dummy` (no required attributes) and `ovswitch`
(which requires `BRIDGE`). -/
def sampleNebula : Nebula :=
  { get_vn_conf_attribute := fun mad =>
      if mad = "dummy" then some [("NAME", "dummy")]
      else if mad = "ovswitch" then some [("NAME", "ovswitch"), ("REQUIRED_ATTRS", "bridge")]
      else none,
    enable_other_permissions := false }

/-- A record with id `100`, driver `ovswitch` and no member network. -/
def sampleStore : VirtualNetworkStore :=
  { oid := 100, name := "net", uid := 0, gid := 0, uname := "oneadmin", gname := "oneadmin",
    owner_u := 1, owner_m := 1, owner_a := 0, group_u := 1, group_m := 0, group_a := 0,
    other_u := 0, other_m := 0, other_a := 0, valid := true, cluster_ids := [0],
    vn_mad := "ovswitch", state := READY, virtual_networks := [],
    obj_template := [.single "VN_MAD" "ovswitch", .single "BRIDGE" "br0"] }

/-- The record `sampleStore` with the member network `5`. -/
def sampleStore5 : VirtualNetworkStore :=
  { sampleStore with virtual_networks := [5] }

/-- A pool over `sampleDb` that holds `sampleStore5` in memory. -/
def samplePool : VirtualNetworkStorePool :=
  { db := sampleDb, lastOID := 100, cache := [sampleStore5], inherit_attrs := [] }

/-- A record whose driver is `dummy` and whose template was just replaced by one that
asks for `ovswitch` without giving `BRIDGE`. -/
def updatedStore : VirtualNetworkStore :=
  { sampleStore with
    vn_mad := "dummy",
    obj_template := [.single "VN_MAD" "ovswitch", .single "MTU" "1500"] }

/-- A parser of templates that knows the text of the default record only. -/
def sampleParse (text error_str : String) : Int × String × Template :=
  if text = "NAME   = default\nVN_MAD = dummy" then
    (0, error_str, [.single "NAME" "default", .single "VN_MAD" "dummy"])
  else (-1, "Parse error", [])

/-- Collaborators for the examples: a name is accepted when it is not empty. -/
def sampleExt : Externals :=
  { nd := sampleNebula,
    name_is_valid := fun name error_str =>
      if name = "" then (false, "Invalid NAME, it cannot be empty") else (true, error_str),
    parse_str_or_xml := sampleParse,
    oneadmin_name := "oneadmin" }

/-- A candidate record as `allocate` builds it, with `VN_MAD = ovswitch` and no
`BRIDGE` in its template. -/
def candidateNoBridge : VirtualNetworkStore :=
  VirtualNetworkStore.new sampleNebula 2 1 "alice" "users" 95
    (some [.single "NAME" "lab", .single "VN_MAD" "ovswitch"]) [0]

/-- The candidate `candidateNoBridge` with `BRIDGE = br0` added to its template. -/
def candidateBridge : VirtualNetworkStore :=
  VirtualNetworkStore.new sampleNebula 2 1 "alice" "users" 95
    (some [.single "NAME" "lab", .single "VN_MAD" "ovswitch", .single "BRIDGE" "br0"]) [0]

/-- A record with no cluster and no member network, a driver name that needs escaping
and a template with a vector attribute. -/
def bareStore : VirtualNetworkStore :=
  { sampleStore with
    cluster_ids := [],
    virtual_networks := [],
    vn_mad := "ovs<1>&2",
    obj_template :=
      [.single "VN_MAD" "ovs<1>&2", .vector "AR" [("TYPE", "IP4"), ("SIZE", "16")]] }

/-- A pool over the empty `sampleDb` whose id counter is `99`, with nothing in memory. -/
def freshPool : VirtualNetworkStorePool :=
  { db := sampleDb, lastOID := 99, cache := [], inherit_attrs := [] }

/-- The template of the examples of allocation: `NAME = lab`, driver `ovswitch` with its
`BRIDGE`. -/
def labTemplate : Template :=
  [.single "NAME" "lab", .single "VN_MAD" "ovswitch", .single "BRIDGE" "br0"]

/-- The pool `freshPool` after one record called `lab` was allocated in it. -/
def labPool : VirtualNetworkStorePool :=
  (freshPool.allocate sampleExt 2 1 "alice" "users" 95 (some labTemplate) [0] "").2.2.2

/-- The pool constructed over the empty `sampleDb` (`freshPool` stands in if the
construction throws). -/
def bootPool : VirtualNetworkStorePool :=
  match VirtualNetworkStorePool.new sampleExt sampleDb [] with
  | .ok pool => pool
  | .error _ => freshPool

/-- The record the name lookup finds under `lab` in `labPool` (`sampleStore` stands in
if it finds none). -/
def labRecord : VirtualNetworkStore :=
  match (labPool.get sampleNebula "lab").1 with
  | some o => o
  | none => sampleStore

/-- A candidate record as `allocate` builds it, whose template has no `VN_MAD`. -/
def candidateNoMad : VirtualNetworkStore :=
  VirtualNetworkStore.new sampleNebula 2 1 "alice" "users" 95
    (some [.single "NAME" "lab", .single "BRIDGE" "br0"]) [0]

/-- The structured text of a record like `sampleStore` with the text `id` in its `ID`
element and the text `tail` after the member networks, where the template
belongs. -/
def recordText (id tail : String) : String :=
  "<VIRTUALNETWORKSTORE><ID>" ++ id ++ "</ID><UID>0</UID><GID>0</GID>"
    ++ "<UNAME>oneadmin</UNAME><GNAME>oneadmin</GNAME><NAME>net</NAME>"
    ++ "<PERMISSIONS><OWNER_U>1</OWNER_U><OWNER_M>1</OWNER_M><OWNER_A>0</OWNER_A>"
    ++ "<GROUP_U>1</GROUP_U><GROUP_M>0</GROUP_M><GROUP_A>0</GROUP_A>"
    ++ "<OTHER_U>0</OTHER_U><OTHER_M>0</OTHER_M><OTHER_A>0</OTHER_A></PERMISSIONS>"
    ++ "<VN_MAD>ovswitch</VN_MAD><STATE>0</STATE><CLUSTERS><ID>0</ID></CLUSTERS>"
    ++ "<VIRTUALNETWORKS></VIRTUALNETWORKS>" ++ tail ++ "</VIRTUALNETWORKSTORE>"

/-- A text in which every field parses and the `TEMPLATE` section is missing. -/
def textNoTemplate : String := recordText "-1" ""

/-- A text with a `TEMPLATE` section whose `ID` is no number. -/
def textBadId : String :=
  recordText "x" "<TEMPLATE><VN_MAD>ovswitch</VN_MAD><BRIDGE>br0</BRIDGE></TEMPLATE>"

/-- The back end `sampleDb` after the record `sampleStore` was written in it. -/
def storedDb : SqlDB := (sampleStore.update sampleDb).2

/-- The record that the insert of `candidateBridge` produces. -/
def insertedBridge : VirtualNetworkStore :=
  (candidateBridge.insert sampleNebula sampleDb "").2.2.1

/-- The record `insertedBridge` after its template was replaced by one that keeps the
driver and gives no `BRIDGE`, and `post_update_template` was called. -/
def strippedBridge : VirtualNetworkStore :=
  (({ insertedBridge with obj_template := [.single "VN_MAD" "ovswitch"] } :
    VirtualNetworkStore).post_update_template sampleNebula "").2.2

/-- Collaborators like `sampleExt` whose template parser refuses every text. -/
def noParseExt : Externals :=
  { sampleExt with parse_str_or_xml := fun _ _ => (-1, "syntax error", []) }

/-! # Properties -/

/-! ## Auxiliary facts -/

theorem virtual_networks_size_pos (vns : VirtualNetworkStore) :
    vns.virtual_networks_size > 0 ↔ vns.virtual_networks ≠ [] := by
  unfold VirtualNetworkStore.virtual_networks_size
  cases vns.virtual_networks with
  | nil => simp
  | cons a l => simp

/-- The loop of `set_vn_mad` finds nothing exactly when every required name has a
non-empty value. -/
theorem set_vn_mad_loop_none (self : VirtualNetworkStore) (l : List String) :
    self.set_vn_mad_loop l = none ↔
      ∀ n ∈ l, self.get_template_attribute (toupper (trim n)) ≠ "" := by
  induction l with
  | nil => simp [VirtualNetworkStore.set_vn_mad_loop]
  | cons a l ih =>
    by_cases h : self.get_template_attribute (toupper (trim a)) = ""
    · simp [VirtualNetworkStore.set_vn_mad_loop, h]
    · simp [VirtualNetworkStore.set_vn_mad_loop, h, ih]

/-- The loop of `set_vn_mad` stops at the first name without a value, whatever
follows it. -/
theorem set_vn_mad_loop_first (self : VirtualNetworkStore) (pre post : List String)
    (n : String)
    (hpre : ∀ m ∈ pre, self.get_template_attribute (toupper (trim m)) ≠ "")
    (hn : self.get_template_attribute (toupper (trim n)) = "") :
    self.set_vn_mad_loop (pre ++ n :: post) = some (toupper (trim n)) := by
  induction pre with
  | nil => simp [VirtualNetworkStore.set_vn_mad_loop, hn]
  | cons a pre ih =>
    have ha : self.get_template_attribute (toupper (trim a)) ≠ "" :=
      hpre a (List.mem_cons_self a pre)
    have hrest : ∀ m ∈ pre, self.get_template_attribute (toupper (trim m)) ≠ "" :=
      fun m hm => hpre m (List.mem_cons_of_mem a hm)
    simp [VirtualNetworkStore.set_vn_mad_loop, ha, ih hrest]

/-- When the loop of `set_vn_mad` reports a name, the list splits at the first name
without a value and the reported name is that one. -/
theorem set_vn_mad_loop_some (self : VirtualNetworkStore) (l : List String) (a : String)
    (h : self.set_vn_mad_loop l = some a) :
    ∃ pre n post, l = pre ++ n :: post ∧
      (∀ m ∈ pre, self.get_template_attribute (toupper (trim m)) ≠ "") ∧
      self.get_template_attribute (toupper (trim n)) = "" ∧ a = toupper (trim n) := by
  induction l with
  | nil => simp [VirtualNetworkStore.set_vn_mad_loop] at h
  | cons b l ih =>
    by_cases hb : self.get_template_attribute (toupper (trim b)) = ""
    · refine ⟨[], b, l, rfl, ?_, hb, ?_⟩
      · intro m hm; cases hm
      · simp [VirtualNetworkStore.set_vn_mad_loop, hb] at h
        exact h.symm
    · simp [VirtualNetworkStore.set_vn_mad_loop, hb] at h
      obtain ⟨pre, n, post, hl, hpre, hn, ha⟩ := ih h
      refine ⟨b :: pre, n, post, by simp [hl], ?_, hn, ha⟩
      intro m hm
      rcases List.mem_cons.mp hm with rfl | hm
      · exact hb
      · exact hpre m hm

/-! ## The parser on the text of one element -/

theorem isNameChar_ne_gt (c : Char) (h : isNameChar c = true) : c ≠ '>' := by
  rintro rfl
  revert h
  decide

theorem readNameChars_tag (tag rest : List Char) (h : tag.all isNameChar = true) :
    readNameChars (tag ++ '>' :: rest) = some (tag, rest) := by
  induction tag with
  | nil => simp [readNameChars]
  | cons c cs ih =>
    simp only [List.all_cons, Bool.and_eq_true] at h
    have hc := isNameChar_ne_gt c h.1
    simp [readNameChars, hc, h.1, ih h.2]

theorem isNameStart_isNameChar (c : Char) (h : isNameStart c = true) : isNameChar c = true := by
  simp only [isNameStart, isNameChar, Bool.or_eq_true, decide_eq_true_eq] at h ⊢
  rcases h with (h | h) | h
  · left; left; left; left
    simp only [Char.isAlphanum, Bool.or_eq_true]
    exact Or.inl h
  · left; left; left; right; exact h
  · right; exact h

theorem isNameStart_ne_slash (c : Char) (h : isNameStart c = true) : c ≠ '/' := by
  rintro rfl
  revert h
  decide

theorem valid_xml_name_cons (tag : List Char) (h : valid_xml_name tag = true) :
    ∃ c cs, tag = c :: cs ∧ isNameStart c = true ∧ tag.all isNameChar = true := by
  cases tag with
  | nil => simp [valid_xml_name] at h
  | cons c cs =>
    simp only [valid_xml_name, Bool.and_eq_true] at h
    refine ⟨c, cs, rfl, h.1, ?_⟩
    simp only [List.all_cons, Bool.and_eq_true]
    exact ⟨isNameStart_isNameChar c h.1, h.2⟩

theorem readName_tag (tag rest : List Char) (h : valid_xml_name tag = true) :
    readName (tag ++ '>' :: rest) = some (tag, rest) := by
  obtain ⟨c, cs, rfl, hc, hall⟩ := valid_xml_name_cons tag h
  have := readNameChars_tag (c :: cs) rest hall
  simp only [List.cons_append] at this ⊢
  simp [readName, hc, this]

theorem expectClose_closeTag (tag rest : List Char) :
    expectClose tag (closeTag tag ++ rest) = some rest := by
  have hp : ('<' :: '/' :: tag ++ ['>']).isPrefixOf (closeTag tag ++ rest) = true := by
    rw [List.isPrefixOf_iff_prefix]
    exact ⟨rest, by simp [closeTag]⟩
  have hd : (closeTag tag ++ rest).drop (tag.length + 3) = rest := by
    have hl : (closeTag tag).length = tag.length + 3 := by simp [closeTag]
    rw [← hl, List.drop_left]
  unfold expectClose
  rw [if_pos hp, hd]

theorem takeWhile_chunk (enc rest : List Char) (henc : ∀ c ∈ enc, c ≠ '<')
    (hrest : EndOrClose rest) :
    (enc ++ rest).takeWhile (fun x => x ≠ '<') = enc := by
  induction enc with
  | nil =>
    rcases hrest with rfl | ⟨r, rfl⟩ <;> simp
  | cons c cs ih =>
    have hc := henc c (List.mem_cons_self c cs)
    have ih1 := ih (fun d hd => henc d (List.mem_cons_of_mem c hd))
    rw [List.cons_append, List.takeWhile_cons]
    simp only [hc, ne_eq, not_false_eq_true, ih1]
    simp

theorem dropWhile_chunk (enc rest : List Char) (henc : ∀ c ∈ enc, c ≠ '<')
    (hrest : EndOrClose rest) :
    (enc ++ rest).dropWhile (fun x => x ≠ '<') = rest := by
  induction enc with
  | nil =>
    rcases hrest with rfl | ⟨r, rfl⟩ <;> simp
  | cons c cs ih =>
    have hc := henc c (List.mem_cons_self c cs)
    have ih1 := ih (fun d hd => henc d (List.mem_cons_of_mem c hd))
    rw [List.cons_append, List.dropWhile_cons]
    simp only [hc, ne_eq, not_false_eq_true, ih1]
    simp

theorem parseNodes_end (rest : List Char) (fuel : Nat) (hrest : EndOrClose rest)
    (hfuel : rest.length < fuel) : parseNodes fuel rest = some (.nil, rest) := by
  cases fuel with
  | zero => omega
  | succ f =>
    rcases hrest with rfl | ⟨r, rfl⟩
    · simp [parseNodes]
    · simp [parseNodes]

theorem parsesTo_nil : ParsesTo [] .nil := by
  intro rest fuel hrest hfuel
  exact parseNodes_end rest fuel hrest (by simpa using hfuel)

theorem endOrClose_closeTag (tag rest : List Char) : EndOrClose (closeTag tag ++ rest) :=
  Or.inr ⟨tag ++ ['>'] ++ rest, by simp [closeTag]⟩

theorem parsesTo_elem (tag body sib : List Char) (ch next : XmlNodes)
    (htag : valid_xml_name tag = true) (hbody : ParsesTo body ch) (hsib : ParsesTo sib next) :
    ParsesTo (openTag tag ++ (body ++ (closeTag tag ++ sib))) (.elem tag ch next) := by
  intro rest fuel hrest hfuel
  cases fuel with
  | zero => omega
  | succ f =>
    obtain ⟨c, cs, hcs, hc, _⟩ := valid_xml_name_cons tag htag
    have hshape : openTag tag ++ (body ++ (closeTag tag ++ sib)) ++ rest
        = '<' :: (tag ++ '>' :: (body ++ (closeTag tag ++ (sib ++ rest)))) := by
      simp [openTag]
    rw [hshape] at hfuel ⊢
    have hhead : (tag ++ '>' :: (body ++ (closeTag tag ++ (sib ++ rest)))).head? ≠ some '/' := by
      rw [hcs]
      simp [isNameStart_ne_slash c hc]
    have hlen1 : (body ++ (closeTag tag ++ (sib ++ rest))).length < f := by
      simp only [List.length_cons, List.length_append] at hfuel ⊢
      omega
    have h1 := hbody (closeTag tag ++ (sib ++ rest)) f (endOrClose_closeTag tag _) hlen1
    have hlen2 : (sib ++ rest).length < f := by
      simp only [List.length_cons, List.length_append] at hfuel ⊢
      omega
    have h2 := hsib rest f hrest hlen2
    simp only [parseNodes, if_true, hhead, if_false, readName_tag tag _ htag, h1,
      expectClose_closeTag, h2]

theorem parsesTo_text (enc t : List Char) (hne : enc ≠ []) (hlt : ∀ c ∈ enc, c ≠ '<')
    (hdec : decodeText 0 enc = some t) : ParsesTo enc (.text t .nil) := by
  intro rest fuel hrest hfuel
  cases fuel with
  | zero => omega
  | succ f =>
    cases enc with
    | nil => exact absurd rfl hne
    | cons c cs =>
      have hc := hlt c (List.mem_cons_self c cs)
      have htake := takeWhile_chunk (c :: cs) rest hlt hrest
      have hdrop := dropWhile_chunk (c :: cs) rest hlt hrest
      have hend := parseNodes_end rest f hrest (by
        simp only [List.length_cons, List.length_append] at hfuel; omega)
      simp only [List.cons_append] at htake hdrop ⊢
      simp only [parseNodes, hc, if_false, htake, hdec, hdrop, hend]

theorem parsesTo_leaf (tag : String) (enc t sib : List Char) (next : XmlNodes)
    (htag : valid_xml_name tag.data = true) (hne : enc ≠ []) (hlt : ∀ c ∈ enc, c ≠ '<')
    (hdec : decodeText 0 enc = some t) (hsib : ParsesTo sib next) :
    ParsesTo (openTag tag.data ++ (enc ++ (closeTag tag.data ++ sib))) (leaf tag t next) :=
  parsesTo_elem tag.data enc sib _ next htag (parsesTo_text enc t hne hlt hdec) hsib

/-! ## Character data -/

theorem decodeText_skip (pre cs : List Char) :
    decodeText pre.length (pre ++ cs) = decodeText 0 cs := by
  induction pre with
  | nil => simp
  | cons p ps ih => simpa [decodeText] using ih

theorem decodeText_entity (name : List Char) (d : Char) (esc t : List Char)
    (hent : readEntity (name ++ esc) = some (d, name.length))
    (hrec : decodeText 0 esc = some t) :
    decodeText 0 ('&' :: (name ++ esc)) = some (d :: t) := by
  simp only [decodeText, if_true, hent, decodeText_skip, hrec]

theorem isPlainChar_ne_cr (c : Char) (h : isPlainChar c = true) : c ≠ '\r' := by
  rintro rfl
  revert h
  decide

theorem isPlainChar_isXmlChar (c : Char) (h : isPlainChar c = true) : isXmlChar c = true := by
  simp only [isPlainChar, Bool.and_eq_true] at h
  exact h.1

theorem decodeText_plain_cons (c : Char) (cs t : List Char) (hc : isPlainChar c = true)
    (hamp : c ≠ '&') (hrec : decodeText 0 cs = some t) :
    decodeText 0 (c :: cs) = some (c :: t) := by
  simp only [decodeText, hamp, if_false, isPlainChar_ne_cr c hc, isPlainChar_isXmlChar c hc,
    if_true, hrec]

theorem decodeText_escape (s : List Char) (h : s.all isPlainChar = true) :
    decodeText 0 (escape_xml_chars s) = some s := by
  induction s with
  | nil => simp [escape_xml_chars, decodeText]
  | cons c cs ih =>
    simp only [List.all_cons, Bool.and_eq_true] at h
    have ih1 := ih h.2
    by_cases h1 : c = '&'
    · subst h1
      exact decodeText_entity "amp;".data '&' _ cs (by simp +decide [readEntity]) ih1
    by_cases h2 : c = '<'
    · subst h2
      exact decodeText_entity "lt;".data '<' _ cs (by simp +decide [readEntity]) ih1
    by_cases h3 : c = '>'
    · subst h3
      exact decodeText_entity "gt;".data '>' _ cs (by simp +decide [readEntity]) ih1
    by_cases h4 : c = Char.ofNat 39
    · subst h4
      exact decodeText_entity "apos;".data (Char.ofNat 39) _ cs
        (by simp +decide [readEntity]) ih1
    by_cases h5 : c = Char.ofNat 34
    · subst h5
      exact decodeText_entity "quot;".data (Char.ofNat 34) _ cs
        (by simp +decide [readEntity]) ih1
    simp only [escape_xml_chars, h1, h2, h3, h4, h5, if_false, List.singleton_append]
    exact decodeText_plain_cons c _ cs h.1 h1 ih1

theorem escape_xml_chars_no_lt (s : List Char) : ∀ c ∈ escape_xml_chars s, c ≠ '<' := by
  induction s with
  | nil => simp [escape_xml_chars]
  | cons c cs ih =>
    intro d hd
    simp only [escape_xml_chars, List.mem_append] at hd
    rcases hd with hd | hd
    · by_cases h1 : c = '&'
      · simp only [h1, if_true] at hd; revert d; decide
      by_cases h2 : c = '<'
      · simp only [h2] at hd; revert d; decide
      by_cases h3 : c = '>'
      · simp only [h3] at hd; revert d; decide
      by_cases h4 : c = Char.ofNat 39
      · simp only [h4] at hd; revert d; decide
      by_cases h5 : c = Char.ofNat 34
      · simp only [h5] at hd; revert d; decide
      simp only [h1, h2, h3, h4, h5, if_false, List.mem_singleton] at hd
      rw [hd]; exact h2
    · exact ih d hd

theorem escape_xml_chars_ne_nil (s : List Char) (h : s ≠ []) : escape_xml_chars s ≠ [] := by
  cases s with
  | nil => exact absurd rfl h
  | cons c cs =>
    simp only [escape_xml_chars]
    intro hnil
    have := List.append_eq_nil.mp hnil
    revert this
    split_ifs <;> simp

theorem decodeText_raw (s : List Char) (h : s.all isPlainChar = true)
    (hraw : s.all (fun c => c != '<' && c != '&') = true) :
    decodeText 0 s = some s := by
  induction s with
  | nil => simp [decodeText]
  | cons c cs ih =>
    simp only [List.all_cons, Bool.and_eq_true, bne_iff_ne, ne_eq] at h hraw
    exact decodeText_plain_cons c cs cs h.1 hraw.1.2 (ih h.2 (by
      simpa [List.all_eq_true] using hraw.2))

/-! ## Decimal numbers -/

theorem digitChar_facts (d : Nat) (h : d < 10) :
    (Nat.digitChar d).isDigit = true ∧ (Nat.digitChar d).toNat - 48 = d ∧
    isspace (Nat.digitChar d) = false ∧ Nat.digitChar d ≠ '-' ∧ Nat.digitChar d ≠ '+' ∧
    isPlainChar (Nat.digitChar d) = true ∧ Nat.digitChar d ≠ '<' ∧ Nat.digitChar d ≠ '&' := by
  interval_cases d <;> decide

theorem natDigits_digits (fuel n : Nat) :
    ∀ c ∈ natDigits fuel n, ∃ d, d < 10 ∧ c = Nat.digitChar d := by
  induction fuel generalizing n with
  | zero => simp [natDigits]
  | succ f ih =>
    intro c hc
    unfold natDigits at hc
    split_ifs at hc with hlt
    · simp only [List.mem_singleton] at hc
      exact ⟨n, hlt, hc⟩
    · simp only [List.mem_append, List.mem_singleton] at hc
      rcases hc with hc | hc
      · exact ih _ c hc
      · exact ⟨n % 10, Nat.mod_lt _ (by decide), hc⟩

theorem natDigits_ne_nil (f n : Nat) : natDigits (f + 1) n ≠ [] := by
  unfold natDigits
  split_ifs <;> simp

theorem digitsValue_append (acc : Nat) (a b : List Char) :
    digitsValue acc (a ++ b) = digitsValue (digitsValue acc a) b := by
  simp [digitsValue, List.foldl_append]

theorem digitsValue_natDigits (f n : Nat) (h : n < f) :
    digitsValue 0 (natDigits f n) = n := by
  induction f generalizing n with
  | zero => omega
  | succ f ih =>
    unfold natDigits
    split_ifs with hlt
    · simp [digitsValue, (digitChar_facts n hlt).2.1]
    · have hdiv : n / 10 < f := by omega
      rw [digitsValue_append, ih _ hdiv]
      simp only [digitsValue, List.foldl_cons, List.foldl_nil,
        (digitChar_facts (n % 10) (Nat.mod_lt _ (by decide))).2.1]
      omega

theorem nat_to_chars_facts (n : Nat) :
    nat_to_chars n ≠ [] ∧ (∀ c ∈ nat_to_chars n, ∃ d, d < 10 ∧ c = Nat.digitChar d) ∧
    digitsValue 0 (nat_to_chars n) = n :=
  ⟨natDigits_ne_nil n n, natDigits_digits (n + 1) n, digitsValue_natDigits (n + 1) n (by omega)⟩

theorem takeWhile_isDigit_digits (l : List Char)
    (h : ∀ c ∈ l, ∃ d, d < 10 ∧ c = Nat.digitChar d) : l.takeWhile Char.isDigit = l := by
  rw [List.takeWhile_eq_self_iff]
  intro c hc
  obtain ⟨d, hd, rfl⟩ := h c hc
  exact (digitChar_facts d hd).1

theorem parse_int_digits (l : List Char) (hne : l ≠ [])
    (h : ∀ c ∈ l, ∃ d, d < 10 ∧ c = Nat.digitChar d)
    (hr : (digitsValue 0 l : Int) ≤ 2147483647) :
    parse_int l = some (digitsValue 0 l : Int) := by
  cases l with
  | nil => exact absurd rfl hne
  | cons c cs =>
    obtain ⟨d, hd, hcd⟩ := h c (List.mem_cons_self c cs)
    have hf := digitChar_facts d hd
    have hsp : isspace c = false := hcd ▸ hf.2.2.1
    have hm : c ≠ '-' := hcd ▸ hf.2.2.2.1
    have hp : c ≠ '+' := hcd ▸ hf.2.2.2.2.1
    have htw := takeWhile_isDigit_digits (c :: cs) h
    have hnn : (0 : Int) ≤ (digitsValue 0 (c :: cs) : Int) := Int.ofNat_nonneg _
    unfold parse_int
    simp only [List.dropWhile_cons, hsp, Bool.false_eq_true, if_false, List.head?_cons,
      Option.some.injEq, hm, hp, or_self, htw, decide_False]
    simp only [reduceCtorEq, if_false]
    rw [if_pos ⟨by omega, hr⟩]

theorem parse_int_neg_digits (l : List Char) (hne : l ≠ [])
    (h : ∀ c ∈ l, ∃ d, d < 10 ∧ c = Nat.digitChar d)
    (hr : -2147483648 ≤ -(digitsValue 0 l : Int)) :
    parse_int ('-' :: l) = some (-(digitsValue 0 l : Int)) := by
  have htw := takeWhile_isDigit_digits l h
  have hnn : (0 : Int) ≤ (digitsValue 0 l : Int) := Int.ofNat_nonneg _
  have hsp : isspace '-' = false := by decide
  unfold parse_int
  simp only [List.dropWhile_cons, hsp, Bool.false_eq_true, if_false, List.head?_cons,
    true_or, if_true, List.tail_cons, htw, decide_True, hne]
  rw [if_pos ⟨hr, by omega⟩]

theorem parse_int_int_to_chars (v : Int) (h : is_int v = true) :
    parse_int (int_to_chars v) = some v := by
  simp only [is_int, Bool.and_eq_true, decide_eq_true_eq] at h
  cases v with
  | ofNat n =>
    obtain ⟨hne, hd, hv⟩ := nat_to_chars_facts n
    have := parse_int_digits (nat_to_chars n) hne hd (by rw [hv]; exact h.2)
    rw [hv] at this
    exact this
  | negSucc n =>
    obtain ⟨hne, hd, hv⟩ := nat_to_chars_facts (n + 1)
    have hneg : Int.negSucc n = -((n + 1 : Nat) : Int) := rfl
    have := parse_int_neg_digits (nat_to_chars (n + 1)) hne hd (by
      rw [hv, ← hneg]; exact h.1)
    rw [hv, ← hneg] at this
    exact this

theorem int_to_chars_chars (v : Int) :
    (int_to_chars v).all isPlainChar = true ∧
    (int_to_chars v).all (fun c => c != '<' && c != '&') = true := by
  have hdig : ∀ l : List Char, (∀ c ∈ l, ∃ d, d < 10 ∧ c = Nat.digitChar d) →
      l.all isPlainChar = true ∧ l.all (fun c => c != '<' && c != '&') = true := by
    intro l hl
    constructor
    · rw [List.all_eq_true]
      intro c hc
      obtain ⟨d, hd, rfl⟩ := hl c hc
      exact (digitChar_facts d hd).2.2.2.2.2.1
    · rw [List.all_eq_true]
      intro c hc
      obtain ⟨d, hd, rfl⟩ := hl c hc
      have hf := digitChar_facts d hd
      simp [hf.2.2.2.2.2.2.1, hf.2.2.2.2.2.2.2]
  cases v with
  | ofNat n => exact hdig _ (nat_to_chars_facts n).2.1
  | negSucc n =>
    have h := hdig _ (nat_to_chars_facts (n + 1)).2.1
    simp only [int_to_chars, List.all_cons, h.1, h.2, Bool.and_true]
    decide

theorem int_to_chars_ne_nil (v : Int) : int_to_chars v ≠ [] := by
  cases v with
  | ofNat n => exact (nat_to_chars_facts n).1
  | negSucc n => simp [int_to_chars]

theorem all_raw_no_lt (s : List Char)
    (h : s.all (fun c => c != '<' && c != '&') = true) : ∀ c ∈ s, c ≠ '<' := by
  intro c hc
  rw [List.all_eq_true] at h
  have := h c hc
  simp only [Bool.and_eq_true, bne_iff_ne, ne_eq] at this
  exact this.1

/-! ## The text of a record -/

theorem valid_text_facts (s : String) (h : valid_text s = true) :
    s.data ≠ [] ∧ s.data.all isPlainChar = true := by
  simp only [valid_text, Bool.and_eq_true, Bool.not_eq_true', List.isEmpty_eq_false] at h
  exact h

theorem parsesTo_int_leaf (tag : String) (v : Int) (sib : List Char) (next : XmlNodes)
    (htag : valid_xml_name tag.data = true) (hsib : ParsesTo sib next) :
    ParsesTo (openTag tag.data ++ (int_to_chars v ++ (closeTag tag.data ++ sib)))
      (leaf tag (int_to_chars v) next) :=
  parsesTo_leaf tag _ _ sib next htag (int_to_chars_ne_nil v)
    (all_raw_no_lt _ (int_to_chars_chars v).2)
    (decodeText_raw _ (int_to_chars_chars v).1 (int_to_chars_chars v).2) hsib

theorem parsesTo_raw_leaf (tag s : String) (sib : List Char) (next : XmlNodes)
    (htag : valid_xml_name tag.data = true) (hs : valid_raw_text s = true)
    (hsib : ParsesTo sib next) :
    ParsesTo (openTag tag.data ++ (s.data ++ (closeTag tag.data ++ sib)))
      (leaf tag s.data next) := by
  simp only [valid_raw_text, Bool.and_eq_true] at hs
  obtain ⟨hne, hplain⟩ := valid_text_facts s hs.1
  exact parsesTo_leaf tag _ _ sib next htag hne (all_raw_no_lt _ hs.2)
    (decodeText_raw _ hplain hs.2) hsib

theorem parsesTo_escaped_leaf (tag s : String) (sib : List Char) (next : XmlNodes)
    (htag : valid_xml_name tag.data = true) (hs : valid_text s = true)
    (hsib : ParsesTo sib next) :
    ParsesTo (openTag tag.data ++ (escape_xml_chars s.data ++ (closeTag tag.data ++ sib)))
      (leaf tag s.data next) := by
  obtain ⟨hne, hplain⟩ := valid_text_facts s hs
  exact parsesTo_leaf tag _ _ sib next htag (escape_xml_chars_ne_nil _ hne)
    (escape_xml_chars_no_lt _) (decodeText_escape _ hplain) hsib

theorem data_lt : "<".data = ['<'] := rfl
theorem data_gt : ">".data = ['>'] := rfl
theorem data_lt_slash : "</".data = ['<', '/'] := rfl

theorem ids_to_xml_cons (id : Int) (rest : List Int) :
    (ids_to_xml (id :: rest)).data
      = openTag "ID".data ++ (int_to_chars id ++ (closeTag "ID".data ++ (ids_to_xml rest).data)) := by
  simp only [ids_to_xml, String.data_append, List.append_assoc]
  rfl

theorem parsesTo_ids (l : List Int) : ParsesTo (ids_to_xml l).data (ids_nodes l) := by
  induction l with
  | nil => exact parsesTo_nil
  | cons id rest ih =>
    rw [ids_to_xml_cons]
    exact parsesTo_int_leaf "ID" id _ _ (by decide) ih

theorem valid_xml_name_ne_empty (n : String) (h : valid_xml_name n.data = true) : n ≠ "" := by
  rintro rfl
  revert h
  decide

theorem entries_to_xml_cons (kv : String × String) (rest : VectorAttribute)
    (hk : kv.1 ≠ "") :
    (vector_entries_to_xml (kv :: rest)).data
      = openTag kv.1.data ++ (escape_xml_chars kv.2.data ++
          (closeTag kv.1.data ++ (vector_entries_to_xml rest).data)) := by
  simp only [vector_entries_to_xml, hk, if_false, String.data_append, escape_xml, openTag,
    closeTag, data_lt, data_gt, data_lt_slash, List.append_assoc, List.cons_append,
    List.nil_append]

theorem parsesTo_entries (vs : VectorAttribute)
    (h : vs.all (fun kv => valid_xml_name kv.1.data && valid_text kv.2) = true) :
    ParsesTo (vector_entries_to_xml vs).data (entries_nodes vs) := by
  induction vs with
  | nil => exact parsesTo_nil
  | cons kv rest ih =>
    simp only [List.all_cons, Bool.and_eq_true] at h
    rw [entries_to_xml_cons kv rest (valid_xml_name_ne_empty _ h.1.1)]
    exact parsesTo_escaped_leaf kv.1 kv.2 _ _ h.1.1 h.1.2 (ih h.2)

theorem attribute_to_xml_single (n v : String) (rest : Template) :
    (attributes_to_xml (.single n v :: rest)).data
      = openTag n.data ++ (escape_xml_chars v.data ++
          (closeTag n.data ++ (attributes_to_xml rest).data)) := by
  simp only [attributes_to_xml, Attribute.to_xml, String.data_append, escape_xml, openTag,
    closeTag, data_lt, data_gt, data_lt_slash, List.append_assoc, List.cons_append,
    List.nil_append]

theorem attribute_to_xml_vector (n : String) (vs : VectorAttribute) (rest : Template) :
    (attributes_to_xml (.vector n vs :: rest)).data
      = openTag n.data ++ ((vector_entries_to_xml vs).data ++
          (closeTag n.data ++ (attributes_to_xml rest).data)) := by
  simp only [attributes_to_xml, Attribute.to_xml, String.data_append, openTag,
    closeTag, data_lt, data_gt, data_lt_slash, List.append_assoc, List.cons_append,
    List.nil_append]

theorem parsesTo_attributes (t : Template) (h : t.all Attribute.valid = true) :
    ParsesTo (attributes_to_xml t).data (attribute_nodes t) := by
  induction t with
  | nil => exact parsesTo_nil
  | cons a rest ih =>
    simp only [List.all_cons, Bool.and_eq_true] at h
    cases a with
    | single n v =>
      simp only [Attribute.valid, Bool.and_eq_true] at h
      rw [attribute_to_xml_single]
      exact parsesTo_escaped_leaf n v _ _ h.1.1 h.1.2 (ih h.2)
    | vector n vs =>
      simp only [Attribute.valid, valid_entries, Bool.and_eq_true] at h
      rw [attribute_to_xml_vector]
      exact parsesTo_elem n.data _ _ _ _ h.1.1 (parsesTo_entries vs h.1.2.1.2) (ih h.2)

theorem to_xml_data (r : VirtualNetworkStore) :
    r.to_xml.data = tagged "VIRTUALNETWORKSTORE" r.xml_chars [] := by
  simp only [VirtualNetworkStore.to_xml, VirtualNetworkStore.perms_to_xml,
    ObjectCollection.to_xml, Template.to_xml, String.data_append, List.append_assoc,
    List.append_nil, VirtualNetworkStore.xml_chars, tagged]
  rfl

theorem parsesTo_record (r : VirtualNetworkStore) (h : r.valid_record = true) :
    ParsesTo r.xml_chars r.xml_nodes := by
  simp only [VirtualNetworkStore.valid_record, Bool.and_eq_true] at h
  obtain ⟨⟨⟨⟨⟨⟨⟨⟨⟨⟨⟨⟨⟨⟨⟨⟨⟨⟨⟨h1, h2⟩, h3⟩, h4⟩, h5⟩, h6⟩, h7⟩, h8⟩, h9⟩, h10⟩, h11⟩, h12⟩,
    h13⟩, h14⟩, h15⟩, h16⟩, h17⟩, h18⟩, h19⟩, h20⟩ := h
  unfold VirtualNetworkStore.xml_nodes VirtualNetworkStore.perms_nodes
    VirtualNetworkStore.xml_chars
  refine parsesTo_int_leaf "ID" r.oid _ _ (by decide) ?_
  refine parsesTo_int_leaf "UID" r.uid _ _ (by decide) ?_
  refine parsesTo_int_leaf "GID" r.gid _ _ (by decide) ?_
  refine parsesTo_raw_leaf "UNAME" r.uname _ _ (by decide) h4 ?_
  refine parsesTo_raw_leaf "GNAME" r.gname _ _ (by decide) h5 ?_
  refine parsesTo_raw_leaf "NAME" r.name _ _ (by decide) h6 ?_
  refine parsesTo_elem "PERMISSIONS".data _ _ _ _ (by decide) ?_ ?_
  · refine parsesTo_int_leaf "OWNER_U" r.owner_u _ _ (by decide) ?_
    refine parsesTo_int_leaf "OWNER_M" r.owner_m _ _ (by decide) ?_
    refine parsesTo_int_leaf "OWNER_A" r.owner_a _ _ (by decide) ?_
    refine parsesTo_int_leaf "GROUP_U" r.group_u _ _ (by decide) ?_
    refine parsesTo_int_leaf "GROUP_M" r.group_m _ _ (by decide) ?_
    refine parsesTo_int_leaf "GROUP_A" r.group_a _ _ (by decide) ?_
    refine parsesTo_int_leaf "OTHER_U" r.other_u _ _ (by decide) ?_
    refine parsesTo_int_leaf "OTHER_M" r.other_m _ _ (by decide) ?_
    exact parsesTo_int_leaf "OTHER_A" r.other_a _ _ (by decide) parsesTo_nil
  refine parsesTo_escaped_leaf "VN_MAD" r.vn_mad _ _ (by decide) h16 ?_
  refine parsesTo_int_leaf "STATE" r.state _ _ (by decide) ?_
  refine parsesTo_elem "CLUSTERS".data _ _ _ _ (by decide) (parsesTo_ids r.cluster_ids) ?_
  refine parsesTo_elem "VIRTUALNETWORKS".data _ _ _ _ (by decide)
    (parsesTo_ids r.virtual_networks) ?_
  exact parsesTo_elem "TEMPLATE".data _ _ _ _ (by decide)
    (parsesTo_attributes r.obj_template h20) parsesTo_nil

theorem update_from_str_to_xml (r : VirtualNetworkStore) (h : r.valid_record = true) :
    update_from_str r.to_xml = r.xml_document := by
  have hp := parsesTo_elem "VIRTUALNETWORKSTORE".data r.xml_chars [] _ _ (by decide)
    (parsesTo_record r h) parsesTo_nil []
    ((tagged "VIRTUALNETWORKSTORE" r.xml_chars []).length + 1) (Or.inl rfl)
    (by simp [tagged])
  rw [List.append_nil] at hp
  unfold update_from_str
  rw [to_xml_data]
  unfold tagged at hp ⊢
  rw [hp]
  rfl

/-! ## Reading the document of a record -/

theorem xpath_int_value (doc : ObjectXML) (path : String) (dflt v : Int) (rest : List String)
    (hv : is_int v = true) (h : doc.xpaths path = int_to_str v :: rest) :
    doc.xpath_int path dflt = (0, v) := by
  simp only [ObjectXML.xpath_int, h, int_to_str, parse_int_int_to_chars v hv]

theorem xpath_str_value (doc : ObjectXML) (path : String) (dflt v : String)
    (rest : List String) (h : doc.xpaths path = v :: rest) :
    doc.xpath_str path dflt = (0, v) := by
  simp only [ObjectXML.xpath_str, h]

set_option maxRecDepth 10000 in
theorem xpaths_record (r : VirtualNetworkStore) :
    r.xml_document.xpaths "/VIRTUALNETWORKSTORE/ID" = [int_to_str r.oid] ∧
    r.xml_document.xpaths "/VIRTUALNETWORKSTORE/UID" = [int_to_str r.uid] ∧
    r.xml_document.xpaths "/VIRTUALNETWORKSTORE/GID" = [int_to_str r.gid] ∧
    r.xml_document.xpaths "/VIRTUALNETWORKSTORE/UNAME" = [r.uname] ∧
    r.xml_document.xpaths "/VIRTUALNETWORKSTORE/GNAME" = [r.gname] ∧
    r.xml_document.xpaths "/VIRTUALNETWORKSTORE/NAME" = [r.name] ∧
    r.xml_document.xpaths "/VIRTUALNETWORKSTORE/VN_MAD" = [r.vn_mad] ∧
    r.xml_document.xpaths "/VIRTUALNETWORKSTORE/STATE" = [int_to_str r.state] := by
  have s1 : (split "/VIRTUALNETWORKSTORE/ID" '/').map String.data
      = ["VIRTUALNETWORKSTORE".data, "ID".data] := by decide
  have s2 : (split "/VIRTUALNETWORKSTORE/UID" '/').map String.data
      = ["VIRTUALNETWORKSTORE".data, "UID".data] := by decide
  have s3 : (split "/VIRTUALNETWORKSTORE/GID" '/').map String.data
      = ["VIRTUALNETWORKSTORE".data, "GID".data] := by decide
  have s4 : (split "/VIRTUALNETWORKSTORE/UNAME" '/').map String.data
      = ["VIRTUALNETWORKSTORE".data, "UNAME".data] := by decide
  have s5 : (split "/VIRTUALNETWORKSTORE/GNAME" '/').map String.data
      = ["VIRTUALNETWORKSTORE".data, "GNAME".data] := by decide
  have s6 : (split "/VIRTUALNETWORKSTORE/NAME" '/').map String.data
      = ["VIRTUALNETWORKSTORE".data, "NAME".data] := by decide
  have s7 : (split "/VIRTUALNETWORKSTORE/VN_MAD" '/').map String.data
      = ["VIRTUALNETWORKSTORE".data, "VN_MAD".data] := by decide
  have s8 : (split "/VIRTUALNETWORKSTORE/STATE" '/').map String.data
      = ["VIRTUALNETWORKSTORE".data, "STATE".data] := by decide
  refine ⟨?_, ?_, ?_, ?_, ?_, ?_, ?_, ?_⟩ <;>
    simp +decide only [ObjectXML.xpaths, ObjectXML.get_nodes, VirtualNetworkStore.xml_document, s1, s2, s3, s4, s5,
      s6, s7, s8, XmlNodes.walk, XmlNodes.select, VirtualNetworkStore.xml_nodes, leaf,
      List.flatMap_cons, List.flatMap_nil, List.append_nil, List.filterMap_cons,
      List.filterMap_nil, XmlNodes.content, int_to_str, if_true, if_false, or_self, or_true, true_or, or_false, false_or]


set_option maxRecDepth 10000 in
theorem xpaths_perms (r : VirtualNetworkStore) :
    r.xml_document.xpaths "/*/PERMISSIONS/OWNER_U" = [int_to_str r.owner_u] ∧
    r.xml_document.xpaths "/*/PERMISSIONS/OWNER_M" = [int_to_str r.owner_m] ∧
    r.xml_document.xpaths "/*/PERMISSIONS/OWNER_A" = [int_to_str r.owner_a] ∧
    r.xml_document.xpaths "/*/PERMISSIONS/GROUP_U" = [int_to_str r.group_u] ∧
    r.xml_document.xpaths "/*/PERMISSIONS/GROUP_M" = [int_to_str r.group_m] ∧
    r.xml_document.xpaths "/*/PERMISSIONS/GROUP_A" = [int_to_str r.group_a] ∧
    r.xml_document.xpaths "/*/PERMISSIONS/OTHER_U" = [int_to_str r.other_u] ∧
    r.xml_document.xpaths "/*/PERMISSIONS/OTHER_M" = [int_to_str r.other_m] ∧
    r.xml_document.xpaths "/*/PERMISSIONS/OTHER_A" = [int_to_str r.other_a] := by
  have s1 : (split "/*/PERMISSIONS/OWNER_U" '/').map String.data
      = [['*'], "PERMISSIONS".data, "OWNER_U".data] := by decide
  have s2 : (split "/*/PERMISSIONS/OWNER_M" '/').map String.data
      = [['*'], "PERMISSIONS".data, "OWNER_M".data] := by decide
  have s3 : (split "/*/PERMISSIONS/OWNER_A" '/').map String.data
      = [['*'], "PERMISSIONS".data, "OWNER_A".data] := by decide
  have s4 : (split "/*/PERMISSIONS/GROUP_U" '/').map String.data
      = [['*'], "PERMISSIONS".data, "GROUP_U".data] := by decide
  have s5 : (split "/*/PERMISSIONS/GROUP_M" '/').map String.data
      = [['*'], "PERMISSIONS".data, "GROUP_M".data] := by decide
  have s6 : (split "/*/PERMISSIONS/GROUP_A" '/').map String.data
      = [['*'], "PERMISSIONS".data, "GROUP_A".data] := by decide
  have s7 : (split "/*/PERMISSIONS/OTHER_U" '/').map String.data
      = [['*'], "PERMISSIONS".data, "OTHER_U".data] := by decide
  have s8 : (split "/*/PERMISSIONS/OTHER_M" '/').map String.data
      = [['*'], "PERMISSIONS".data, "OTHER_M".data] := by decide
  have s9 : (split "/*/PERMISSIONS/OTHER_A" '/').map String.data
      = [['*'], "PERMISSIONS".data, "OTHER_A".data] := by decide
  refine ⟨?_, ?_, ?_, ?_, ?_, ?_, ?_, ?_, ?_⟩ <;>
    simp +decide only [ObjectXML.xpaths, ObjectXML.get_nodes, VirtualNetworkStore.xml_document,
      s1, s2, s3, s4, s5, s6, s7, s8, s9, XmlNodes.walk, XmlNodes.select,
      VirtualNetworkStore.xml_nodes, VirtualNetworkStore.perms_nodes, leaf,
      List.flatMap_cons, List.flatMap_nil, List.append_nil, List.filterMap_cons,
      List.filterMap_nil, XmlNodes.content, int_to_str, if_true, if_false, or_self, or_true,
      true_or, or_false, false_or]

set_option maxRecDepth 10000 in
theorem get_nodes_record (r : VirtualNetworkStore) :
    r.xml_document.get_nodes ("/VIRTUALNETWORKSTORE/" ++ "VIRTUALNETWORKS")
      = [("VIRTUALNETWORKS".data, ids_nodes r.virtual_networks)] ∧
    r.xml_document.get_nodes ("/VIRTUALNETWORKSTORE/" ++ "CLUSTERS")
      = [("CLUSTERS".data, ids_nodes r.cluster_ids)] ∧
    r.xml_document.get_nodes "/VIRTUALNETWORKSTORE/TEMPLATE"
      = [("TEMPLATE".data, attribute_nodes r.obj_template)] := by
  have s1 : (split ("/VIRTUALNETWORKSTORE/" ++ "VIRTUALNETWORKS") '/').map String.data
      = ["VIRTUALNETWORKSTORE".data, "VIRTUALNETWORKS".data] := by decide
  have s2 : (split ("/VIRTUALNETWORKSTORE/" ++ "CLUSTERS") '/').map String.data
      = ["VIRTUALNETWORKSTORE".data, "CLUSTERS".data] := by decide
  have s3 : (split "/VIRTUALNETWORKSTORE/TEMPLATE" '/').map String.data
      = ["VIRTUALNETWORKSTORE".data, "TEMPLATE".data] := by decide
  refine ⟨?_, ?_, ?_⟩ <;>
    simp +decide only [ObjectXML.get_nodes, VirtualNetworkStore.xml_document,
      s1, s2, s3, XmlNodes.walk, XmlNodes.select,
      VirtualNetworkStore.xml_nodes, leaf,
      List.flatMap_cons, List.flatMap_nil, List.append_nil, if_true, if_false, or_self, or_true,
      true_or, or_false, false_or]

/-! ## Sets of ids -/

theorem select_ids_nodes (l : List Int) :
    ((ids_nodes l).select "ID".data).filterMap (fun e => e.2.content)
      = l.map int_to_str := by
  induction l with
  | nil => simp [ids_nodes, XmlNodes.select]
  | cons id rest ih =>
    simp only [ids_nodes, leaf, XmlNodes.select, or_true, if_true, List.filterMap_cons,
      XmlNodes.content, List.map_cons, int_to_str]
    exact congrArg (List.cons _) ih

theorem xpaths_collection (name : String) (l : List Int)
    (hs : (split ("/" ++ name ++ "/ID") '/').map String.data = [name.data, "ID".data]) :
    (ObjectXML.of_node (name.data, ids_nodes l)).xpaths ("/" ++ name ++ "/ID")
      = l.map int_to_str := by
  simp only [ObjectXML.xpaths, ObjectXML.get_nodes, ObjectXML.of_node, hs, XmlNodes.walk,
    XmlNodes.select, or_true, if_true, List.flatMap_cons, List.flatMap_nil, List.append_nil]
  exact select_ids_nodes l

theorem set_insert_last (x : Int) (acc : List Int) (h : ∀ y ∈ acc, y < x) :
    set_insert x acc = acc ++ [x] := by
  induction acc with
  | nil => rfl
  | cons y ys ih =>
    have hy : y < x := h y (List.mem_cons_self y ys)
    have h1 : ¬ x < y := by omega
    have h2 : ¬ x = y := by omega
    simp only [set_insert, h1, h2, if_false, List.cons_append,
      ih (fun z hz => h z (List.mem_cons_of_mem y hz))]

theorem ascending_chain (l : List Int) (h : ascending l = true) : l.Chain' (· < ·) := by
  induction l with
  | nil => exact List.chain'_nil
  | cons a rest ih =>
    cases rest with
    | nil => exact List.chain'_singleton a
    | cons b rest2 =>
      simp only [ascending, Bool.and_eq_true, decide_eq_true_eq] at h
      refine List.chain'_cons.mpr ⟨h.1, ih ?_⟩
      simp only [ascending, Bool.and_eq_true]
      exact h.2

theorem foldl_set_insert (l acc : List Int) (h : (acc ++ l).Pairwise (· < ·)) :
    l.foldl (fun s x => set_insert x s) acc = acc ++ l := by
  induction l generalizing acc with
  | nil => simp
  | cons x rest ih =>
    have hx : ∀ y ∈ acc, y < x := by
      intro y hy
      exact (List.pairwise_append.mp h).2.2 y hy x (List.mem_cons_self x rest)
    rw [List.foldl_cons, set_insert_last x acc hx, ih (acc ++ [x]) (by simpa using h)]
    simp

theorem collection_foldl (l : List Int) (acc : List Int) (rc : Int)
    (h : l.all is_int = true) :
    (l.map int_to_str).foldl ObjectCollection.read_id (rc, acc)
      = (rc, l.foldl (fun s x => set_insert x s) acc) := by
  induction l generalizing acc with
  | nil => rfl
  | cons x rest ih =>
    simp only [List.all_cons, Bool.and_eq_true] at h
    simp only [List.map_cons, List.foldl_cons, ObjectCollection.read_id, int_to_str,
      parse_int_int_to_chars x h.1]
    exact ih _ h.2

theorem collection_from_xml_node (name : String) (l : List Int)
    (hs : (split ("/" ++ name ++ "/ID") '/').map String.data = [name.data, "ID".data])
    (h : valid_id_set l = true) :
    ObjectCollection.from_xml_node name [] (name.data, ids_nodes l) = (0, l) := by
  simp only [valid_id_set, Bool.and_eq_true] at h
  have hp : ([] ++ l).Pairwise (· < ·) := by
    rw [List.nil_append]
    exact List.chain'_iff_pairwise.mp (ascending_chain l h.2)
  unfold ObjectCollection.from_xml_node
  rw [xpaths_collection name l hs, collection_foldl l [] 0 h.1, foldl_set_insert l [] hp]
  rfl

/-! ## Rebuilding the template -/

theorem replace_fresh (acc : VectorAttribute) (k v : String) (h : ∀ a ∈ acc, a.1 ≠ k) :
    VectorAttribute.replace acc k v = acc ++ [(k, v)] := by
  unfold VectorAttribute.replace
  congr 1
  rw [List.filter_eq_self]
  intro a ha
  simpa using h a ha

theorem vector_xml_entries_nodes (vs acc : VectorAttribute)
    (hd : distinct_keys vs = true) (hacc : ∀ kv ∈ vs, ∀ a ∈ acc, a.1 ≠ kv.1) :
    vector_xml_entries (entries_nodes vs) acc = acc ++ vs := by
  induction vs generalizing acc with
  | nil => simp [entries_nodes, vector_xml_entries]
  | cons kv rest ih =>
    simp only [distinct_keys, Bool.and_eq_true, List.all_eq_true, bne_iff_ne, ne_eq] at hd
    have hfresh : ∀ a ∈ acc, a.1 ≠ kv.1 := hacc kv (List.mem_cons_self kv rest)
    have hrec : ∀ e ∈ rest, ∀ a ∈ acc ++ [(kv.1, kv.2)], a.1 ≠ e.1 := by
      intro e he a ha
      rcases List.mem_append.mp ha with ha | ha
      · exact hacc e (List.mem_cons_of_mem kv he) a ha
      · simp only [List.mem_singleton] at ha
        rw [ha]
        exact fun hk => hd.1 e he hk.symm
    simp only [entries_nodes, vector_xml_entries]
    rw [replace_fresh acc _ _ hfresh, ih _ hd.2 hrec]
    simp

theorem rebuild_attribute_nodes (t : Template) (h : t.all Attribute.valid = true) :
    rebuild_attributes (attribute_nodes t) = t := by
  induction t with
  | nil => rfl
  | cons a rest ih =>
    simp only [List.all_cons, Bool.and_eq_true] at h
    cases a with
    | single n v =>
      simp only [attribute_nodes, rebuild_attributes, single_xml_att, ih h.2]
    | vector n vs =>
      simp only [Attribute.valid, valid_entries, Bool.and_eq_true, Bool.not_eq_true',
        List.isEmpty_eq_false] at h
      obtain ⟨⟨_, ⟨hne, _⟩, hdk⟩, hrest⟩ := h
      cases vs with
      | nil => exact absurd rfl hne
      | cons kv more =>
        have hv := vector_xml_entries_nodes (kv :: more) [] hdk (by simp)
        simp only [entries_nodes, List.nil_append] at hv
        simp only [attribute_nodes, entries_nodes, rebuild_attributes, single_xml_att,
          vector_xml_att, XmlNodes.from_first_element, hv, ih hrest]

theorem template_from_xml_node (t : Template) (h : t.all Attribute.valid = true) :
    Template.from_xml_node ("TEMPLATE".data, attribute_nodes t) = (0, t) := by
  simp only [Template.from_xml_node, rebuild_attribute_nodes t h]

theorem valid_record_fields (r : VirtualNetworkStore) (h : r.valid_record = true) :
    (is_int r.oid = true ∧ is_int r.uid = true ∧ is_int r.gid = true ∧ is_int r.state = true) ∧
    (is_int r.owner_u = true ∧ is_int r.owner_m = true ∧ is_int r.owner_a = true ∧
     is_int r.group_u = true ∧ is_int r.group_m = true ∧ is_int r.group_a = true ∧
     is_int r.other_u = true ∧ is_int r.other_m = true ∧ is_int r.other_a = true) ∧
    valid_id_set r.cluster_ids = true ∧ valid_id_set r.virtual_networks = true ∧
    r.obj_template.all Attribute.valid = true := by
  simp only [VirtualNetworkStore.valid_record, Bool.and_eq_true] at h
  obtain ⟨⟨⟨⟨⟨⟨⟨⟨⟨⟨⟨⟨⟨⟨⟨⟨⟨⟨⟨h1, h2⟩, h3⟩, h4⟩, h5⟩, h6⟩, h7⟩, h8⟩, h9⟩, h10⟩, h11⟩, h12⟩,
    h13⟩, h14⟩, h15⟩, h16⟩, h17⟩, h18⟩, h19⟩, h20⟩ := h
  exact ⟨⟨h1, h2, h3, h17⟩, ⟨h7, h8, h9, h10, h11, h12, h13, h14, h15⟩, h18, h19, h20⟩

theorem perms_from_xml_document (self r : VirtualNetworkStore) (h : r.valid_record = true) :
    self.perms_from_xml r.xml_document
      = (0, { self with
              owner_u := r.owner_u, owner_m := r.owner_m, owner_a := r.owner_a,
              group_u := r.group_u, group_m := r.group_m, group_a := r.group_a,
              other_u := r.other_u, other_m := r.other_m, other_a := r.other_a }) := by
  obtain ⟨_, ⟨p1, p2, p3, p4, p5, p6, p7, p8, p9⟩, _⟩ := valid_record_fields r h
  obtain ⟨x1, x2, x3, x4, x5, x6, x7, x8, x9⟩ := xpaths_perms r
  simp only [VirtualNetworkStore.perms_from_xml,
    xpath_int_value _ _ 0 _ [] p1 x1, xpath_int_value _ _ 0 _ [] p2 x2,
    xpath_int_value _ _ 0 _ [] p3 x3, xpath_int_value _ _ 0 _ [] p4 x4,
    xpath_int_value _ _ 0 _ [] p5 x5, xpath_int_value _ _ 0 _ [] p6 x6,
    xpath_int_value _ _ 0 _ [] p7 x7, xpath_int_value _ _ 0 _ [] p8 x8,
    xpath_int_value _ _ 0 _ [] p9 x9, add_zero]

theorem collection_from_xml_document (r : VirtualNetworkStore) (h : r.valid_record = true) :
    ObjectCollection.from_xml "VIRTUALNETWORKS" [] r.xml_document "/VIRTUALNETWORKSTORE/"
      = (0, r.virtual_networks) ∧
    ObjectCollection.from_xml "CLUSTERS" [] r.xml_document "/VIRTUALNETWORKSTORE/"
      = (0, r.cluster_ids) := by
  obtain ⟨_, _, hc, hv, _⟩ := valid_record_fields r h
  obtain ⟨g1, g2, _⟩ := get_nodes_record r
  constructor
  · simp only [ObjectCollection.from_xml, g1]
    exact collection_from_xml_node "VIRTUALNETWORKS" _ (by decide) hv
  · simp only [ObjectCollection.from_xml, g2]
    exact collection_from_xml_node "CLUSTERS" _ (by decide) hc

theorem from_xml_to_xml (self r : VirtualNetworkStore) (h : r.valid_record = true)
    (hvn : self.virtual_networks = []) (hcl : self.cluster_ids = []) :
    self.from_xml r.to_xml = (0, { r with valid := self.valid }) := by
  obtain ⟨⟨i1, i2, i3, i4⟩, _, _, _, ht⟩ := valid_record_fields r h
  obtain ⟨x1, x2, x3, x4, x5, x6, x7, x8⟩ := xpaths_record r
  obtain ⟨_, _, g3⟩ := get_nodes_record r
  obtain ⟨c1, c2⟩ := collection_from_xml_document r h
  have e1 := xpath_int_value _ _ (-1) _ [] i1 x1
  have e2 := xpath_int_value _ _ (-1) _ [] i2 x2
  have e3 := xpath_int_value _ _ (-1) _ [] i3 x3
  have e4 := xpath_int_value _ _ 0 _ [] i4 x8
  have e5 := xpath_str_value _ _ "not_found" _ [] x4
  have e6 := xpath_str_value _ _ "not_found" _ [] x5
  have e7 := xpath_str_value _ _ "not_found" _ [] x6
  have e8 := xpath_str_value _ _ "not_found" _ [] x7
  have et := template_from_xml_node r.obj_template ht
  unfold VirtualNetworkStore.from_xml
  rw [update_from_str_to_xml r h]
  simp only [e1, e2, e3, e4, e5, e6, e7, e8]
  simp only [perms_from_xml_document _ r h]
  simp only [hvn, hcl, c1, c2, g3, et]
  simp

/-! ## Allocation -/

theorem get_none (pool : VirtualNetworkStorePool) (nd : Nebula) (name : String)
    (h : (pool.get nd name).1 = none) :
    (pool.get nd name).2 = pool ∧
    pool.cache.find? (fun o => decide (o.name = name) && o.valid) = none := by
  cases hc : pool.cache.find? (fun o => decide (o.name = name) && o.valid) with
  | some o => simp [VirtualNetworkStorePool.get, hc] at h
  | none =>
    refine ⟨?_, rfl⟩
    cases hr : pool.db.rows.find? (fun r => decide (r.name = name)) with
    | none => simp [VirtualNetworkStorePool.get, hc, hr]
    | some row =>
      by_cases hd : ((VirtualNetworkStorePool.create nd).from_xml row.body).1 = 0
      · simp [VirtualNetworkStorePool.get, hc, hr, hd] at h
      · simp [VirtualNetworkStorePool.get, hc, hr, hd]

theorem get_some (pool : VirtualNetworkStorePool) (nd : Nebula) (name : String)
    (aux : VirtualNetworkStore) (h : (pool.get nd name).1 = some aux) :
    (pool.get nd name).2.db = pool.db ∧ (pool.get nd name).2.lastOID = pool.lastOID ∧
    ∀ o ∈ (pool.get nd name).2.cache, o ∈ pool.cache ∨ o = aux := by
  cases hc : pool.cache.find? (fun o => decide (o.name = name) && o.valid) with
  | some o =>
    simp only [VirtualNetworkStorePool.get, hc, true_and]
    exact fun o ho => Or.inl ho
  | none =>
    cases hr : pool.db.rows.find? (fun r => decide (r.name = name)) with
    | none => simp [VirtualNetworkStorePool.get, hc, hr] at h
    | some row =>
      by_cases hd : ((VirtualNetworkStorePool.create nd).from_xml row.body).1 = 0
      · simp only [VirtualNetworkStorePool.get, hc, hr, hd, ne_eq, not_true_eq_false,
          if_false, Option.some.injEq] at h
        simp only [VirtualNetworkStorePool.get, hc, hr, hd, ne_eq, not_true_eq_false,
          if_false, h, List.mem_append, List.mem_singleton, true_and]
        exact fun o ho => ho
      · simp [VirtualNetworkStorePool.get, hc, hr, hd] at h

theorem allocate_duplicated (pool : VirtualNetworkStorePool) (ext : Externals)
    (uid gid : Int) (uname gname : String) (umask : Int) (vns_template : Option Template)
    (cluster_ids : List Int) (error_str : String) (aux : VirtualNetworkStore)
    (hname : (ext.name_is_valid
      ((VirtualNetworkStore.new ext.nd uid gid uname gname umask vns_template
        cluster_ids).get_template_attribute "NAME") error_str).1 = true)
    (hfound : (pool.get ext.nd
      ((VirtualNetworkStore.new ext.nd uid gid uname gname umask vns_template
        cluster_ids).get_template_attribute "NAME")).1 = some aux) :
    pool.allocate ext uid gid uname gname umask vns_template cluster_ids error_str
      = (-1, -1, "NAME is already taken by VIRTUALNETWORKSTORE " ++ int_to_str aux.oid ++ ".",
          (pool.get ext.nd
            ((VirtualNetworkStore.new ext.nd uid gid uname gname umask vns_template
              cluster_ids).get_template_attribute "NAME")).2) := by
  unfold VirtualNetworkStorePool.allocate
  simp only [hname, hfound]
  simp

theorem exec_facts (db : SqlDB) (cmd : SqlCmd) :
    (db.exec cmd).1 = db.verdict db.rows cmd ∧
    (db.exec cmd).2.journal = db.journal ++ [cmd] ∧
    (db.exec cmd).2.verdict = db.verdict ∧ (db.exec cmd).2.escape_str = db.escape_str := by
  unfold SqlDB.exec
  by_cases h : db.verdict db.rows cmd = 0
  · cases cmd <;> simp [h, SqlDB.apply]
  · simp [h]

theorem exec_insert_row (db : SqlDB) (row : Row) (h : (db.exec (.insert_row row)).1 = 0) :
    (db.exec (.insert_row row)).2.rows = db.rows ++ [row] := by
  unfold SqlDB.exec at h ⊢
  by_cases hv : db.verdict db.rows (.insert_row row) = 0
  · simp [hv, SqlDB.apply]
  · simp [hv] at h

theorem exec_update_last_oid (db : SqlDB) (n : Int) :
    (db.exec (.update_last_oid n)).2.rows = db.rows := by
  unfold SqlDB.exec
  by_cases hv : db.verdict db.rows (.update_last_oid n) = 0
  · simp [hv, SqlDB.apply]
  · simp [hv]

theorem insert_replace_ok (self : VirtualNetworkStore) (db : SqlDB) (error_str : String)
    (h : (self.insert_replace db false error_str).1 = 0) :
    (self.insert_replace db false error_str).2.2.rows = db.rows ++ [self.row] ∧
    (self.insert_replace db false error_str).2.2.journal
      = db.journal ++ [SqlCmd.insert_row self.row] := by
  unfold VirtualNetworkStore.insert_replace at h ⊢
  cases h1 : db.escape_str self.name with
  | none => simp [h1] at h
  | some a =>
    cases h2 : db.escape_str self.to_xml with
    | none => simp [h1, h2] at h
    | some sql_xml =>
      by_cases h3 : validate_xml sql_xml = 0
      · simp only [h1, h2, h3, ne_eq, not_true_eq_false, if_false, Bool.false_eq_true] at h ⊢
        exact ⟨exec_insert_row db self.row h, (exec_facts db _).2.1⟩
      · simp [h1, h2, h3] at h

theorem insert_ok (self : VirtualNetworkStore) (nd : Nebula) (db : SqlDB) (error_str : String)
    (h : (self.insert nd db error_str).1 = 0) :
    self.insert_read_template.vn_mad ≠ "" ∧
    (self.insert nd db error_str).2.2.2.rows = db.rows ++ [self.insert_read_template.row] ∧
    (self.insert nd db error_str).2.2.2.journal
      = db.journal ++ [SqlCmd.insert_row self.insert_read_template.row] := by
  unfold VirtualNetworkStore.insert at h ⊢
  by_cases h1 : self.insert_read_template.vn_mad = ""
  · simp [h1] at h
  · by_cases h2 : (self.insert_read_template.set_vn_mad nd self.insert_read_template.vn_mad
        error_str).1 = 0
    · simp only [h1, h2, if_false, ne_eq, not_true_eq_false] at h ⊢
      exact ⟨not_false, insert_replace_ok _ db _ h⟩
    · simp [h1, h2] at h

theorem PoolSQL_allocate_ok (pool : VirtualNetworkStorePool) (nd : Nebula)
    (vns : VirtualNetworkStore) (error_str : String)
    (h : 0 ≤ (pool.PoolSQL_allocate nd vns error_str).1) :
    (pool.PoolSQL_allocate nd vns error_str).1 = pool.next_oid ∧
    (pool.PoolSQL_allocate nd vns error_str).2.2.cache = pool.cache ∧
    (pool.PoolSQL_allocate nd vns error_str).2.2.lastOID = pool.next_oid ∧
    (pool.PoolSQL_allocate nd vns error_str).2.2.db.rows
      = pool.db.rows ++
          [(({ vns with oid := pool.next_oid, valid := true } : VirtualNetworkStore)
              ).insert_read_template.row] ∧
    (pool.PoolSQL_allocate nd vns error_str).2.2.db.journal
      = pool.db.journal ++
          [SqlCmd.insert_row (({ vns with oid := pool.next_oid, valid := true }
              : VirtualNetworkStore)).insert_read_template.row,
           SqlCmd.update_last_oid pool.next_oid] ∧
    (({ vns with oid := pool.next_oid, valid := true } : VirtualNetworkStore)
        ).insert_read_template.vn_mad ≠ "" := by
  unfold VirtualNetworkStorePool.PoolSQL_allocate at h ⊢
  by_cases hi : (({ vns with oid := pool.next_oid, valid := true }
      : VirtualNetworkStore).insert nd pool.db error_str).1 = 0
  · obtain ⟨hm, hrows, hj⟩ := insert_ok _ nd pool.db error_str hi
    simp only [hi, ne_eq, not_true_eq_false, if_false] at h ⊢
    have hne : pool.next_oid ≠ -1 := by
      intro heq
      simp [heq] at h
    simp only [hne, not_false_eq_true, if_true, exec_update_last_oid, hrows,
      (exec_facts _ _).2.1, hj, List.append_assoc, List.singleton_append, true_and]
    exact hm
  · simp [hi] at h

theorem is_int_perm_bit (perms umask : Int) (bit : Nat) :
    is_int (VirtualNetworkStore.perm_bit perms umask bit) = true := by
  unfold VirtualNetworkStore.perm_bit
  split_ifs <;> decide

theorem template_get_valid (t : Template) (k : String) (h : t.all Attribute.valid = true)
    (hne : t.get k ≠ "") : valid_text (t.get k) = true := by
  induction t with
  | nil => simp [Template.get] at hne
  | cons a rest ih =>
    simp only [List.all_cons, Bool.and_eq_true] at h
    cases a with
    | single n v =>
      simp only [Template.get] at hne ⊢
      by_cases hn : n = k
      · simp only [hn, if_true] at hne ⊢
        simp only [Attribute.valid, Bool.and_eq_true] at h
        exact h.1.2
      · simp only [hn, if_false] at hne ⊢
        exact ih h.2 hne
    | vector n vs =>
      simp only [Template.get] at hne ⊢
      exact ih h.2 hne

theorem template_erase_valid (t : Template) (k : String) (h : t.all Attribute.valid = true) :
    (t.erase k).all Attribute.valid = true := by
  rw [List.all_eq_true] at h ⊢
  intro a ha
  unfold Template.erase at ha
  exact h a (List.mem_filter.mp ha).1

theorem stored_valid (nd : Nebula) (uid gid : Int) (uname gname : String) (umask : Int)
    (tmpl : Template) (cluster_ids : List Int) (n : Int)
    (hoid : is_int n = true) (huid : is_int uid = true) (hgid : is_int gid = true)
    (huname : valid_raw_text uname = true) (hgname : valid_raw_text gname = true)
    (hname : valid_raw_text (tmpl.get "NAME") = true)
    (hcl : valid_id_set cluster_ids = true) (htmpl : tmpl.all Attribute.valid = true)
    (hmad : (({ VirtualNetworkStore.new nd uid gid uname gname umask (some tmpl) cluster_ids
                with oid := n, valid := true } : VirtualNetworkStore)
              ).insert_read_template.vn_mad ≠ "") :
    (({ VirtualNetworkStore.new nd uid gid uname gname umask (some tmpl) cluster_ids
        with oid := n, valid := true } : VirtualNetworkStore)
      ).insert_read_template.valid_record = true ∧
    (({ VirtualNetworkStore.new nd uid gid uname gname umask (some tmpl) cluster_ids
        with oid := n, valid := true } : VirtualNetworkStore)
      ).insert_read_template.name = tmpl.get "NAME" := by
  have he := template_erase_valid tmpl "NAME" htmpl
  simp only [VirtualNetworkStore.insert_read_template, VirtualNetworkStore.erase_template_attribute,
    VirtualNetworkStore.new, VirtualNetworkStore.set_umask,
    VirtualNetworkStore.get_template_attribute] at hmad ⊢
  have hm := template_get_valid _ "VN_MAD" he hmad
  simp only [VirtualNetworkStore.valid_record, hoid, huid, hgid, huname, hgname, hname,
    is_int_perm_bit, hm, hcl, he, Bool.and_true, Bool.true_and, READY, and_true]
  decide

theorem get_after_insert (pool : VirtualNetworkStorePool) (nd : Nebula) (n : String)
    (old : List Row) (s : VirtualNetworkStore)
    (hc : pool.cache.find? (fun o => decide (o.name = n) && o.valid) = none)
    (hrows : pool.db.rows = old ++ [s.row]) (hold : ∀ row ∈ old, row.name ≠ n)
    (hs : s.valid_record = true) (hn : s.name = n) :
    (pool.get nd n).1 = some { s with valid := true } ∧ (pool.get nd n).2.db = pool.db := by
  have hfind : pool.db.rows.find? (fun r => decide (r.name = n)) = some s.row := by
    rw [hrows, List.find?_append]
    have h1 : old.find? (fun r => decide (r.name = n)) = none := by
      rw [List.find?_eq_none]
      intro row hrow
      simpa using hold row hrow
    rw [h1]
    simp [VirtualNetworkStore.row, hn]
  have hdec := from_xml_to_xml (VirtualNetworkStorePool.create nd) s hs rfl rfl
  have hbody : s.row.body = s.to_xml := rfl
  have hv : (VirtualNetworkStorePool.create nd).valid = true := rfl
  simp only [VirtualNetworkStorePool.get, hc, hfind, hbody, hdec, hv, ne_eq, not_true_eq_false,
    if_false, and_self]

theorem allocate_fail_name (pool : VirtualNetworkStorePool) (ext : Externals)
    (uid gid : Int) (uname gname : String) (umask : Int) (vns_template : Option Template)
    (cluster_ids : List Int) (error_str : String)
    (hname : (ext.name_is_valid
      ((VirtualNetworkStore.new ext.nd uid gid uname gname umask vns_template
        cluster_ids).get_template_attribute "NAME") error_str).1 = false) :
    (pool.allocate ext uid gid uname gname umask vns_template cluster_ids error_str).1 = -1 ∧
    (pool.allocate ext uid gid uname gname umask vns_template cluster_ids error_str).2.1 = -1 ∧
    (pool.allocate ext uid gid uname gname umask vns_template cluster_ids error_str).2.2.2
      = pool := by
  unfold VirtualNetworkStorePool.allocate
  simp only [hname, if_true, and_self]

theorem allocate_ok (pool : VirtualNetworkStorePool) (ext : Externals)
    (uid gid : Int) (uname gname : String) (umask : Int) (vns_template : Option Template)
    (cluster_ids : List Int) (error_str : String)
    (h : 0 ≤ (pool.allocate ext uid gid uname gname umask vns_template cluster_ids
              error_str).1) :
    (pool.get ext.nd ((VirtualNetworkStore.new ext.nd uid gid uname gname umask vns_template
        cluster_ids).get_template_attribute "NAME")).1 = none ∧
    pool.allocate ext uid gid uname gname umask vns_template cluster_ids error_str
      = ((pool.PoolSQL_allocate ext.nd
            (VirtualNetworkStore.new ext.nd uid gid uname gname umask vns_template cluster_ids)
            (ext.name_is_valid ((VirtualNetworkStore.new ext.nd uid gid uname gname umask
              vns_template cluster_ids).get_template_attribute "NAME") error_str).2).1,
         (pool.PoolSQL_allocate ext.nd
            (VirtualNetworkStore.new ext.nd uid gid uname gname umask vns_template cluster_ids)
            (ext.name_is_valid ((VirtualNetworkStore.new ext.nd uid gid uname gname umask
              vns_template cluster_ids).get_template_attribute "NAME") error_str).2).1,
         (pool.PoolSQL_allocate ext.nd
            (VirtualNetworkStore.new ext.nd uid gid uname gname umask vns_template cluster_ids)
            (ext.name_is_valid ((VirtualNetworkStore.new ext.nd uid gid uname gname umask
              vns_template cluster_ids).get_template_attribute "NAME") error_str).2).2) := by
  by_cases hname : (ext.name_is_valid
      ((VirtualNetworkStore.new ext.nd uid gid uname gname umask vns_template
        cluster_ids).get_template_attribute "NAME") error_str).1 = false
  · have := (allocate_fail_name pool ext uid gid uname gname umask vns_template cluster_ids
      error_str hname).1
    omega
  · cases hg : (pool.get ext.nd ((VirtualNetworkStore.new ext.nd uid gid uname gname umask
        vns_template cluster_ids).get_template_attribute "NAME")).1 with
    | some aux =>
      have := allocate_duplicated pool ext uid gid uname gname umask vns_template cluster_ids
        error_str aux (by simpa using hname) hg
      rw [this] at h
      omega
    | none =>
      refine ⟨rfl, ?_⟩
      have hp := (get_none pool ext.nd _ hg).1
      unfold VirtualNetworkStorePool.allocate
      simp only [hname, if_false, hg, hp]
      simp

theorem is_int_next_oid (pool : VirtualNetworkStorePool)
    (h : -1 ≤ pool.lastOID ∧ pool.lastOID ≤ INT_MAX) : is_int pool.next_oid = true := by
  unfold VirtualNetworkStorePool.next_oid is_int
  unfold INT_MAX at h ⊢
  split_ifs with h1
  · decide
  · simp only [Bool.and_eq_true, decide_eq_true_eq]
    omega

theorem allocate_oid_eq (pool : VirtualNetworkStorePool) (ext : Externals)
    (uid gid : Int) (uname gname : String) (umask : Int) (vns_template : Option Template)
    (cluster_ids : List Int) (error_str : String) :
    (pool.allocate ext uid gid uname gname umask vns_template cluster_ids error_str).2.1
      = (pool.allocate ext uid gid uname gname umask vns_template cluster_ids error_str).1 := by
  unfold VirtualNetworkStorePool.allocate
  simp only
  split_ifs
  · rfl
  · split <;> rfl

theorem allocate_returns_next (pool : VirtualNetworkStorePool) (ext : Externals)
    (uid gid : Int) (uname gname : String) (umask : Int) (vns_template : Option Template)
    (cluster_ids : List Int) (error_str : String)
    (h : 0 ≤ (pool.allocate ext uid gid uname gname umask vns_template cluster_ids
              error_str).1) :
    (pool.allocate ext uid gid uname gname umask vns_template cluster_ids error_str).1
      = pool.next_oid := by
  obtain ⟨_, halloc⟩ := allocate_ok pool ext uid gid uname gname umask vns_template
    cluster_ids error_str h
  rw [halloc] at h ⊢
  exact (PoolSQL_allocate_ok pool ext.nd _ _ h).1

/-! ## The template -/

theorem template_erase_cons (a : Attribute) (rest : Template) (n : String) :
    Template.erase (a :: rest) n
      = if a.name = n then Template.erase rest n else a :: Template.erase rest n := by
  unfold Template.erase
  rw [List.filter_cons]
  by_cases h : a.name = n
  · simp only [h, ne_eq, not_true_eq_false, decide_False, if_true]
    rfl
  · simp only [h, ne_eq, not_false_eq_true, decide_True, if_true, if_false]

theorem template_get_erase_ne (t : Template) (k n : String) (h : k ≠ n) :
    (Template.erase t n).get k = t.get k := by
  induction t with
  | nil => rfl
  | cons a rest ih =>
    rw [template_erase_cons]
    cases a with
    | single m v =>
      by_cases hm : m = n
      · have hmk : ¬ m = k := fun e => h (e ▸ hm)
        simp only [Attribute.name, hm, if_true, Template.get, ih]
        rw [if_neg (hm ▸ hmk)]
      · simp only [Attribute.name, hm, if_false, Template.get, ih]
    | vector m vs =>
      by_cases hm : m = n
      · simp only [Attribute.name, hm, if_true, Template.get, ih]
      · simp only [Attribute.name, hm, if_false, Template.get, ih]

theorem template_get_append (t1 t2 : Template) (k : String) (h : ∀ a ∈ t1, a.name ≠ k) :
    (t1 ++ t2).get k = t2.get k := by
  induction t1 with
  | nil => rfl
  | cons a rest ih =>
    have ha := h a (List.mem_cons_self a rest)
    have hr := ih (fun b hb => h b (List.mem_cons_of_mem a hb))
    cases a with
    | single m v =>
      simp only [Attribute.name] at ha
      simp [Template.get, ha, hr]
    | vector m vs => simp [Template.get, hr]

theorem template_get_replace (t : Template) (k v : String) : (t.replace k v).get k = v := by
  unfold Template.replace
  rw [template_get_append]
  · simp [Template.get]
  · intro a ha
    unfold Template.erase at ha
    simpa using (List.mem_filter.mp ha).2

theorem set_vn_mad_ok_error (self : VirtualNetworkStore) (nd : Nebula) (mad error_str : String)
    (h : (self.set_vn_mad nd mad error_str).1 = 0) :
    (self.set_vn_mad nd mad error_str).2 = error_str := by
  revert h
  unfold VirtualNetworkStore.set_vn_mad
  repeat' split
  all_goals simp

/-! ## Update of the template -/

/-- The object that `post_update_template` leaves is the one of its first part, with
`vn_mad` either as the first part set it (return `0`) or as it was at the call. -/
theorem post_update_template_cases (self : VirtualNetworkStore) (nd : Nebula)
    (error_str : String) :
    ((self.post_update_template nd error_str).1 = 0 ∧
      (self.post_update_template nd error_str).2.2 = self.post_update_template_vn_mad ∧
      (self.post_update_template_vn_mad.set_vn_mad nd self.post_update_template_vn_mad.vn_mad
        error_str).1 = 0) ∨
    ((self.post_update_template nd error_str).1 = -1 ∧
      (self.post_update_template nd error_str).2.2
        = { self.post_update_template_vn_mad with vn_mad := self.vn_mad } ∧
      (self.post_update_template_vn_mad.set_vn_mad nd self.post_update_template_vn_mad.vn_mad
        error_str).1 ≠ 0) := by
  unfold VirtualNetworkStore.post_update_template
  by_cases h : (self.post_update_template_vn_mad.set_vn_mad nd
      self.post_update_template_vn_mad.vn_mad error_str).1 = 0
  · left
    simp [h]
  · right
    simp [h]

/-- After the first part of `post_update_template` the template carries the driver
name of the object. -/
theorem post_update_template_vn_mad_agree (self : VirtualNetworkStore) :
    self.post_update_template_vn_mad.get_template_attribute "VN_MAD"
      = self.post_update_template_vn_mad.vn_mad := by
  unfold VirtualNetworkStore.post_update_template_vn_mad
  by_cases h1 : self.get_template_attribute "VN_MAD" = ""
  · simp only [h1, if_true]
    simp only [VirtualNetworkStore.replace_template_attribute,
      VirtualNetworkStore.get_template_attribute]
    exact template_get_replace _ _ _
  · by_cases h2 : self.get_template_attribute "VN_MAD" = self.vn_mad
    · rw [if_neg h1, if_neg (by simpa using h2)]
      exact h2
    · simp only [h1, h2, if_false, ne_eq, not_false_eq_true, if_true]
      rfl

/-! ## Result code of the decoder -/

/-- The decoder `from_xml` has two result codes, `0` and `-1`. -/
theorem from_xml_rc (self : VirtualNetworkStore) (xml : String) :
    (self.from_xml xml).1 = 0 ∨ (self.from_xml xml).1 = -1 := by
  unfold VirtualNetworkStore.from_xml
  simp only
  split
  · exact Or.inr rfl
  · split
    · exact Or.inr rfl
    · exact Or.inl rfl

/-- Without a `TEMPLATE` node `from_xml` returns `-1` and the template stays. -/
theorem from_xml_no_template (self : VirtualNetworkStore) (xml : String)
    (h : (update_from_str xml).get_nodes "/VIRTUALNETWORKSTORE/TEMPLATE" = []) :
    (self.from_xml xml).1 = -1 ∧ (self.from_xml xml).2.obj_template = self.obj_template := by
  unfold VirtualNetworkStore.from_xml
  simp only [h]
  simp [VirtualNetworkStore.perms_from_xml]

/-! ## Update of a stored record -/

/-- When the quoting of the name and of the text succeeds and the text validates,
`update` executes the replace statement of the record and returns its result. -/
theorem update_ok (self : VirtualNetworkStore) (db : SqlDB)
    (hname : (db.escape_str self.name).isSome = true)
    (hxml : ∃ x, db.escape_str self.to_xml = some x ∧ validate_xml x = 0) :
    (self.update db).1 = db.verdict db.rows (.replace_row self.row) ∧
    (self.update db).2.journal = db.journal ++ [SqlCmd.replace_row self.row] ∧
    (self.update db).2.escape_str = db.escape_str := by
  obtain ⟨x, hx, hv⟩ := hxml
  cases hn : db.escape_str self.name with
  | none => simp [hn] at hname
  | some n =>
    unfold VirtualNetworkStore.update VirtualNetworkStore.insert_replace
    simp only [hn, hx, hv, ne_eq, not_true_eq_false, if_false, if_true]
    exact ⟨(exec_facts db _).1, (exec_facts db _).2.1, (exec_facts db _).2.2.2⟩

/-! ## Invariant of the driver -/

/-- The validation `set_vn_mad` of the driver of the record itself succeeds exactly
when the invariant holds. -/
theorem set_vn_mad_invariant (nd : Nebula) (r : VirtualNetworkStore) (error_str : String) :
    (r.set_vn_mad nd r.vn_mad error_str).1 = 0 ↔ driver_invariant nd r = true := by
  cases h1 : nd.get_vn_conf_attribute r.vn_mad with
  | none => simp [VirtualNetworkStore.set_vn_mad, driver_invariant, h1]
  | some vatt =>
    cases h2 : vatt.vector_value "REQUIRED_ATTRS" with
    | none => simp [VirtualNetworkStore.set_vn_mad, driver_invariant, h1, h2]
    | some required_attrs =>
      cases h3 : r.set_vn_mad_loop (split required_attrs ',') with
      | none =>
        have hall := (set_vn_mad_loop_none r _).mp h3
        simp only [VirtualNetworkStore.set_vn_mad, driver_invariant, h1, h2, h3,
          List.all_eq_true, true_iff]
        intro it hit
        simpa using hall it hit
      | some a =>
        simp only [VirtualNetworkStore.set_vn_mad, driver_invariant, h1, h2, h3,
          List.all_eq_true]
        constructor
        · intro h
          exact absurd h (by decide)
        · intro h
          have hn : r.set_vn_mad_loop (split required_attrs ',') = none :=
            (set_vn_mad_loop_none r _).mpr (fun n hn => by simpa using h n hn)
          rw [hn] at h3
          cases h3

/-- A record for which the invariant holds has a driver that resolves. -/
theorem driver_invariant_resolves (nd : Nebula) (r : VirtualNetworkStore)
    (h : driver_invariant nd r = true) : driver_resolves nd r = true := by
  unfold driver_invariant at h
  unfold driver_resolves
  cases h1 : nd.get_vn_conf_attribute r.vn_mad with
  | none => simp [h1] at h
  | some vatt => rfl

/-- After a successful `insert` the invariant holds. -/
theorem insert_invariant (nd : Nebula) (c : VirtualNetworkStore) (db : SqlDB)
    (error_str : String) (h : (c.insert nd db error_str).1 = 0) :
    driver_invariant nd (c.insert nd db error_str).2.2.1 = true := by
  unfold VirtualNetworkStore.insert at h ⊢
  by_cases h1 : c.insert_read_template.vn_mad = ""
  · simp [h1] at h
  · by_cases h2 : (c.insert_read_template.set_vn_mad nd c.insert_read_template.vn_mad
        error_str).1 = 0
    · simp only [h1, h2, if_false, ne_eq, not_true_eq_false]
      exact (set_vn_mad_invariant nd _ error_str).mp h2
    · simp [h1, h2] at h

/-- After a `post_update_template` that returns `0` the invariant holds. -/
theorem post_update_template_invariant (nd : Nebula) (r : VirtualNetworkStore)
    (error_str : String) (h : (r.post_update_template nd error_str).1 = 0) :
    driver_invariant nd (r.post_update_template nd error_str).2.2 = true := by
  rcases post_update_template_cases r nd error_str with ⟨_, h2, h3⟩ | ⟨h1, _, _⟩
  · rw [h2]
    exact (set_vn_mad_invariant nd _ error_str).mp h3
  · rw [h1] at h
    exact absurd h (by decide)

/-- The driver of every reachable record resolves. -/
theorem reachable_resolves (nd : Nebula) (r : VirtualNetworkStore) (h : Reachable nd r) :
    driver_resolves nd r = true := by
  induction h with
  | inserted c db e h0 => exact driver_invariant_resolves nd _ (insert_invariant nd c db e h0)
  | updated r t e _ ih =>
    rcases post_update_template_cases { r with obj_template := t } nd e with
      ⟨h1, _, _⟩ | ⟨_, h2, _⟩
    · exact driver_invariant_resolves nd _ (post_update_template_invariant nd _ e h1)
    · rw [h2]
      exact ih

/-- The template after the first part of `post_update_template`: the one before, with
`VN_MAD` set to the driver of the record when it had none. -/
theorem post_update_template_vn_mad_template (self : VirtualNetworkStore) :
    self.post_update_template_vn_mad.obj_template
      = (if self.obj_template.get "VN_MAD" = "" then
          self.obj_template.replace "VN_MAD" self.vn_mad
        else self.obj_template) := by
  unfold VirtualNetworkStore.post_update_template_vn_mad
  simp only [VirtualNetworkStore.get_template_attribute,
    VirtualNetworkStore.replace_template_attribute]
  by_cases ha : self.obj_template.get "VN_MAD" = ""
  · rw [if_pos ha, if_pos ha]
  · by_cases hb : self.obj_template.get "VN_MAD" = self.vn_mad
    · rw [if_neg ha, if_neg ha, if_neg (by simpa using hb)]
    · rw [if_neg ha, if_neg ha, if_pos hb]

/-! ## Result codes of the fields -/

theorem xpath_str_rc (doc : ObjectXML) (p d : String) :
    (doc.xpath_str p d).1 = 0 ∨ (doc.xpath_str p d).1 = -1 := by
  unfold ObjectXML.xpath_str
  split
  · exact Or.inr rfl
  · exact Or.inl rfl

theorem xpath_int_rc (doc : ObjectXML) (p : String) (d : Int) :
    (doc.xpath_int p d).1 = 0 ∨ (doc.xpath_int p d).1 = -1 := by
  unfold ObjectXML.xpath_int
  split
  · exact Or.inr rfl
  · split
    · exact Or.inr rfl
    · exact Or.inl rfl

theorem read_id_rc (acc : Int × List Int) (v : String)
    (h : acc.1 = 0 ∨ acc.1 = -1) :
    (ObjectCollection.read_id acc v).1 = 0 ∨ (ObjectCollection.read_id acc v).1 = -1 := by
  unfold ObjectCollection.read_id
  split
  · exact Or.inr rfl
  · exact h

theorem foldl_read_id_rc (vs : List String) (acc : Int × List Int)
    (h : acc.1 = 0 ∨ acc.1 = -1) :
    (vs.foldl ObjectCollection.read_id acc).1 = 0 ∨
      (vs.foldl ObjectCollection.read_id acc).1 = -1 := by
  induction vs generalizing acc with
  | nil => exact h
  | cons v vs ih => exact ih _ (read_id_rc acc v h)

theorem collection_from_xml_rc (n : String) (s : List Int) (doc : ObjectXML) (p : String) :
    (ObjectCollection.from_xml n s doc p).1 = 0 ∨
      (ObjectCollection.from_xml n s doc p).1 = -1 := by
  unfold ObjectCollection.from_xml
  split
  · exact Or.inr rfl
  · exact foldl_read_id_rc _ _ (Or.inl rfl)

/-- The result code of `perms_from_xml` is the sum of the result codes of the nine
bits; it does not depend on the object. -/
theorem perms_from_xml_rc (self : VirtualNetworkStore) (doc : ObjectXML) :
    (self.perms_from_xml doc).1
      = (doc.xpath_int "/*/PERMISSIONS/OWNER_U" 0).1 + (doc.xpath_int "/*/PERMISSIONS/OWNER_M" 0).1
        + (doc.xpath_int "/*/PERMISSIONS/OWNER_A" 0).1 + (doc.xpath_int "/*/PERMISSIONS/GROUP_U" 0).1
        + (doc.xpath_int "/*/PERMISSIONS/GROUP_M" 0).1 + (doc.xpath_int "/*/PERMISSIONS/GROUP_A" 0).1
        + (doc.xpath_int "/*/PERMISSIONS/OTHER_U" 0).1 + (doc.xpath_int "/*/PERMISSIONS/OTHER_M" 0).1
        + (doc.xpath_int "/*/PERMISSIONS/OTHER_A" 0).1 := rfl

theorem perms_from_xml_rc_le (self : VirtualNetworkStore) (doc : ObjectXML) :
    (self.perms_from_xml doc).1 ≤ 0 := by
  rw [perms_from_xml_rc]
  have h1 := xpath_int_rc doc "/*/PERMISSIONS/OWNER_U" 0
  have h2 := xpath_int_rc doc "/*/PERMISSIONS/OWNER_M" 0
  have h3 := xpath_int_rc doc "/*/PERMISSIONS/OWNER_A" 0
  have h4 := xpath_int_rc doc "/*/PERMISSIONS/GROUP_U" 0
  have h5 := xpath_int_rc doc "/*/PERMISSIONS/GROUP_M" 0
  have h6 := xpath_int_rc doc "/*/PERMISSIONS/GROUP_A" 0
  have h7 := xpath_int_rc doc "/*/PERMISSIONS/OTHER_U" 0
  have h8 := xpath_int_rc doc "/*/PERMISSIONS/OTHER_M" 0
  have h9 := xpath_int_rc doc "/*/PERMISSIONS/OTHER_A" 0
  omega

theorem from_xml_form (self : VirtualNetworkStore) (xml : String) :
    (self.from_xml xml).1
      = match (update_from_str xml).get_nodes "/VIRTUALNETWORKSTORE/TEMPLATE" with
        | [] => -1
        | node :: _ =>
          if from_xml_sum self (update_from_str xml) + (Template.from_xml_node node).1 ≠ 0
          then -1 else 0 := by
  cases hg : (update_from_str xml).get_nodes "/VIRTUALNETWORKSTORE/TEMPLATE" with
  | nil =>
    unfold VirtualNetworkStore.from_xml
    simp only [hg]
  | cons node rest =>
    unfold VirtualNetworkStore.from_xml
    simp only [hg, apply_ite Prod.fst]
    rfl

/-- The template that `from_xml` leaves: rebuilt from the first `TEMPLATE` node when
there is one, otherwise the template before. -/
theorem from_xml_template (self : VirtualNetworkStore) (xml : String) :
    (self.from_xml xml).2.obj_template
      = match (update_from_str xml).get_nodes "/VIRTUALNETWORKSTORE/TEMPLATE" with
        | [] => self.obj_template
        | node :: _ => (Template.from_xml_node node).2 := by
  cases hg : (update_from_str xml).get_nodes "/VIRTUALNETWORKSTORE/TEMPLATE" with
  | nil =>
    unfold VirtualNetworkStore.from_xml
    simp only [hg]
    rfl
  | cons node rest =>
    unfold VirtualNetworkStore.from_xml
    simp only [hg, apply_ite Prod.snd, apply_ite VirtualNetworkStore.obj_template, ite_self]

/-- Every member that `from_xml` reads has, after the call, the value that its own
path gives, whatever the result codes of the other fields are. -/
theorem from_xml_fields (self : VirtualNetworkStore) (xml : String) :
    (self.from_xml xml).2.oid
      = ((update_from_str xml).xpath_int "/VIRTUALNETWORKSTORE/ID" (-1)).2 ∧
    (self.from_xml xml).2.uid
      = ((update_from_str xml).xpath_int "/VIRTUALNETWORKSTORE/UID" (-1)).2 ∧
    (self.from_xml xml).2.gid
      = ((update_from_str xml).xpath_int "/VIRTUALNETWORKSTORE/GID" (-1)).2 ∧
    (self.from_xml xml).2.uname
      = ((update_from_str xml).xpath_str "/VIRTUALNETWORKSTORE/UNAME" "not_found").2 ∧
    (self.from_xml xml).2.gname
      = ((update_from_str xml).xpath_str "/VIRTUALNETWORKSTORE/GNAME" "not_found").2 ∧
    (self.from_xml xml).2.name
      = ((update_from_str xml).xpath_str "/VIRTUALNETWORKSTORE/NAME" "not_found").2 ∧
    (self.from_xml xml).2.vn_mad
      = ((update_from_str xml).xpath_str "/VIRTUALNETWORKSTORE/VN_MAD" "not_found").2 ∧
    (self.from_xml xml).2.state
      = ((update_from_str xml).xpath_int "/VIRTUALNETWORKSTORE/STATE" 0).2 ∧
    (self.from_xml xml).2.owner_u
      = ((update_from_str xml).xpath_int "/*/PERMISSIONS/OWNER_U" 0).2 ∧
    (self.from_xml xml).2.other_a
      = ((update_from_str xml).xpath_int "/*/PERMISSIONS/OTHER_A" 0).2 ∧
    (self.from_xml xml).2.virtual_networks
      = (ObjectCollection.from_xml "VIRTUALNETWORKS" self.virtual_networks
          (update_from_str xml) "/VIRTUALNETWORKSTORE/").2 ∧
    (self.from_xml xml).2.cluster_ids
      = (ObjectCollection.from_xml "CLUSTERS" self.cluster_ids
          (update_from_str xml) "/VIRTUALNETWORKSTORE/").2 := by
  cases hg : (update_from_str xml).get_nodes "/VIRTUALNETWORKSTORE/TEMPLATE" with
  | nil =>
    unfold VirtualNetworkStore.from_xml
    simp only [hg]
    and_intros <;> trivial
  | cons node rest =>
    unfold VirtualNetworkStore.from_xml
    simp only [hg]
    split <;> and_intros <;> trivial

/-- Result codes that are `0` or negative add up to `0` exactly when each is `0`. -/
theorem rc_sum_zero (a1 a2 a3 a4 a5 a6 a7 a8 a9 a10 a11 : Int)
    (h1 : a1 ≤ 0) (h2 : a2 ≤ 0) (h3 : a3 ≤ 0) (h4 : a4 ≤ 0) (h5 : a5 ≤ 0) (h6 : a6 ≤ 0)
    (h7 : a7 ≤ 0) (h8 : a8 ≤ 0) (h9 : a9 ≤ 0) (h10 : a10 ≤ 0) (h11 : a11 ≤ 0) :
    a1 + a2 + a3 + a4 + a5 + a6 + a7 + a8 + a9 + a10 + a11 = 0 ↔
      a1 = 0 ∧ a2 = 0 ∧ a3 = 0 ∧ a4 = 0 ∧ a5 = 0 ∧ a6 = 0 ∧ a7 = 0 ∧ a8 = 0 ∧ a9 = 0 ∧
        a10 = 0 ∧ a11 = 0 := by
  omega

theorem rc_le_zero (x : Int) (h : x = 0 ∨ x = -1) : x ≤ 0 := by
  omega

/-! ## The back end across an allocation -/

/-- A statement on a row leaves the stored id counter as it was. -/
theorem exec_row_last_oid (db : SqlDB) (row : Row) :
    (db.exec (.insert_row row)).2.last_oid = db.last_oid ∧
    (db.exec (.replace_row row)).2.last_oid = db.last_oid := by
  unfold SqlDB.exec
  constructor
  · by_cases hv : db.verdict db.rows (.insert_row row) = 0
    · simp [hv, SqlDB.apply]
    · simp [hv]
  · by_cases hv : db.verdict db.rows (.replace_row row) = 0
    · simp [hv, SqlDB.apply]
    · simp [hv]

/-- The statements of `insert_replace` leave the stored id counter and the oracles of
the back end as they were. -/
theorem insert_replace_frame (self : VirtualNetworkStore) (db : SqlDB) (replace : Bool)
    (error_str : String) :
    (self.insert_replace db replace error_str).2.2.last_oid = db.last_oid ∧
    (self.insert_replace db replace error_str).2.2.verdict = db.verdict ∧
    (self.insert_replace db replace error_str).2.2.escape_str = db.escape_str := by
  unfold VirtualNetworkStore.insert_replace
  cases h1 : db.escape_str self.name with
  | none => exact ⟨rfl, rfl, rfl⟩
  | some a =>
    cases h2 : db.escape_str self.to_xml with
    | none => exact ⟨rfl, rfl, rfl⟩
    | some sql_xml =>
      by_cases h3 : validate_xml sql_xml = 0
      · simp only [h3, ne_eq, not_true_eq_false, if_false]
        refine ⟨?_, (exec_facts db _).2.2.1, (exec_facts db _).2.2.2⟩
        cases replace
        · exact (exec_row_last_oid db self.row).1
        · exact (exec_row_last_oid db self.row).2
      · simp [h3]

theorem insert_frame (self : VirtualNetworkStore) (nd : Nebula) (db : SqlDB)
    (error_str : String) :
    (self.insert nd db error_str).2.2.2.last_oid = db.last_oid ∧
    (self.insert nd db error_str).2.2.2.verdict = db.verdict ∧
    (self.insert nd db error_str).2.2.2.escape_str = db.escape_str := by
  unfold VirtualNetworkStore.insert
  by_cases h1 : self.insert_read_template.vn_mad = ""
  · simp [h1]
  · by_cases h2 : (self.insert_read_template.set_vn_mad nd self.insert_read_template.vn_mad
        error_str).1 = 0
    · simp only [h1, h2, if_false, ne_eq, not_true_eq_false]
      exact insert_replace_frame _ db false _
    · simp [h1, h2]

/-- The lookup by name leaves the back end as it was. -/
theorem get_db (pool : VirtualNetworkStorePool) (nd : Nebula) (name : String) :
    (pool.get nd name).2.db = pool.db ∧ (pool.get nd name).2.lastOID = pool.lastOID := by
  unfold VirtualNetworkStorePool.get
  cases hc : pool.cache.find? (fun o => decide (o.name = name) && o.valid) with
  | some o => simp
  | none =>
    cases hr : pool.db.rows.find? (fun r => decide (r.name = name)) with
    | none => simp
    | some row =>
      by_cases hd : ((VirtualNetworkStorePool.create nd).from_xml row.body).1 = 0
      · simp [hd]
      · simp [hd]

/-- The two outcomes of `PoolSQL::allocate`: the insertion failed, the result is `-1`
and the back end is the one the insertion left; or it succeeded, the result is the
next id and the counter is written unless the id is `-1`. -/
theorem PoolSQL_allocate_cases (pool : VirtualNetworkStorePool) (nd : Nebula)
    (vns : VirtualNetworkStore) (error_str : String) :
    ((({ vns with oid := pool.next_oid, valid := true } : VirtualNetworkStore).insert nd
        pool.db error_str).1 ≠ 0 ∧
      (pool.PoolSQL_allocate nd vns error_str).1 = -1 ∧
      (pool.PoolSQL_allocate nd vns error_str).2.2.db
        = (({ vns with oid := pool.next_oid, valid := true } : VirtualNetworkStore).insert nd
            pool.db error_str).2.2.2) ∨
    ((({ vns with oid := pool.next_oid, valid := true } : VirtualNetworkStore).insert nd
        pool.db error_str).1 = 0 ∧
      (pool.PoolSQL_allocate nd vns error_str).1 = pool.next_oid ∧
      ((pool.PoolSQL_allocate nd vns error_str).2.2.db
          = (({ vns with oid := pool.next_oid, valid := true } : VirtualNetworkStore).insert nd
              pool.db error_str).2.2.2 ∨
        (pool.PoolSQL_allocate nd vns error_str).2.2.db
          = ((({ vns with oid := pool.next_oid, valid := true } : VirtualNetworkStore).insert nd
              pool.db error_str).2.2.2.exec (.update_last_oid pool.next_oid)).2)) := by
  unfold VirtualNetworkStorePool.PoolSQL_allocate
  by_cases h : (({ vns with oid := pool.next_oid, valid := true } : VirtualNetworkStore).insert
      nd pool.db error_str).1 = 0
  · right
    refine ⟨h, ?_⟩
    simp only [h, ne_eq, not_true_eq_false, if_false]
    by_cases hn : pool.next_oid = -1
    · rw [if_neg (not_not.mpr hn)]
      exact ⟨rfl, Or.inl rfl⟩
    · rw [if_pos hn]
      exact ⟨rfl, Or.inr rfl⟩
  · left
    refine ⟨h, ?_⟩
    simp [h]

theorem PoolSQL_allocate_verdict (pool : VirtualNetworkStorePool) (nd : Nebula)
    (vns : VirtualNetworkStore) (error_str : String) :
    (pool.PoolSQL_allocate nd vns error_str).2.2.db.verdict = pool.db.verdict := by
  rcases PoolSQL_allocate_cases pool nd vns error_str with ⟨_, _, h⟩ | ⟨_, _, h | h⟩
  · rw [h]
    exact (insert_frame _ nd pool.db error_str).2.1
  · rw [h]
    exact (insert_frame _ nd pool.db error_str).2.1
  · rw [h, (exec_facts _ _).2.2.1]
    exact (insert_frame _ nd pool.db error_str).2.1

/-- The allocation when the name is accepted and no record has it: the result of
`PoolSQL::allocate`. -/
theorem allocate_none (pool : VirtualNetworkStorePool) (ext : Externals)
    (uid gid : Int) (uname gname : String) (umask : Int) (vns_template : Option Template)
    (cluster_ids : List Int) (error_str : String)
    (hname : (ext.name_is_valid
      ((VirtualNetworkStore.new ext.nd uid gid uname gname umask vns_template
        cluster_ids).get_template_attribute "NAME") error_str).1 = true)
    (hg : (pool.get ext.nd
      ((VirtualNetworkStore.new ext.nd uid gid uname gname umask vns_template
        cluster_ids).get_template_attribute "NAME")).1 = none) :
    pool.allocate ext uid gid uname gname umask vns_template cluster_ids error_str
      = ((pool.PoolSQL_allocate ext.nd
            (VirtualNetworkStore.new ext.nd uid gid uname gname umask vns_template cluster_ids)
            (ext.name_is_valid ((VirtualNetworkStore.new ext.nd uid gid uname gname umask
              vns_template cluster_ids).get_template_attribute "NAME") error_str).2).1,
         (pool.PoolSQL_allocate ext.nd
            (VirtualNetworkStore.new ext.nd uid gid uname gname umask vns_template cluster_ids)
            (ext.name_is_valid ((VirtualNetworkStore.new ext.nd uid gid uname gname umask
              vns_template cluster_ids).get_template_attribute "NAME") error_str).2).1,
         (pool.PoolSQL_allocate ext.nd
            (VirtualNetworkStore.new ext.nd uid gid uname gname umask vns_template cluster_ids)
            (ext.name_is_valid ((VirtualNetworkStore.new ext.nd uid gid uname gname umask
              vns_template cluster_ids).get_template_attribute "NAME") error_str).2).2) := by
  have hp := (get_none pool ext.nd _ hg).1
  unfold VirtualNetworkStorePool.allocate
  simp only [hname, hg, hp]
  simp

/-- An allocation leaves the result-code oracle of the back end as it was. -/
theorem allocate_verdict (pool : VirtualNetworkStorePool) (ext : Externals) (uid gid : Int)
    (uname gname : String) (umask : Int) (vns_template : Option Template)
    (cluster_ids : List Int) (error_str : String) :
    (pool.allocate ext uid gid uname gname umask vns_template cluster_ids
      error_str).2.2.2.db.verdict = pool.db.verdict := by
  by_cases hname : (ext.name_is_valid
      ((VirtualNetworkStore.new ext.nd uid gid uname gname umask vns_template
        cluster_ids).get_template_attribute "NAME") error_str).1 = false
  · rw [(allocate_fail_name pool ext uid gid uname gname umask vns_template cluster_ids
      error_str hname).2.2]
  · cases hg : (pool.get ext.nd ((VirtualNetworkStore.new ext.nd uid gid uname gname umask
        vns_template cluster_ids).get_template_attribute "NAME")).1 with
    | some aux =>
      rw [allocate_duplicated pool ext uid gid uname gname umask vns_template cluster_ids
        error_str aux (by simpa using hname) hg]
      exact congrArg SqlDB.verdict (get_db pool ext.nd _).1
    | none =>
      rw [allocate_none pool ext uid gid uname gname umask vns_template cluster_ids
        error_str (by simpa using hname) hg]
      exact PoolSQL_allocate_verdict pool ext.nd _ _

/-- An insertion that fails leaves the rows as they were and executes at most the
insert statement of the candidate. -/
theorem insert_fail_db (self : VirtualNetworkStore) (nd : Nebula) (db : SqlDB)
    (error_str : String) (h : (self.insert nd db error_str).1 ≠ 0) :
    (self.insert nd db error_str).2.2.2.rows = db.rows ∧
    ((self.insert nd db error_str).2.2.2.journal = db.journal ∨
      (self.insert nd db error_str).2.2.2.journal
        = db.journal ++ [SqlCmd.insert_row self.insert_read_template.row]) := by
  unfold VirtualNetworkStore.insert at h ⊢
  by_cases h1 : self.insert_read_template.vn_mad = ""
  · simp [h1]
  · by_cases h2 : (self.insert_read_template.set_vn_mad nd self.insert_read_template.vn_mad
        error_str).1 = 0
    · simp only [h1, h2, if_false, ne_eq, not_true_eq_false] at h ⊢
      unfold VirtualNetworkStore.insert_replace at h ⊢
      cases e1 : db.escape_str self.insert_read_template.name with
      | none => simp
      | some a =>
        cases e2 : db.escape_str self.insert_read_template.to_xml with
        | none => simp
        | some sql_xml =>
          by_cases h3 : validate_xml sql_xml = 0
          · simp only [e1, e2, h3, ne_eq, not_true_eq_false, if_false,
              Bool.false_eq_true] at h ⊢
            have hv : db.verdict db.rows (.insert_row self.insert_read_template.row) ≠ 0 := by
              rw [← (exec_facts db _).1]
              exact h
            refine ⟨?_, Or.inr (exec_facts db _).2.1⟩
            unfold SqlDB.exec
            simp [hv]
          · simp [h3]
    · simp [h1, h2]

/-- An allocation that fails in a pool whose next id is not negative leaves the rows
and the stored id counter as they were and executes at most one insert statement. -/
theorem allocate_fail_db (pool : VirtualNetworkStorePool) (ext : Externals) (uid gid : Int)
    (uname gname : String) (umask : Int) (vns_template : Option Template)
    (cluster_ids : List Int) (error_str : String) (hnext : 0 ≤ pool.next_oid)
    (h : (pool.allocate ext uid gid uname gname umask vns_template cluster_ids
      error_str).2.1 < 0) :
    (pool.allocate ext uid gid uname gname umask vns_template cluster_ids
      error_str).2.2.2.db.rows = pool.db.rows ∧
    (pool.allocate ext uid gid uname gname umask vns_template cluster_ids
      error_str).2.2.2.db.last_oid = pool.db.last_oid ∧
    ((pool.allocate ext uid gid uname gname umask vns_template cluster_ids
        error_str).2.2.2.db.journal = pool.db.journal ∨
      ∃ row : Row, (pool.allocate ext uid gid uname gname umask vns_template cluster_ids
        error_str).2.2.2.db.journal = pool.db.journal ++ [SqlCmd.insert_row row]) := by
  by_cases hname : (ext.name_is_valid
      ((VirtualNetworkStore.new ext.nd uid gid uname gname umask vns_template
        cluster_ids).get_template_attribute "NAME") error_str).1 = false
  · rw [(allocate_fail_name pool ext uid gid uname gname umask vns_template cluster_ids
      error_str hname).2.2]
    exact ⟨rfl, rfl, Or.inl rfl⟩
  · cases hg : (pool.get ext.nd ((VirtualNetworkStore.new ext.nd uid gid uname gname umask
        vns_template cluster_ids).get_template_attribute "NAME")).1 with
    | some aux =>
      rw [allocate_duplicated pool ext uid gid uname gname umask vns_template cluster_ids
        error_str aux (by simpa using hname) hg]
      simp only [(get_db pool ext.nd _).1]
      exact ⟨trivial, trivial, Or.inl trivial⟩
    | none =>
      rw [allocate_none pool ext uid gid uname gname umask vns_template cluster_ids
        error_str (by simpa using hname) hg] at h ⊢
      rcases PoolSQL_allocate_cases pool ext.nd
        (VirtualNetworkStore.new ext.nd uid gid uname gname umask vns_template cluster_ids)
        (ext.name_is_valid ((VirtualNetworkStore.new ext.nd uid gid uname gname umask
          vns_template cluster_ids).get_template_attribute "NAME") error_str).2
        with ⟨hne, _, hdb⟩ | ⟨_, hrc, _⟩
      · simp only [hdb]
        have hf := insert_fail_db _ ext.nd pool.db _ hne
        exact ⟨hf.1, (insert_frame _ ext.nd pool.db _).1,
          hf.2.elim Or.inl (fun hj => Or.inr ⟨_, hj⟩)⟩
      · simp only [hrc] at h
        omega

/-! ## Construction of the pool -/

/-- A pool constructed over a back end with a stored id counter is the bare pool over
that back end. -/
theorem new_stored (ext : Externals) (db : SqlDB) (inherit_attrs : List String)
    (h : db.last_oid ≠ -1) :
    VirtualNetworkStorePool.new ext db inherit_attrs
      = .ok { db := db, lastOID := db.last_oid, cache := [], inherit_attrs := inherit_attrs } ∧
    VirtualNetworkStorePool.new_db ext db inherit_attrs = db := by
  unfold VirtualNetworkStorePool.new VirtualNetworkStorePool.new_db
  simp only [VirtualNetworkStorePool.get_lastOID, h, if_false, and_self]

/-- A counter write that the back end accepts sets the stored counter. -/
theorem exec_update_last_oid_ok (db : SqlDB) (n : Int)
    (h : db.verdict db.rows (.update_last_oid n) = 0) :
    (db.exec (.update_last_oid n)).2.last_oid = n := by
  unfold SqlDB.exec
  simp [h, SqlDB.apply]

/-- After a construction that bootstrapped, over a back end that accepts the write of
the counter `99`, the stored counter is `99`. -/
theorem new_bootstrap_counter (ext : Externals) (db : SqlDB) (inherit_attrs : List String)
    (pool : VirtualNetworkStorePool) (hlast : db.last_oid = -1)
    (hacc : ∀ rows : List Row, db.verdict rows (.update_last_oid 99) = 0)
    (hok : VirtualNetworkStorePool.new ext db inherit_attrs = .ok pool) :
    pool.db.last_oid = 99 := by
  unfold VirtualNetworkStorePool.new at hok
  simp only [VirtualNetworkStorePool.get_lastOID, hlast, if_true] at hok
  split_ifs at hok with hp ha
  injection hok with hpool
  rw [← hpool]
  unfold VirtualNetworkStorePool.set_update_lastOID
  apply exec_update_last_oid_ok
  rw [allocate_verdict]
  exact hacc _

/-! ## The record that `insert` leaves -/

/-- On each of its paths `insert` leaves the record as its first two statements made
it. -/
theorem insert_record (self : VirtualNetworkStore) (nd : Nebula) (db : SqlDB)
    (error_str : String) :
    (self.insert nd db error_str).2.2.1 = self.insert_read_template := by
  unfold VirtualNetworkStore.insert
  simp only
  split_ifs <;> rfl

theorem template_erase_mem (t : Template) (n : String) (a : Attribute) :
    a ∈ Template.erase t n ↔ a ∈ t ∧ a.name ≠ n := by
  unfold Template.erase
  simp [List.mem_filter]

/-! ## Sets of ids -/

theorem set_insert_mem (x : Int) (l : List Int) : x ∈ set_insert x l := by
  induction l with
  | nil => simp [set_insert]
  | cons y ys ih =>
    unfold set_insert
    split_ifs with h1 h2
    · exact List.mem_cons_self _ _
    · rw [h2]
      exact List.mem_cons_self _ _
    · exact List.mem_cons_of_mem _ ih

/-- Inserting twice is inserting once. -/
theorem set_insert_idem (x : Int) (l : List Int) :
    set_insert x (set_insert x l) = set_insert x l := by
  induction l with
  | nil => simp [set_insert]
  | cons y ys ih =>
    by_cases h1 : x < y
    · simp [set_insert, h1]
    · by_cases h2 : x = y
      · simp [set_insert, h2]
      · simp only [set_insert, h1, h2, if_false, ih]

/-- Inserting an element of a set leaves the set as it is. -/
theorem set_insert_of_mem (x : Int) (l : List Int) (hl : l.Pairwise (· < ·)) (hx : x ∈ l) :
    set_insert x l = l := by
  induction l with
  | nil => cases hx
  | cons y ys ih =>
    have hp := List.pairwise_cons.mp hl
    by_cases h2 : x = y
    · subst h2
      simp [set_insert]
    · have hys : x ∈ ys := by
        rcases List.mem_cons.mp hx with h | h
        · exact absurd h h2
        · exact h
      have hlt : y < x := hp.1 x hys
      have h1 : ¬ x < y := by omega
      simp only [set_insert, h1, h2, if_false, ih hp.2 hys]

theorem ascending_pairwise (l : List Int) (h : ascending l = true) : l.Pairwise (· < ·) :=
  List.chain'_iff_pairwise.mp (ascending_chain l h)

theorem filter_ne_of_not_mem (x : Int) (l : List Int) (h : x ∉ l) :
    l.filter (fun y => y ≠ x) = l := by
  apply List.filter_eq_self.mpr
  intro a ha
  have : a ≠ x := fun e => h (e ▸ ha)
  simpa using this

theorem not_mem_filter_ne (x : Int) (l : List Int) : x ∉ l.filter (fun y => y ≠ x) := by
  intro h
  have := (List.mem_filter.mp h).2
  simp at this

/-! ## Claims -/

/-- C1: for every record whose set of member networks is not empty, `drop` returns
`-3`, sets the error message "VirtualNetworkStore <oid> is not empty.", executes no
statement on the storage (the journal, the rows and the whole pool are the ones
before the call) and returns the record unchanged. -/
theorem C1_drop_not_empty (pool : VirtualNetworkStorePool) (vns : VirtualNetworkStore)
    (error_msg : String) (h : vns.virtual_networks ≠ []) :
    (pool.drop vns error_msg).1 = -3 ∧
    (pool.drop vns error_msg).2.1
      = "VirtualNetworkStore " ++ int_to_str vns.oid ++ " is not empty." ∧
    (pool.drop vns error_msg).2.2.1 = vns ∧
    (pool.drop vns error_msg).2.2.1.virtual_networks = vns.virtual_networks ∧
    (pool.drop vns error_msg).2.2.2.db.journal = pool.db.journal ∧
    (pool.drop vns error_msg).2.2.2.db.rows = pool.db.rows ∧
    (pool.drop vns error_msg).2.2.2.cache = pool.cache := by
  have hpos := (virtual_networks_size_pos vns).mpr h
  simp [VirtualNetworkStorePool.drop, hpos]

/-- Witness of C1 on the record with member networks `{5}`. -/
theorem C1_drop_not_empty_witness :
    sampleStore5.virtual_networks ≠ [] ∧ (samplePool.drop sampleStore5 "").1 = -3 ∧
    (samplePool.drop sampleStore5 "").2.2.1 = sampleStore5 :=
  have h := C1_drop_not_empty samplePool sampleStore5 "" (by decide)
  ⟨by decide, h.1, h.2.2.1⟩

/-- C2: when the name lookup finds a record, `allocate` returns `-1`, leaves `-1` in
`*oid` and writes nothing: the back end and the id counter are the ones before the
call and the candidate is not put in memory (the only object the lookup itself may
have loaded is the record found); the error string is "NAME is already taken by
VIRTUALNETWORKSTORE <id of the record found>." (for a name that passes the name
check, as the name of an allocated record did).  Consequently, once an
allocation of a valid candidate under a name that no stored row carries has
succeeded, every later allocation under the same name returns `-1` and leaves the
back end as it was. -/
theorem C2_allocate_name_taken (pool : VirtualNetworkStorePool) (ext : Externals)
    (uid gid : Int) (uname gname : String) (umask : Int) (vns_template : Option Template)
    (cluster_ids : List Int) (error_str : String) :
    (∀ aux : VirtualNetworkStore,
      (pool.get ext.nd
        ((VirtualNetworkStore.new ext.nd uid gid uname gname umask vns_template
          cluster_ids).get_template_attribute "NAME")).1 = some aux →
      (pool.allocate ext uid gid uname gname umask vns_template cluster_ids error_str).1 = -1 ∧
      (pool.allocate ext uid gid uname gname umask vns_template cluster_ids error_str).2.1
        = -1 ∧
      ((ext.name_is_valid
          ((VirtualNetworkStore.new ext.nd uid gid uname gname umask vns_template
            cluster_ids).get_template_attribute "NAME") error_str).1 = true →
        (pool.allocate ext uid gid uname gname umask vns_template cluster_ids error_str).2.2.1
          = "NAME is already taken by VIRTUALNETWORKSTORE " ++ int_to_str aux.oid ++ ".") ∧
      (pool.allocate ext uid gid uname gname umask vns_template cluster_ids
        error_str).2.2.2.db = pool.db ∧
      (pool.allocate ext uid gid uname gname umask vns_template cluster_ids
        error_str).2.2.2.lastOID = pool.lastOID ∧
      ∀ o ∈ (pool.allocate ext uid gid uname gname umask vns_template cluster_ids
        error_str).2.2.2.cache, o ∈ pool.cache ∨ o = aux) ∧
    (∀ (tmpl : Template) (uid2 gid2 : Int) (uname2 gname2 : String) (umask2 : Int)
      (vns_template2 : Option Template) (cluster_ids2 : List Int) (error_str2 : String),
      vns_template = some tmpl →
      -1 ≤ pool.lastOID ∧ pool.lastOID ≤ INT_MAX →
      is_int uid = true → is_int gid = true →
      valid_raw_text uname = true → valid_raw_text gname = true →
      valid_raw_text (tmpl.get "NAME") = true →
      valid_id_set cluster_ids = true → tmpl.all Attribute.valid = true →
      (∀ row ∈ pool.db.rows, row.name ≠ tmpl.get "NAME") →
      0 ≤ (pool.allocate ext uid gid uname gname umask vns_template cluster_ids error_str).1 →
      (VirtualNetworkStore.new ext.nd uid2 gid2 uname2 gname2 umask2 vns_template2
        cluster_ids2).get_template_attribute "NAME" = tmpl.get "NAME" →
      ((pool.allocate ext uid gid uname gname umask vns_template cluster_ids
          error_str).2.2.2.allocate ext uid2 gid2 uname2 gname2 umask2 vns_template2
          cluster_ids2 error_str2).1 = -1 ∧
      ((pool.allocate ext uid gid uname gname umask vns_template cluster_ids
          error_str).2.2.2.allocate ext uid2 gid2 uname2 gname2 umask2 vns_template2
          cluster_ids2 error_str2).2.1 = -1 ∧
      ((pool.allocate ext uid gid uname gname umask vns_template cluster_ids
          error_str).2.2.2.allocate ext uid2 gid2 uname2 gname2 umask2 vns_template2
          cluster_ids2 error_str2).2.2.2.db
        = (pool.allocate ext uid gid uname gname umask vns_template cluster_ids
            error_str).2.2.2.db) := by
  constructor
  · intro aux hfound
    by_cases hname : (ext.name_is_valid
        ((VirtualNetworkStore.new ext.nd uid gid uname gname umask vns_template
          cluster_ids).get_template_attribute "NAME") error_str).1 = true
    · have hdup := allocate_duplicated pool ext uid gid uname gname umask vns_template
        cluster_ids error_str aux hname hfound
      obtain ⟨hdb, hlast, hcache⟩ := get_some pool ext.nd _ aux hfound
      rw [hdup]
      exact ⟨rfl, rfl, fun _ => rfl, hdb, hlast, hcache⟩
    · obtain ⟨a1, a2, a3⟩ := allocate_fail_name pool ext uid gid uname gname umask
        vns_template cluster_ids error_str (by simpa using hname)
      rw [a3]
      exact ⟨a1, a2, fun hn => absurd hn hname, rfl, rfl, fun o ho => Or.inl ho⟩
  · intro tmpl uid2 gid2 uname2 gname2 umask2 vns_template2 cluster_ids2 error_str2
      htm hlast huid hgid huname hgname hname hcl htmpl hfresh hfirst hsame
    subst htm
    obtain ⟨hg, halloc⟩ := allocate_ok pool ext uid gid uname gname umask (some tmpl)
      cluster_ids error_str hfirst
    have hgn : (VirtualNetworkStore.new ext.nd uid gid uname gname umask (some tmpl)
        cluster_ids).get_template_attribute "NAME" = tmpl.get "NAME" := rfl
    rw [hgn] at hg
    rw [halloc] at hfirst ⊢
    obtain ⟨_, hcache, _, hrows, _, hmad⟩ := PoolSQL_allocate_ok pool ext.nd _ _ hfirst
    obtain ⟨hvalid, hsname⟩ := stored_valid ext.nd uid gid uname gname umask tmpl cluster_ids
      pool.next_oid (is_int_next_oid pool hlast) huid hgid huname hgname hname hcl htmpl hmad
    have hc := (get_none pool ext.nd _ hg).2
    rw [← hcache] at hc
    obtain ⟨hfound, hdb⟩ := get_after_insert _ ext.nd (tmpl.get "NAME") pool.db.rows _ hc hrows
      hfresh hvalid hsname
    by_cases hn2 : (ext.name_is_valid
        ((VirtualNetworkStore.new ext.nd uid2 gid2 uname2 gname2 umask2 vns_template2
          cluster_ids2).get_template_attribute "NAME") error_str2).1 = false
    · obtain ⟨a1, a2, a3⟩ := allocate_fail_name _ ext uid2 gid2 uname2 gname2 umask2
        vns_template2 cluster_ids2 error_str2 hn2
      exact ⟨a1, a2, by rw [a3]⟩
    · rw [← hsame] at hfound hdb
      have hdup := allocate_duplicated _ ext uid2 gid2 uname2 gname2 umask2 vns_template2
        cluster_ids2 error_str2 _ (by simpa using hn2) hfound
      rw [hdup]
      exact ⟨rfl, rfl, hdb⟩

set_option maxRecDepth 100000 in
/-- Witness of C2: in a pool that starts empty the first allocation of `lab` gives id
`100`; the lookup then finds that record, and the second allocation, with the same
template, returns `-1`, names record `100` and changes nothing in the back end. -/
theorem C2_allocate_name_taken_witness :
    (freshPool.allocate sampleExt 2 1 "alice" "users" 95 (some labTemplate) [0] "").1 = 100 ∧
    (labPool.get sampleNebula "lab").1 = some labRecord ∧ labRecord.oid = 100 ∧
    (labPool.allocate sampleExt 3 1 "bob" "users" 95 (some labTemplate) [0] "").1 = -1 ∧
    (labPool.allocate sampleExt 3 1 "bob" "users" 95 (some labTemplate) [0] "").2.2.1
      = "NAME is already taken by VIRTUALNETWORKSTORE " ++ int_to_str labRecord.oid ++ "." ∧
    (labPool.allocate sampleExt 3 1 "bob" "users" 95 (some labTemplate) [0] "").2.2.2.db.journal
      = labPool.db.journal :=
  have hA := (C2_allocate_name_taken labPool sampleExt 3 1 "bob" "users" 95
    (some labTemplate) [0] "").1 labRecord (by decide)
  have hB := (C2_allocate_name_taken freshPool sampleExt 2 1 "alice" "users" 95
    (some labTemplate) [0] "").2 labTemplate 3 1 "bob" "users" 95 (some labTemplate) [0] ""
    rfl (by decide) (by decide) (by decide) (by decide) (by decide) (by decide) (by decide)
    (by decide) (by decide) (by decide) rfl
  ⟨by decide, by decide, by decide, hB.1, hA.2.2.1 (by decide), congrArg SqlDB.journal hB.2.2⟩

/-- C3: for a registered driver whose `REQUIRED_ATTRS` value is present,
`set_vn_mad` returns `0` exactly when every name of the comma-split list, trimmed
and in upper case, has a non-empty value in the template of the record; otherwise it
returns `-1`, and the error string names the first name of the list (in list order)
whose value is missing or empty, whatever names follow it. -/
theorem C3_set_vn_mad_required (nd : Nebula) (self : VirtualNetworkStore) (mad : String)
    (error_str : String) (vatt : VectorAttribute) (required_attrs : String)
    (hreg : nd.get_vn_conf_attribute mad = some vatt)
    (hreq : vatt.vector_value "REQUIRED_ATTRS" = some required_attrs) :
    ((self.set_vn_mad nd mad error_str).1 = 0 ↔
      ∀ n ∈ split required_attrs ',',
        self.get_template_attribute (toupper (trim n)) ≠ "") ∧
    ((self.set_vn_mad nd mad error_str).1 ≠ 0 →
      (self.set_vn_mad nd mad error_str).1 = -1 ∧
      ∃ pre n post, split required_attrs ',' = pre ++ n :: post ∧
        (∀ m ∈ pre, self.get_template_attribute (toupper (trim m)) ≠ "") ∧
        self.get_template_attribute (toupper (trim n)) = "" ∧
        (self.set_vn_mad nd mad error_str).2
          = "VirtualNetworkStore template is missing the \"" ++ toupper (trim n)
              ++ "\" attribute or it's empty.") ∧
    (∀ pre n post, split required_attrs ',' = pre ++ n :: post →
      (∀ m ∈ pre, self.get_template_attribute (toupper (trim m)) ≠ "") →
      self.get_template_attribute (toupper (trim n)) = "" →
      self.set_vn_mad nd mad error_str
        = (-1, "VirtualNetworkStore template is missing the \"" ++ toupper (trim n)
                ++ "\" attribute or it's empty.")) := by
  refine ⟨?_, ?_, ?_⟩
  · rw [← set_vn_mad_loop_none]
    cases hl : self.set_vn_mad_loop (split required_attrs ',') with
    | none => simp [VirtualNetworkStore.set_vn_mad, hreg, hreq, hl]
    | some a => simp [VirtualNetworkStore.set_vn_mad, hreg, hreq, hl]
  · intro hne
    cases hl : self.set_vn_mad_loop (split required_attrs ',') with
    | none => simp [VirtualNetworkStore.set_vn_mad, hreg, hreq, hl] at hne
    | some a =>
      obtain ⟨pre, n, post, hsplit, hpre, hn, ha⟩ := set_vn_mad_loop_some self _ a hl
      refine ⟨by simp [VirtualNetworkStore.set_vn_mad, hreg, hreq, hl], pre, n, post,
        hsplit, hpre, hn, ?_⟩
      simp [VirtualNetworkStore.set_vn_mad, hreg, hreq, hl, ha]
  · intro pre n post hsplit hpre hn
    have hl := set_vn_mad_loop_first self pre post n hpre hn
    rw [← hsplit] at hl
    simp [VirtualNetworkStore.set_vn_mad, hreg, hreq, hl]

/-- Witness of C3: the driver `ovswitch` requires `bridge`; the sample record has
`BRIDGE = br0` and passes, the same record without it fails naming `BRIDGE`. -/
theorem C3_set_vn_mad_required_witness :
    sampleNebula.get_vn_conf_attribute "ovswitch"
      = some [("NAME", "ovswitch"), ("REQUIRED_ATTRS", "bridge")] ∧
    VectorAttribute.vector_value [("NAME", "ovswitch"), ("REQUIRED_ATTRS", "bridge")]
      "REQUIRED_ATTRS" = some "bridge" ∧
    (sampleStore.set_vn_mad sampleNebula "ovswitch" "").1 = 0 ∧
    ({ sampleStore with obj_template := [.single "VN_MAD" "ovswitch"] }
        : VirtualNetworkStore).set_vn_mad sampleNebula "ovswitch" ""
      = (-1, "VirtualNetworkStore template is missing the \"BRIDGE\" attribute or it's empty.") :=
  ⟨by decide, by decide,
   (C3_set_vn_mad_required sampleNebula sampleStore "ovswitch" ""
      [("NAME", "ovswitch"), ("REQUIRED_ATTRS", "bridge")] "bridge"
      (by decide) (by decide)).1.mpr (by decide),
   by decide⟩

/-- C4: for every valid record `r`, reading the text written by `to_xml` into an object
whose two id sets are empty (as in the object made by `create`) returns `0` and gives
a record equal to `r` in id, uid, gid, uname, gname, name, the nine permission bits,
vn_mad, state, cluster ids, member-network ids and template; only `valid`, which is
not part of the text, stays as it was in the object.  Empty id sets are included. -/
theorem C4_from_xml_to_xml (nd : Nebula) (self r : VirtualNetworkStore)
    (h : r.valid_record = true)
    (hvn : self.virtual_networks = []) (hcl : self.cluster_ids = []) :
    (self.from_xml r.to_xml).1 = 0 ∧
    (self.from_xml r.to_xml).2 = { r with valid := self.valid } ∧
    (self.from_xml r.to_xml).2.oid = r.oid ∧
    (self.from_xml r.to_xml).2.uid = r.uid ∧
    (self.from_xml r.to_xml).2.gid = r.gid ∧
    (self.from_xml r.to_xml).2.uname = r.uname ∧
    (self.from_xml r.to_xml).2.gname = r.gname ∧
    (self.from_xml r.to_xml).2.name = r.name ∧
    (self.from_xml r.to_xml).2.vn_mad = r.vn_mad ∧
    (self.from_xml r.to_xml).2.state = r.state ∧
    (self.from_xml r.to_xml).2.cluster_ids = r.cluster_ids ∧
    (self.from_xml r.to_xml).2.virtual_networks = r.virtual_networks ∧
    (self.from_xml r.to_xml).2.obj_template = r.obj_template ∧
    (VirtualNetworkStorePool.create nd).from_xml r.to_xml = (0, { r with valid := true }) := by
  have hrt := from_xml_to_xml self r h hvn hcl
  have hc := from_xml_to_xml (VirtualNetworkStorePool.create nd) r h rfl rfl
  rw [hrt]
  exact ⟨rfl, rfl, rfl, rfl, rfl, rfl, rfl, rfl, rfl, rfl, rfl, rfl, rfl, hc⟩

/-- Witness of C4: a record with both id sets empty, a driver name with `<`, `>` and
`&` and a vector attribute comes back from its own text. -/
theorem C4_from_xml_to_xml_witness :
    bareStore.valid_record = true ∧
    (VirtualNetworkStorePool.create sampleNebula).virtual_networks = [] ∧
    (VirtualNetworkStorePool.create sampleNebula).cluster_ids = [] ∧
    (VirtualNetworkStorePool.create sampleNebula).from_xml bareStore.to_xml
      = (0, bareStore) :=
  ⟨by decide, rfl, rfl,
   (C4_from_xml_to_xml sampleNebula (VirtualNetworkStorePool.create sampleNebula) bareStore
      (by decide) rfl rfl).2.2.2.2.2.2.2.2.2.2.2.2.2⟩

/-- C5: whenever the validator fails inside `post_update_template`, the call returns
`-1` with the error of the validator, the `vn_mad` of the record is the one it had
before the call, and nothing else is reverted: the record afterwards is the record
on which the validator ran with only `vn_mad` put back, so its template (and the
value of `VN_MAD` in it) is the one the validator saw. -/
theorem C5_post_update_template_rollback (self : VirtualNetworkStore) (nd : Nebula)
    (error_str : String)
    (hfail : (self.post_update_template_vn_mad.set_vn_mad nd
                self.post_update_template_vn_mad.vn_mad error_str).1 ≠ 0) :
    (self.post_update_template nd error_str).1 = -1 ∧
    (self.post_update_template nd error_str).2.1
      = (self.post_update_template_vn_mad.set_vn_mad nd
          self.post_update_template_vn_mad.vn_mad error_str).2 ∧
    (self.post_update_template nd error_str).2.2.vn_mad = self.vn_mad ∧
    (self.post_update_template nd error_str).2.2
      = { self.post_update_template_vn_mad with vn_mad := self.vn_mad } ∧
    (self.post_update_template nd error_str).2.2.obj_template
      = self.post_update_template_vn_mad.obj_template ∧
    (self.post_update_template nd error_str).2.2.get_template_attribute "VN_MAD"
      = self.post_update_template_vn_mad.get_template_attribute "VN_MAD" ∧
    (self.get_template_attribute "VN_MAD" ≠ "" →
      (self.post_update_template nd error_str).2.2 = self) := by
  refine ⟨?_, ?_, ?_, ?_, ?_, ?_, ?_⟩ <;>
    simp only [VirtualNetworkStore.post_update_template, hfail, ne_eq, not_false_eq_true,
      if_true, VirtualNetworkStore.get_template_attribute]
  intro hne
  unfold VirtualNetworkStore.post_update_template_vn_mad
  simp only [VirtualNetworkStore.get_template_attribute, hne, if_false]
  split <;> rfl

/-- Witness of C5: the new template names `ovswitch` but has no `BRIDGE`; the call
fails, the record keeps `dummy` and the template keeps `VN_MAD = ovswitch`. -/
theorem C5_post_update_template_rollback_witness :
    (updatedStore.post_update_template_vn_mad.set_vn_mad sampleNebula
        updatedStore.post_update_template_vn_mad.vn_mad "").1 ≠ 0 ∧
    (updatedStore.post_update_template sampleNebula "").1 = -1 ∧
    (updatedStore.post_update_template sampleNebula "").2.2.vn_mad = "dummy" ∧
    (updatedStore.post_update_template sampleNebula "").2.2.get_template_attribute "VN_MAD"
      = "ovswitch" :=
  have h := C5_post_update_template_rollback updatedStore sampleNebula "" (by decide)
  ⟨by decide, h.1, h.2.2.1, by decide⟩

/-- C6: when the `VN_MAD` of the template is not empty and `set_vn_mad` fails for it,
`insert` returns `-1` with the error string of the validator and hands the back end
back untouched (no statement is executed: `insert_replace` is not reached); when
`set_vn_mad` succeeds, the result of `insert` is the result of `insert_replace`. -/
theorem C6_insert_validation (self : VirtualNetworkStore) (nd : Nebula) (db : SqlDB)
    (error_str : String) (hmad : self.insert_read_template.vn_mad ≠ "") :
    ((self.insert_read_template.set_vn_mad nd self.insert_read_template.vn_mad
        error_str).1 ≠ 0 →
      self.insert nd db error_str
        = (-1, (self.insert_read_template.set_vn_mad nd self.insert_read_template.vn_mad
                  error_str).2, self.insert_read_template, db) ∧
      (self.insert nd db error_str).2.2.2.journal = db.journal ∧
      (self.insert nd db error_str).2.2.2.rows = db.rows) ∧
    ((self.insert_read_template.set_vn_mad nd self.insert_read_template.vn_mad
        error_str).1 = 0 →
      self.insert nd db error_str
        = ((self.insert_read_template.insert_replace db false error_str).1,
           (self.insert_read_template.insert_replace db false error_str).2.1,
           self.insert_read_template,
           (self.insert_read_template.insert_replace db false error_str).2.2)) := by
  constructor
  · intro hfail
    simp [VirtualNetworkStore.insert, hmad, hfail]
  · intro hok
    have herr : (self.insert_read_template.set_vn_mad nd self.insert_read_template.vn_mad
        error_str).2 = error_str := by
      revert hok
      unfold VirtualNetworkStore.set_vn_mad
      repeat' split
      all_goals simp
    simp [VirtualNetworkStore.insert, hmad, hok, herr]

set_option maxRecDepth 100000 in
/-- Witness of C6: with the driver `ovswitch` requiring `BRIDGE`, the candidate with
`VN_MAD = ovswitch` and no `BRIDGE` is refused with an error naming `BRIDGE` and
nothing is written; with `BRIDGE = br0` the row of the record is written. -/
theorem C6_insert_validation_witness :
    candidateNoBridge.insert_read_template.vn_mad ≠ "" ∧
    (candidateNoBridge.insert sampleNebula sampleDb "").1 = -1 ∧
    (candidateNoBridge.insert sampleNebula sampleDb "").2.1
      = "VirtualNetworkStore template is missing the \"BRIDGE\" attribute or it's empty." ∧
    (candidateNoBridge.insert sampleNebula sampleDb "").2.2.2.journal = [] ∧
    (candidateBridge.insert sampleNebula sampleDb "").1 = 0 ∧
    ((candidateBridge.insert sampleNebula sampleDb "").2.2.2.rows.map (fun r => r.name))
      = ["lab"] :=
  have h := (C6_insert_validation candidateNoBridge sampleNebula sampleDb "" (by decide)).1
    (by decide)
  ⟨by decide, by rw [h.1], by rw [h.1]; decide, h.2.1, by decide, by decide⟩

/-- C7: when the pool is constructed over empty backing storage (no row, no stored id
counter: `lastOID = -1`), the template parser gives `NAME = default`, `VN_MAD =
dummy` for the default text, and the construction completes, the storage holds
exactly one row, the row of a record with id `0`, name `default`, driver `dummy`,
the administrative user and group as owner and the default cluster as its only
cluster; the id counter is then `99` (set after the allocation), and every later
`allocate` that succeeds on this pool returns `100`. -/
theorem C7_bootstrap_default (ext : Externals) (db : SqlDB) (inherit_attrs : List String)
    (pool : VirtualNetworkStorePool)
    (hrows : db.rows = []) (hlast : db.last_oid = -1)
    (hparse : (ext.parse_str_or_xml ("NAME   = " ++ DEFAULT_VNS_NAME ++ "\n" ++ "VN_MAD = dummy")
        "").2.2 = [.single "NAME" "default", .single "VN_MAD" "dummy"])
    (hok : VirtualNetworkStorePool.new ext db inherit_attrs = .ok pool) :
    (∃ vns : VirtualNetworkStore,
      pool.db.rows = [vns.row] ∧
      pool.db.journal = db.journal ++
        [SqlCmd.insert_row vns.row, SqlCmd.update_last_oid 0, SqlCmd.update_last_oid 99] ∧
      vns.oid = DEFAULT_VNS_ID ∧ vns.oid = 0 ∧ vns.name = "default" ∧ vns.vn_mad = "dummy" ∧
      vns.uid = UserPool.ONEADMIN_ID ∧ vns.gid = GroupPool.ONEADMIN_ID ∧
      vns.uname = ext.oneadmin_name ∧ vns.gname = GroupPool.ONEADMIN_NAME ∧
      vns.cluster_ids = [ClusterPool.DEFAULT_CLUSTER_ID] ∧
      vns.virtual_networks = [] ∧ vns.state = READY ∧
      vns.obj_template = [.single "VN_MAD" "dummy"]) ∧
    pool.lastOID = 99 ∧
    (∀ (uid gid : Int) (uname gname : String) (umask : Int) (vns_template : Option Template)
      (cluster_ids : List Int) (error_str : String),
      0 ≤ (pool.allocate ext uid gid uname gname umask vns_template cluster_ids error_str).1 →
      (pool.allocate ext uid gid uname gname umask vns_template cluster_ids error_str).1
        = 100) := by
  unfold VirtualNetworkStorePool.new at hok
  simp only [VirtualNetworkStorePool.get_lastOID, hlast, if_true, hparse] at hok
  split_ifs at hok with hp ha
  have ha0 : 0 ≤ (VirtualNetworkStorePool.allocate
      { db := db, lastOID := -1, cache := [], inherit_attrs := inherit_attrs } ext
      UserPool.ONEADMIN_ID GroupPool.ONEADMIN_ID ext.oneadmin_name GroupPool.ONEADMIN_NAME 95
      (some [.single "NAME" "default", .single "VN_MAD" "dummy"])
      (set_insert ClusterPool.DEFAULT_CLUSTER_ID [])
      (ext.parse_str_or_xml ("NAME   = " ++ DEFAULT_VNS_NAME ++ "\n" ++ "VN_MAD = dummy")
        "").2.1).1 := by
    rw [← allocate_oid_eq]
    omega
  obtain ⟨_, halloc⟩ := allocate_ok _ ext _ _ _ _ _ _ _ _ ha0
  rw [halloc] at ha0 hok
  obtain ⟨_, hcache, hlo, hr, hj, _⟩ := PoolSQL_allocate_ok _ ext.nd _ _ ha0
  have hpool : pool = _ := (Except.ok.inj hok).symm
  have hnext : VirtualNetworkStorePool.next_oid
      { db := db, lastOID := -1, cache := [], inherit_attrs := inherit_attrs } = 0 := by
    simp [VirtualNetworkStorePool.next_oid, INT_MAX]
  rw [hnext] at hr hj hlo
  simp only [hrows, List.nil_append] at hr hj
  refine ⟨⟨({ VirtualNetworkStore.new ext.nd UserPool.ONEADMIN_ID GroupPool.ONEADMIN_ID
      ext.oneadmin_name GroupPool.ONEADMIN_NAME 95
      (some [.single "NAME" "default", .single "VN_MAD" "dummy"])
      (set_insert ClusterPool.DEFAULT_CLUSTER_ID []) with oid := 0, valid := true }
      : VirtualNetworkStore).insert_read_template, ?_, ?_, ?_⟩, ?_, ?_⟩
  · rw [hpool]
    simp only [VirtualNetworkStorePool.set_update_lastOID, exec_update_last_oid]
    exact hr
  · rw [hpool]
    simp only [VirtualNetworkStorePool.set_update_lastOID, (exec_facts _ _).2.1, hj,
      List.append_assoc, List.cons_append, List.nil_append]
  · simp only [VirtualNetworkStore.insert_read_template,
      VirtualNetworkStore.erase_template_attribute, VirtualNetworkStore.new,
      VirtualNetworkStore.set_umask, VirtualNetworkStore.get_template_attribute]
    decide
  · rw [hpool]
    rfl
  · intro uid gid uname gname umask vns_template cluster_ids error_str h
    rw [allocate_returns_next pool ext _ _ _ _ _ _ _ _ h, hpool]
    rfl

set_option maxRecDepth 100000 in
/-- Witness of C7: over the empty `sampleDb` the construction completes; the storage
then holds one row, with id `0` and name `default`, the counter is `99` and the
allocation of `lab` returns `100`. -/
theorem C7_bootstrap_default_witness :
    sampleDb.rows = [] ∧ sampleDb.last_oid = -1 ∧
    bootPool.db.rows.map (fun r => (r.oid, r.name)) = [(0, "default")] ∧
    bootPool.lastOID = 99 ∧
    (bootPool.allocate sampleExt 2 1 "alice" "users" 95 (some labTemplate) [0] "").1 = 100 :=
  have h := C7_bootstrap_default sampleExt sampleDb [] bootPool rfl rfl (by decide) (by rfl)
  ⟨rfl, rfl, by decide, h.2.1, h.2.2 2 1 "alice" "users" 95 (some labTemplate) [0] "" (by decide)⟩

/-- C8: `enable` returns `0`, sets `state` to `READY` for `true` and to `DISABLED` for
`false`, changes no other member of the record (in particular not the member
networks nor the cluster ids) and leaves the error string alone; two calls of
`enable(true)` in a row give `READY` after each call. -/
theorem C8_enable_frame (self : VirtualNetworkStore) (flag : Bool) (error_str : String) :
    (self.enable flag error_str).1 = 0 ∧
    (self.enable flag error_str).2.1 = error_str ∧
    (self.enable flag error_str).2.2
      = { self with state := if flag then READY else DISABLED } ∧
    (self.enable flag error_str).2.2.virtual_networks = self.virtual_networks ∧
    (self.enable flag error_str).2.2.cluster_ids = self.cluster_ids ∧
    (self.enable true error_str).2.2.state = READY ∧
    (((self.enable true error_str).2.2).enable true error_str).1 = 0 ∧
    (((self.enable true error_str).2.2).enable true error_str).2.2.state = READY ∧
    (((self.enable true error_str).2.2).enable true error_str).2.2
      = (self.enable true error_str).2.2 := by
  cases flag <;> simp [VirtualNetworkStore.enable]

/-- C9: for every record with no member network, `drop` executes exactly the delete
statement of that record, returns `0` when the statement reports `0` and `-1` with
the message "SQL DB error" when it reports anything else; and for every record the
result of `drop` is `0`, `-1` or `-3`. -/
theorem C9_drop_result (pool : VirtualNetworkStorePool) (vns : VirtualNetworkStore)
    (error_msg : String) :
    (vns.virtual_networks = [] →
      (pool.drop vns error_msg).2.2.2.db.journal
        = pool.db.journal ++ [SqlCmd.delete_row vns.oid] ∧
      (pool.db.verdict pool.db.rows (SqlCmd.delete_row vns.oid) = 0 →
        (pool.drop vns error_msg).1 = 0) ∧
      (pool.db.verdict pool.db.rows (SqlCmd.delete_row vns.oid) ≠ 0 →
        (pool.drop vns error_msg).1 = -1 ∧ (pool.drop vns error_msg).2.1 = "SQL DB error")) ∧
    ((pool.drop vns error_msg).1 = 0 ∨ (pool.drop vns error_msg).1 = -1 ∨
      (pool.drop vns error_msg).1 = -3) := by
  by_cases hne : vns.virtual_networks = []
  · have hsz : ¬ vns.virtual_networks_size > 0 := by
      rw [virtual_networks_size_pos]; simp [hne]
    by_cases hv : pool.db.verdict pool.db.rows (SqlCmd.delete_row vns.oid) = 0
    · simp [VirtualNetworkStorePool.drop, VirtualNetworkStore.drop, SqlDB.exec,
        VirtualNetworkStorePool.sync, SqlDB.apply, hsz, hv]
    · simp [VirtualNetworkStorePool.drop, VirtualNetworkStore.drop, SqlDB.exec,
        VirtualNetworkStorePool.sync, hsz, hv]
  · have hsz : vns.virtual_networks_size > 0 := (virtual_networks_size_pos vns).mpr hne
    simp [VirtualNetworkStorePool.drop, hsz, hne]

/-- Witness of C9: on the empty record the delete is executed; it returns `0` on the
working back end and `-1` on the failing one. -/
theorem C9_drop_result_witness :
    sampleStore.virtual_networks = [] ∧
    (samplePool.drop sampleStore "").2.2.2.db.journal = [SqlCmd.delete_row 100] ∧
    (samplePool.drop sampleStore "").1 = 0 ∧
    (({ samplePool with db := brokenDb }).drop sampleStore "").1 = -1 :=
  have h := (C9_drop_result samplePool sampleStore "").1 (by decide)
  have h2 := (C9_drop_result { samplePool with db := brokenDb } sampleStore "").1 (by decide)
  ⟨by decide, h.1, h.2.1 (by decide), (h2.2.2 (by decide)).1⟩

/-- C10: when the driver name does not resolve in the configuration, `set_vn_mad`
returns `-1` and the error string says that this `VN_MAD` is not defined, for every
record (hence every template) and every previous error string. -/
theorem C10_set_vn_mad_undefined (nd : Nebula) (self : VirtualNetworkStore) (mad : String)
    (error_str : String) (h : nd.get_vn_conf_attribute mad = none) :
    self.set_vn_mad nd mad error_str
      = (-1, "VN_MAD named \"" ++ mad ++ "\" is not defined in oned.conf") := by
  simp [VirtualNetworkStore.set_vn_mad, h]

/-- Witness of C10 with the unknown driver `vxlan`. -/
theorem C10_set_vn_mad_undefined_witness :
    sampleNebula.get_vn_conf_attribute "vxlan" = none ∧
    sampleStore.set_vn_mad sampleNebula "vxlan" ""
      = (-1, "VN_MAD named \"vxlan\" is not defined in oned.conf") :=
  ⟨by decide, C10_set_vn_mad_undefined sampleNebula sampleStore "vxlan" "" (by decide)⟩

/-- C11: if the template of the candidate has no `VN_MAD` attribute or its value is
empty, `insert` returns `-1` with the error "No VN_MAD in template."; the back end is
handed back untouched (no statement is executed) and the result is the same for
every configuration of the drivers (the validator is not consulted). -/
theorem C11_insert_no_vn_mad (self : VirtualNetworkStore) (nd : Nebula) (db : SqlDB)
    (error_str : String) (h : self.get_template_attribute "VN_MAD" = "") :
    self.insert nd db error_str
      = (-1, "No VN_MAD in template.", self.insert_read_template, db) ∧
    (self.insert nd db error_str).1 = -1 ∧
    (self.insert nd db error_str).2.1 = "No VN_MAD in template." ∧
    (self.insert nd db error_str).2.2.2.journal = db.journal ∧
    (self.insert nd db error_str).2.2.2.rows = db.rows ∧
    (∀ nd2 : Nebula, self.insert nd2 db error_str = self.insert nd db error_str) := by
  have hmad : self.insert_read_template.vn_mad = "" := by
    simp only [VirtualNetworkStore.insert_read_template,
      VirtualNetworkStore.erase_template_attribute, VirtualNetworkStore.get_template_attribute]
      at h ⊢
    rw [template_get_erase_ne _ _ _ (by decide), h]
  have hi : ∀ nd1 : Nebula, self.insert nd1 db error_str
      = (-1, "No VN_MAD in template.", self.insert_read_template, db) := by
    intro nd1
    simp [VirtualNetworkStore.insert, hmad]
  refine ⟨hi nd, ?_, ?_, ?_, ?_, ?_⟩
  · rw [hi nd]
  · rw [hi nd]
  · rw [hi nd]
  · rw [hi nd]
  · intro nd2
    rw [hi nd, hi nd2]

/-- Witness of C11: a candidate whose template has a name but no `VN_MAD`. -/
theorem C11_insert_no_vn_mad_witness :
    candidateNoMad.get_template_attribute "VN_MAD" = "" ∧
    candidateNoMad.insert sampleNebula sampleDb ""
      = (-1, "No VN_MAD in template.", candidateNoMad.insert_read_template, sampleDb) :=
  ⟨by decide, (C11_insert_no_vn_mad candidateNoMad sampleNebula sampleDb "" (by decide)).1⟩

/-- C12: if the `NAME` of the candidate template fails the name check, `allocate`
returns `-1` and leaves `-1` in `*oid`; the error string is the one of the name
check and the pool afterwards is the pool before: no row is written, nothing is put
in memory, the id counter keeps its value; the result is the same whatever the pool
holds (no lookup result is used). -/
theorem C12_allocate_invalid_name (pool : VirtualNetworkStorePool) (ext : Externals)
    (uid gid : Int) (uname gname : String) (umask : Int) (vns_template : Option Template)
    (cluster_ids : List Int) (error_str : String)
    (hname : (ext.name_is_valid
      ((VirtualNetworkStore.new ext.nd uid gid uname gname umask vns_template
        cluster_ids).get_template_attribute "NAME") error_str).1 = false) :
    pool.allocate ext uid gid uname gname umask vns_template cluster_ids error_str
      = (-1, -1,
          (ext.name_is_valid
            ((VirtualNetworkStore.new ext.nd uid gid uname gname umask vns_template
              cluster_ids).get_template_attribute "NAME") error_str).2, pool) ∧
    (pool.allocate ext uid gid uname gname umask vns_template cluster_ids error_str).1 = -1 ∧
    (pool.allocate ext uid gid uname gname umask vns_template cluster_ids error_str).2.1
      = -1 ∧
    (pool.allocate ext uid gid uname gname umask vns_template cluster_ids
      error_str).2.2.2.db.journal = pool.db.journal ∧
    (pool.allocate ext uid gid uname gname umask vns_template cluster_ids
      error_str).2.2.2.db.rows = pool.db.rows ∧
    (pool.allocate ext uid gid uname gname umask vns_template cluster_ids
      error_str).2.2.2.cache = pool.cache ∧
    (pool.allocate ext uid gid uname gname umask vns_template cluster_ids
      error_str).2.2.2.lastOID = pool.lastOID ∧
    (∀ pool2 : VirtualNetworkStorePool,
      (pool2.allocate ext uid gid uname gname umask vns_template cluster_ids error_str).1
        = (pool.allocate ext uid gid uname gname umask vns_template cluster_ids error_str).1 ∧
      (pool2.allocate ext uid gid uname gname umask vns_template cluster_ids
          error_str).2.2.1
        = (pool.allocate ext uid gid uname gname umask vns_template cluster_ids
            error_str).2.2.1) := by
  have hi : ∀ p : VirtualNetworkStorePool,
      p.allocate ext uid gid uname gname umask vns_template cluster_ids error_str
      = (-1, -1,
          (ext.name_is_valid
            ((VirtualNetworkStore.new ext.nd uid gid uname gname umask vns_template
              cluster_ids).get_template_attribute "NAME") error_str).2, p) := by
    intro p
    unfold VirtualNetworkStorePool.allocate
    simp only [hname, if_true]
  refine ⟨hi pool, ?_, ?_, ?_, ?_, ?_, ?_, ?_⟩
  · rw [hi pool]
  · rw [hi pool]
  · rw [hi pool]
  · rw [hi pool]
  · rw [hi pool]
  · rw [hi pool]
  · intro pool2
    rw [hi pool, hi pool2]
    exact ⟨rfl, rfl⟩

/-- Witness of C12: a template without `NAME` is refused by the name check of the
examples, in a pool that already holds a record. -/
theorem C12_allocate_invalid_name_witness :
    (sampleExt.name_is_valid
      ((VirtualNetworkStore.new sampleExt.nd 2 1 "alice" "users" 95
        (some [.single "VN_MAD" "dummy"]) [0]).get_template_attribute "NAME") "").1 = false ∧
    (labPool.allocate sampleExt 2 1 "alice" "users" 95 (some [.single "VN_MAD" "dummy"]) [0]
      "").1 = -1 ∧
    (labPool.allocate sampleExt 2 1 "alice" "users" 95 (some [.single "VN_MAD" "dummy"]) [0]
      "").2.2.1 = "Invalid NAME, it cannot be empty" :=
  have h := C12_allocate_invalid_name labPool sampleExt 2 1 "alice" "users" 95
    (some [.single "VN_MAD" "dummy"]) [0] "" (by decide)
  ⟨by decide, h.2.1, by rw [h.1]; decide⟩

/-- C13: if the template has no `VN_MAD` attribute, or an empty one, when
`post_update_template` is called, the template afterwards is the template before with
`VN_MAD` replaced by the driver name of the record, so that its `VN_MAD` reads the
driver name the record had at the call, and `vn_mad` keeps that value; this holds for
both results of the validation, `0` and `-1`. -/
theorem C13_post_update_template_absent (self : VirtualNetworkStore) (nd : Nebula)
    (error_str : String) (h : self.get_template_attribute "VN_MAD" = "") :
    ((self.post_update_template nd error_str).1 = 0 ∨
      (self.post_update_template nd error_str).1 = -1) ∧
    (self.post_update_template nd error_str).2.2.obj_template
      = self.obj_template.replace "VN_MAD" self.vn_mad ∧
    (self.post_update_template nd error_str).2.2.get_template_attribute "VN_MAD"
      = self.vn_mad ∧
    (self.post_update_template nd error_str).2.2.vn_mad = self.vn_mad ∧
    (self.post_update_template nd error_str).2.2
      = self.replace_template_attribute "VN_MAD" self.vn_mad := by
  have hp : self.post_update_template_vn_mad
      = self.replace_template_attribute "VN_MAD" self.vn_mad := by
    unfold VirtualNetworkStore.post_update_template_vn_mad
    simp only [h, if_true]
  have hobj : (self.post_update_template nd error_str).2.2
      = self.replace_template_attribute "VN_MAD" self.vn_mad := by
    rcases post_update_template_cases self nd error_str with ⟨_, h2, _⟩ | ⟨_, h2, _⟩
    · rw [h2, hp]
    · rw [h2, hp]
      rfl
  refine ⟨?_, ?_, ?_, ?_, hobj⟩
  · rcases post_update_template_cases self nd error_str with ⟨h1, _, _⟩ | ⟨h1, _, _⟩
    · exact Or.inl h1
    · exact Or.inr h1
  · rw [hobj]
    rfl
  · rw [hobj]
    simp only [VirtualNetworkStore.replace_template_attribute,
      VirtualNetworkStore.get_template_attribute]
    exact template_get_replace _ _ _
  · rw [hobj]
    rfl

/-- Witness of C13: the record `sampleStore` after its template was replaced by one
without `VN_MAD`, once with `BRIDGE` (validation succeeds) and once without (validation
fails): both times the template gets `VN_MAD = ovswitch` and `vn_mad` stays. -/
theorem C13_post_update_template_absent_witness :
    (({ sampleStore with obj_template := [.single "BRIDGE" "br1"] } :
        VirtualNetworkStore).post_update_template sampleNebula "").1 = 0 ∧
    (({ sampleStore with obj_template := [.single "BRIDGE" "br1"] } :
        VirtualNetworkStore).post_update_template sampleNebula "").2.2.obj_template
      = [.single "BRIDGE" "br1", .single "VN_MAD" "ovswitch"] ∧
    (({ sampleStore with obj_template := [.single "MTU" "1500"] } :
        VirtualNetworkStore).post_update_template sampleNebula "").1 = -1 ∧
    (({ sampleStore with obj_template := [.single "MTU" "1500"] } :
        VirtualNetworkStore).post_update_template sampleNebula "").2.2.obj_template
      = [.single "MTU" "1500", .single "VN_MAD" "ovswitch"] ∧
    (({ sampleStore with obj_template := [.single "MTU" "1500"] } :
        VirtualNetworkStore).post_update_template sampleNebula "").2.2.vn_mad
      = "ovswitch" :=
  have h1 := C13_post_update_template_absent
    { sampleStore with obj_template := [.single "BRIDGE" "br1"] } sampleNebula ""
    (by decide)
  have h2 := C13_post_update_template_absent
    { sampleStore with obj_template := [.single "MTU" "1500"] } sampleNebula ""
    (by decide)
  ⟨by decide, by rw [h1.2.1]; decide, by decide, by rw [h2.2.1]; decide, h2.2.2.2.1⟩

/-- C14 as stated fails: the text `textNoTemplate` has no `TEMPLATE` section and every
other field of it parses; the text `textBadId` has a `TEMPLATE` section and a
field-level error (its `ID` is no number).  For the record `sampleStore` the decoder
gives the same outcome for both, result code and record: the caller cannot tell the
missing section from the field-level error. -/
theorem C14_from_xml_not_distinct :
    (update_from_str textNoTemplate).get_nodes "/VIRTUALNETWORKSTORE/TEMPLATE" = [] ∧
    ((update_from_str textNoTemplate).xpath_int "/VIRTUALNETWORKSTORE/ID" (-1)).1 = 0 ∧
    (update_from_str textBadId).get_nodes "/VIRTUALNETWORKSTORE/TEMPLATE" ≠ [] ∧
    ((update_from_str textBadId).xpath_int "/VIRTUALNETWORKSTORE/ID" (-1)).1 = -1 ∧
    (sampleStore.from_xml textNoTemplate).1 = -1 ∧
    (sampleStore.from_xml textBadId).1 = -1 ∧
    sampleStore.from_xml textNoTemplate = sampleStore.from_xml textBadId := by
  set_option maxRecDepth 100000 in
  decide

/-- C14, amended: whenever the text has no `/VIRTUALNETWORKSTORE/TEMPLATE` section
`from_xml` returns `-1`, whatever the other fields are, and leaves the template of the
record as it was; `-1` is the one failure code of `from_xml`, so every failing call,
a field-level parse error included, returns the same code. -/
theorem C14_from_xml_no_template (self : VirtualNetworkStore) (xml : String)
    (h : (update_from_str xml).get_nodes "/VIRTUALNETWORKSTORE/TEMPLATE" = []) :
    (self.from_xml xml).1 = -1 ∧
    (self.from_xml xml).2.obj_template = self.obj_template ∧
    (∀ (other : VirtualNetworkStore) (text : String),
      (other.from_xml text).1 ≠ 0 → (other.from_xml text).1 = (self.from_xml xml).1) := by
  have hn := from_xml_no_template self xml h
  refine ⟨hn.1, hn.2, ?_⟩
  intro other text hne
  rw [hn.1]
  rcases from_xml_rc other text with h0 | h1
  · exact absurd h0 hne
  · exact h1

/-- Witness of C14: the text `textNoTemplate`, in which every other field parses. -/
theorem C14_from_xml_no_template_witness :
    (update_from_str textNoTemplate).get_nodes "/VIRTUALNETWORKSTORE/TEMPLATE" = [] ∧
    (sampleStore.from_xml textNoTemplate).1 = -1 ∧
    (sampleStore.from_xml textNoTemplate).2.obj_template = sampleStore.obj_template :=
  have h := C14_from_xml_no_template sampleStore textNoTemplate
    (by set_option maxRecDepth 100000 in decide)
  ⟨by set_option maxRecDepth 100000 in decide, h.1, h.2.1⟩

/-- C15 as stated fails: the record `sampleStore` is stored in `storedDb` as `READY`;
the call `enable(false)` returns `0` and sets the state `DISABLED` in memory, but no
statement is executed (the journal is the one before) and the row that the back end
holds is still the one of the `READY` record; a second `enable(true)` on the `READY`
record executes no statement either. -/
theorem C15_enable_no_write :
    storedDb.rows = [sampleStore.row] ∧
    (sampleStore.enable_on storedDb false "").1 = 0 ∧
    (sampleStore.enable_on storedDb false "").2.2.1.state = DISABLED ∧
    (sampleStore.enable_on storedDb false "").2.2.2.journal = storedDb.journal ∧
    (sampleStore.enable_on storedDb false "").2.2.2.rows = [sampleStore.row] ∧
    (sampleStore.enable_on storedDb false "").2.2.1.row ≠ sampleStore.row ∧
    (((sampleStore.enable_on storedDb true "").2.2.1).enable_on
      (sampleStore.enable_on storedDb true "").2.2.2 true "").2.2.2.journal
      = storedDb.journal := by
  set_option maxRecDepth 100000 in
  decide

/-- C15, amended: `enable` changes the state of the record in memory only and executes
no statement: the back end afterwards is the back end before.  The change is
persisted by `update(db)`: called after `enable`, and provided that the quoting of
the name and of the text succeeds and the text validates, it executes the replace
statement of the record as `enable` left it and returns the result of that
statement; this happens at each call, also when `enable` is called a second time
with the same flag and `update` after it again. -/
theorem C15_enable_then_update (self : VirtualNetworkStore) (db : SqlDB) (flag : Bool)
    (error_str : String)
    (hname : (db.escape_str self.name).isSome = true)
    (hxml : ∃ x, db.escape_str (self.enable flag error_str).2.2.to_xml = some x ∧
      validate_xml x = 0) :
    (self.enable_on db flag error_str).2.2.2 = db ∧
    (self.enable_on db flag error_str).2.2.1 = (self.enable flag error_str).2.2 ∧
    ((self.enable flag error_str).2.2.update db).1
      = db.verdict db.rows (.replace_row (self.enable flag error_str).2.2.row) ∧
    ((self.enable flag error_str).2.2.update db).2.journal
      = db.journal ++ [SqlCmd.replace_row (self.enable flag error_str).2.2.row] ∧
    ((((self.enable flag error_str).2.2).enable flag error_str).2.2.update
        ((self.enable flag error_str).2.2.update db).2).2.journal
      = db.journal ++ [SqlCmd.replace_row (self.enable flag error_str).2.2.row,
          SqlCmd.replace_row (self.enable flag error_str).2.2.row] := by
  have hn : (self.enable flag error_str).2.2.name = self.name := by
    cases flag <;> rfl
  have hidem : ((self.enable flag error_str).2.2).enable flag error_str
      = self.enable flag error_str := by
    cases flag <;> rfl
  have h1 := update_ok (self.enable flag error_str).2.2 db (by rw [hn]; exact hname) hxml
  have h2 := update_ok (self.enable flag error_str).2.2
    ((self.enable flag error_str).2.2.update db).2
    (by rw [h1.2.2, hn]; exact hname) (by rw [h1.2.2]; exact hxml)
  refine ⟨rfl, rfl, h1.1, h1.2.1, ?_⟩
  rw [hidem, h2.2.1, h1.2.1, List.append_assoc]
  rfl

/-- Witness of C15: `enable(true)` on the `READY` record `sampleStore` over `storedDb`,
followed by `update`, twice. -/
theorem C15_enable_then_update_witness :
    sampleStore.state = READY ∧
    ((sampleStore.enable true "").2.2.update storedDb).2.journal
      = storedDb.journal ++ [SqlCmd.replace_row sampleStore.row] ∧
    ((((sampleStore.enable true "").2.2).enable true "").2.2.update
        ((sampleStore.enable true "").2.2.update storedDb).2).2.journal
      = storedDb.journal ++ [SqlCmd.replace_row sampleStore.row,
          SqlCmd.replace_row sampleStore.row] :=
  have h := C15_enable_then_update sampleStore storedDb true ""
    (by set_option maxRecDepth 100000 in decide)
    ⟨sampleStore.to_xml, by set_option maxRecDepth 100000 in decide,
      by set_option maxRecDepth 100000 in decide⟩
  ⟨rfl, h.2.2.2.1, h.2.2.2.2⟩

/-- C16 as stated fails: the insert of `candidateBridge` succeeds and gives a record for
which the invariant holds; its template is then replaced by one that keeps the driver
`ovswitch` and has no `BRIDGE`, and `post_update_template` returns `-1`.  The record
afterwards is reachable, its driver is `ovswitch` and the required attribute `BRIDGE`
has no value in its template: the invariant does not hold for every reachable
record. -/
theorem C16_invariant_not_kept :
    (candidateBridge.insert sampleNebula sampleDb "").1 = 0 ∧
    driver_invariant sampleNebula insertedBridge = true ∧
    (({ insertedBridge with obj_template := [.single "VN_MAD" "ovswitch"] } :
      VirtualNetworkStore).post_update_template sampleNebula "").1 = -1 ∧
    strippedBridge.vn_mad = "ovswitch" ∧
    strippedBridge.get_template_attribute "BRIDGE" = "" ∧
    driver_invariant sampleNebula strippedBridge = false ∧
    Reachable sampleNebula strippedBridge ∧
    ¬ (∀ r : VirtualNetworkStore,
        Reachable sampleNebula r → driver_invariant sampleNebula r = true) := by
  have hr : Reachable sampleNebula strippedBridge :=
    Reachable.updated insertedBridge [.single "VN_MAD" "ovswitch"] ""
      (Reachable.inserted candidateBridge sampleDb ""
        (by set_option maxRecDepth 100000 in decide))
  have hf : driver_invariant sampleNebula strippedBridge = false := by
    set_option maxRecDepth 100000 in decide
  have hd : (candidateBridge.insert sampleNebula sampleDb "").1 = 0 ∧
      driver_invariant sampleNebula insertedBridge = true ∧
      (({ insertedBridge with obj_template := [.single "VN_MAD" "ovswitch"] } :
        VirtualNetworkStore).post_update_template sampleNebula "").1 = -1 ∧
      strippedBridge.vn_mad = "ovswitch" ∧
      strippedBridge.get_template_attribute "BRIDGE" = "" := by
    set_option maxRecDepth 100000 in decide
  refine ⟨hd.1, hd.2.1, hd.2.2.1, hd.2.2.2.1, hd.2.2.2.2, hf, hr, ?_⟩
  intro hall
  rw [hall strippedBridge hr] at hf
  cases hf

/-- C16, amended: for every record produced by a successful `insert` and then subjected
to any sequence of template replacements, each followed by `post_update_template`
(whether it returns `0` or `-1`), the `vn_mad` of the record resolves in the
configuration of the drivers.  The full invariant (every required attribute of the
driver has a non-empty value in the current template) holds after the successful
`insert` and after each `post_update_template` that returns `0`; after one that
returns `-1` the record has the `vn_mad` it had before the call and the template that
the call was given (with `VN_MAD` filled in when it had none). -/
theorem C16_reachable_driver (nd : Nebula) (r : VirtualNetworkStore) (h : Reachable nd r) :
    driver_resolves nd r = true ∧
    (∀ (c : VirtualNetworkStore) (db : SqlDB) (error_str : String),
      (c.insert nd db error_str).1 = 0 →
      driver_invariant nd (c.insert nd db error_str).2.2.1 = true) ∧
    (∀ (t : Template) (error_str : String),
      (({ r with obj_template := t } : VirtualNetworkStore).post_update_template nd
        error_str).1 = 0 →
      driver_invariant nd
        (({ r with obj_template := t } : VirtualNetworkStore).post_update_template nd
          error_str).2.2 = true) ∧
    (∀ (t : Template) (error_str : String),
      (({ r with obj_template := t } : VirtualNetworkStore).post_update_template nd
        error_str).1 ≠ 0 →
      (({ r with obj_template := t } : VirtualNetworkStore).post_update_template nd
        error_str).1 = -1 ∧
      (({ r with obj_template := t } : VirtualNetworkStore).post_update_template nd
        error_str).2.2.vn_mad = r.vn_mad ∧
      (({ r with obj_template := t } : VirtualNetworkStore).post_update_template nd
        error_str).2.2.obj_template
        = (if Template.get t "VN_MAD" = "" then t.replace "VN_MAD" r.vn_mad else t) ∧
      driver_resolves nd
        (({ r with obj_template := t } : VirtualNetworkStore).post_update_template nd
          error_str).2.2 = true) := by
  refine ⟨reachable_resolves nd r h, ?_, ?_, ?_⟩
  · intro c db e h0
    exact insert_invariant nd c db e h0
  · intro t e h0
    exact post_update_template_invariant nd _ e h0
  · intro t e hne
    rcases post_update_template_cases { r with obj_template := t } nd e with
      ⟨h1, _, _⟩ | ⟨h1, h2, _⟩
    · exact absurd h1 hne
    · refine ⟨h1, ?_, ?_, reachable_resolves nd _ (Reachable.updated r t e h)⟩
      · rw [h2]
      · rw [h2]
        exact post_update_template_vn_mad_template { r with obj_template := t }

/-- Witness of C16: the reachable record `strippedBridge`, left by a
`post_update_template` that returned `-1`: its driver `ovswitch` resolves. -/
theorem C16_reachable_driver_witness :
    Reachable sampleNebula strippedBridge ∧
    driver_resolves sampleNebula strippedBridge = true :=
  have hr : Reachable sampleNebula strippedBridge :=
    Reachable.updated insertedBridge [.single "VN_MAD" "ovswitch"] ""
      (Reachable.inserted candidateBridge sampleDb ""
        (by set_option maxRecDepth 100000 in decide))
  ⟨hr, (C16_reachable_driver sampleNebula strippedBridge hr).1⟩

/-- C17: (a) if the `VN_MAD` of the template is not empty and differs from `vn_mad`, and
the validation of the new value succeeds, `post_update_template` returns `0`, leaves
the error string and the record afterwards is the record before with `vn_mad` set to
the new value; (b) whenever `post_update_template` returns `0`, the `vn_mad` of the
record afterwards equals the `VN_MAD` value of its template. -/
theorem C17_post_update_template_driver (self : VirtualNetworkStore) (nd : Nebula)
    (error_str : String) :
    (self.get_template_attribute "VN_MAD" ≠ "" →
      self.get_template_attribute "VN_MAD" ≠ self.vn_mad →
      (({ self with vn_mad := self.get_template_attribute "VN_MAD" } :
        VirtualNetworkStore).set_vn_mad nd (self.get_template_attribute "VN_MAD")
          error_str).1 = 0 →
      self.post_update_template nd error_str
        = (0, error_str, { self with vn_mad := self.get_template_attribute "VN_MAD" }) ∧
      (self.post_update_template nd error_str).2.2.vn_mad
        = self.get_template_attribute "VN_MAD") ∧
    ((self.post_update_template nd error_str).1 = 0 →
      (self.post_update_template nd error_str).2.2.vn_mad
        = (self.post_update_template nd error_str).2.2.get_template_attribute "VN_MAD") := by
  constructor
  · intro h1 h2 h3
    have hp : self.post_update_template_vn_mad
        = { self with vn_mad := self.get_template_attribute "VN_MAD" } := by
      unfold VirtualNetworkStore.post_update_template_vn_mad
      rw [if_neg h1, if_pos h2]
    have he := set_vn_mad_ok_error _ nd _ error_str h3
    have hr : self.post_update_template nd error_str
        = (0, error_str, { self with vn_mad := self.get_template_attribute "VN_MAD" }) := by
      unfold VirtualNetworkStore.post_update_template
      simp only [hp, h3, he, ne_eq, not_true_eq_false, if_false]
    exact ⟨hr, by rw [hr]⟩
  · intro h0
    rcases post_update_template_cases self nd error_str with ⟨_, h2, _⟩ | ⟨h1, _, _⟩
    · rw [h2]
      exact (post_update_template_vn_mad_agree self).symm
    · rw [h1] at h0
      exact absurd h0 (by decide)

/-- Witness of C17: a record of driver `dummy` whose template was replaced by one that
names `ovswitch` and gives `BRIDGE`: the call returns `0` and the record has the driver
`ovswitch`, the `VN_MAD` of its template. -/
theorem C17_post_update_template_driver_witness :
    ({ sampleStore with vn_mad := "dummy" } : VirtualNetworkStore).post_update_template
        sampleNebula "" = (0, "", sampleStore) ∧
    (({ sampleStore with vn_mad := "dummy" } : VirtualNetworkStore).post_update_template
        sampleNebula "").2.2.vn_mad
      = (({ sampleStore with vn_mad := "dummy" } : VirtualNetworkStore).post_update_template
          sampleNebula "").2.2.get_template_attribute "VN_MAD" :=
  have h := C17_post_update_template_driver { sampleStore with vn_mad := "dummy" }
    sampleNebula ""
  ⟨by rw [(h.1 (by decide) (by decide) (by decide)).1]; decide, h.2 (by decide)⟩

/-- C18: `from_xml` returns `0` if and only if the text has a `TEMPLATE` section and
every field-level parse returns `0`: `ID`, `UID`, `GID`, `UNAME`, `GNAME`, `NAME`,
`VN_MAD`, `STATE`, the permissions, the ids of the member networks, the ids of the
clusters and the template; in every other case it returns `-1`.  No failure stops the
rest: whatever the result codes are, each member has after the call the value that
its own path gives (the default when its parse failed), and the template is rebuilt
from the `TEMPLATE` section whenever there is one. -/
theorem C18_from_xml_accumulates (self : VirtualNetworkStore) (xml : String) :
    ((self.from_xml xml).1 = 0 ↔
      ((update_from_str xml).get_nodes "/VIRTUALNETWORKSTORE/TEMPLATE" ≠ [] ∧
       ((update_from_str xml).xpath_int "/VIRTUALNETWORKSTORE/ID" (-1)).1 = 0 ∧
       ((update_from_str xml).xpath_int "/VIRTUALNETWORKSTORE/UID" (-1)).1 = 0 ∧
       ((update_from_str xml).xpath_int "/VIRTUALNETWORKSTORE/GID" (-1)).1 = 0 ∧
       ((update_from_str xml).xpath_str "/VIRTUALNETWORKSTORE/UNAME" "not_found").1 = 0 ∧
       ((update_from_str xml).xpath_str "/VIRTUALNETWORKSTORE/GNAME" "not_found").1 = 0 ∧
       ((update_from_str xml).xpath_str "/VIRTUALNETWORKSTORE/NAME" "not_found").1 = 0 ∧
       ((update_from_str xml).xpath_str "/VIRTUALNETWORKSTORE/VN_MAD" "not_found").1 = 0 ∧
       ((update_from_str xml).xpath_int "/VIRTUALNETWORKSTORE/STATE" 0).1 = 0 ∧
       (self.perms_from_xml (update_from_str xml)).1 = 0 ∧
       (ObjectCollection.from_xml "VIRTUALNETWORKS" self.virtual_networks
          (update_from_str xml) "/VIRTUALNETWORKSTORE/").1 = 0 ∧
       (ObjectCollection.from_xml "CLUSTERS" self.cluster_ids
          (update_from_str xml) "/VIRTUALNETWORKSTORE/").1 = 0 ∧
       (∀ node ∈ ((update_from_str xml).get_nodes "/VIRTUALNETWORKSTORE/TEMPLATE").head?,
          (Template.from_xml_node node).1 = 0))) ∧
    ((self.from_xml xml).1 ≠ 0 → (self.from_xml xml).1 = -1) ∧
    ((self.from_xml xml).2.oid
        = ((update_from_str xml).xpath_int "/VIRTUALNETWORKSTORE/ID" (-1)).2 ∧
      (self.from_xml xml).2.uid
        = ((update_from_str xml).xpath_int "/VIRTUALNETWORKSTORE/UID" (-1)).2 ∧
      (self.from_xml xml).2.gid
        = ((update_from_str xml).xpath_int "/VIRTUALNETWORKSTORE/GID" (-1)).2 ∧
      (self.from_xml xml).2.uname
        = ((update_from_str xml).xpath_str "/VIRTUALNETWORKSTORE/UNAME" "not_found").2 ∧
      (self.from_xml xml).2.gname
        = ((update_from_str xml).xpath_str "/VIRTUALNETWORKSTORE/GNAME" "not_found").2 ∧
      (self.from_xml xml).2.name
        = ((update_from_str xml).xpath_str "/VIRTUALNETWORKSTORE/NAME" "not_found").2 ∧
      (self.from_xml xml).2.vn_mad
        = ((update_from_str xml).xpath_str "/VIRTUALNETWORKSTORE/VN_MAD" "not_found").2 ∧
      (self.from_xml xml).2.state
        = ((update_from_str xml).xpath_int "/VIRTUALNETWORKSTORE/STATE" 0).2 ∧
      (self.from_xml xml).2.owner_u
        = ((update_from_str xml).xpath_int "/*/PERMISSIONS/OWNER_U" 0).2 ∧
      (self.from_xml xml).2.other_a
        = ((update_from_str xml).xpath_int "/*/PERMISSIONS/OTHER_A" 0).2 ∧
      (self.from_xml xml).2.virtual_networks
        = (ObjectCollection.from_xml "VIRTUALNETWORKS" self.virtual_networks
            (update_from_str xml) "/VIRTUALNETWORKSTORE/").2 ∧
      (self.from_xml xml).2.cluster_ids
        = (ObjectCollection.from_xml "CLUSTERS" self.cluster_ids
            (update_from_str xml) "/VIRTUALNETWORKSTORE/").2) ∧
    (∀ node ∈ ((update_from_str xml).get_nodes "/VIRTUALNETWORKSTORE/TEMPLATE").head?,
      (self.from_xml xml).2.obj_template = (Template.from_xml_node node).2) := by
  have hsum := rc_sum_zero _ _ _ _ _ _ _ _ _ _ _
    (rc_le_zero _ (xpath_int_rc (update_from_str xml) "/VIRTUALNETWORKSTORE/ID" (-1)))
    (rc_le_zero _ (xpath_int_rc (update_from_str xml) "/VIRTUALNETWORKSTORE/UID" (-1)))
    (rc_le_zero _ (xpath_int_rc (update_from_str xml) "/VIRTUALNETWORKSTORE/GID" (-1)))
    (rc_le_zero _ (xpath_str_rc (update_from_str xml) "/VIRTUALNETWORKSTORE/UNAME" "not_found"))
    (rc_le_zero _ (xpath_str_rc (update_from_str xml) "/VIRTUALNETWORKSTORE/GNAME" "not_found"))
    (rc_le_zero _ (xpath_str_rc (update_from_str xml) "/VIRTUALNETWORKSTORE/NAME" "not_found"))
    (rc_le_zero _ (xpath_str_rc (update_from_str xml) "/VIRTUALNETWORKSTORE/VN_MAD" "not_found"))
    (rc_le_zero _ (xpath_int_rc (update_from_str xml) "/VIRTUALNETWORKSTORE/STATE" 0))
    (perms_from_xml_rc_le self (update_from_str xml))
    (rc_le_zero _ (collection_from_xml_rc "VIRTUALNETWORKS" self.virtual_networks
      (update_from_str xml) "/VIRTUALNETWORKSTORE/"))
    (rc_le_zero _ (collection_from_xml_rc "CLUSTERS" self.cluster_ids
      (update_from_str xml) "/VIRTUALNETWORKSTORE/"))
  refine ⟨?_, ?_, from_xml_fields self xml, ?_⟩
  · rw [from_xml_form]
    cases hg : (update_from_str xml).get_nodes "/VIRTUALNETWORKSTORE/TEMPLATE" with
    | nil => simp
    | cons node rest =>
      have ht : (Template.from_xml_node node).1 = 0 := rfl
      simp only [ne_eq, reduceCtorEq, not_false_eq_true, List.head?_cons, Option.mem_def,
        Option.some.injEq, forall_eq', true_and, ht, add_zero, ite_not, and_true]
      unfold from_xml_sum
      rw [← hsum]
      constructor
      · intro h
        split at h
        · assumption
        · exact absurd h (by decide)
      · intro h
        rw [if_pos h]
  · intro hne
    rcases from_xml_rc self xml with h0 | hm
    · exact absurd h0 hne
    · exact hm
  · intro node hnode
    rw [from_xml_template]
    cases hg : (update_from_str xml).get_nodes "/VIRTUALNETWORKSTORE/TEMPLATE" with
    | nil => simp [hg] at hnode
    | cons n rest =>
      simp only [hg, List.head?_cons, Option.mem_def, Option.some.injEq] at hnode
      rw [hnode]

/-- Witness of C18: in the text `textBadId` the parse of `ID` fails; the call returns
`-1`, and the fields after `ID` are populated all the same: the record, whose driver
was `ovs<1>&2`, has the driver `ovswitch` of the text afterwards. -/
theorem C18_from_xml_accumulates_witness :
    ((update_from_str textBadId).xpath_int "/VIRTUALNETWORKSTORE/ID" (-1)).1 = -1 ∧
    (bareStore.from_xml textBadId).1 = -1 ∧
    (bareStore.from_xml textBadId).2.vn_mad
      = ((update_from_str textBadId).xpath_str "/VIRTUALNETWORKSTORE/VN_MAD" "not_found").2 ∧
    ((update_from_str textBadId).xpath_str "/VIRTUALNETWORKSTORE/VN_MAD" "not_found").2
      = "ovswitch" ∧
    (sampleStore.from_xml sampleStore.to_xml).1 = 0 :=
  have h := C18_from_xml_accumulates bareStore textBadId
  ⟨by set_option maxRecDepth 100000 in decide,
   h.2.1 (by set_option maxRecDepth 100000 in decide),
   h.2.2.1.2.2.2.2.2.2.1,
   by set_option maxRecDepth 100000 in decide,
   by set_option maxRecDepth 100000 in decide⟩

/-- C19: `to_xml` gives, for every record, the text of one element
`VIRTUALNETWORKSTORE` that holds, in this order: the elements `ID`, `UID`, `GID`,
`UNAME`, `GNAME`, `NAME`, the permission block, the element `VN_MAD` with the escaped
driver name, the element `STATE` with the decimal value of the state (`0` for `READY`,
`1` for `DISABLED`), the block of the cluster ids, the block of the member networks
and the block of the template.  The text depends on the members written only (not on
the flag `valid`).  For a valid record the parser reads the text as one root element
`VIRTUALNETWORKSTORE` whose children are elements of the names `ID`, `UID`, `GID`,
`UNAME`, `GNAME`, `NAME`, `PERMISSIONS`, `VN_MAD`, `STATE`, `CLUSTERS`,
`VIRTUALNETWORKS`, `TEMPLATE`, in this order, and the text of `VN_MAD` reads as the
driver name. -/
theorem C19_to_xml_order (r : VirtualNetworkStore) :
    r.to_xml.data
      = tagged "VIRTUALNETWORKSTORE"
          (tagged "ID" (int_to_str r.oid).data
          (tagged "UID" (int_to_str r.uid).data
          (tagged "GID" (int_to_str r.gid).data
          (tagged "UNAME" r.uname.data
          (tagged "GNAME" r.gname.data
          (tagged "NAME" r.name.data
          (r.perms_to_xml.data ++
          (tagged "VN_MAD" (escape_xml r.vn_mad).data
          (tagged "STATE" (int_to_str r.state).data
          ((ObjectCollection.to_xml "CLUSTERS" r.cluster_ids).data ++
          ((ObjectCollection.to_xml "VIRTUALNETWORKS" r.virtual_networks).data ++
          r.obj_template.to_xml.data))))))))))) [] ∧
    (r.state = READY → int_to_str r.state = "0") ∧
    (r.state = DISABLED → int_to_str r.state = "1") ∧
    (∀ flag : Bool, ({ r with valid := flag } : VirtualNetworkStore).to_xml = r.to_xml) ∧
    (r.valid_record = true →
      ∃ children : XmlNodes,
        update_from_str r.to_xml = some (.elem "VIRTUALNETWORKSTORE".data children .nil) ∧
        children.names = ["ID", "UID", "GID", "UNAME", "GNAME", "NAME", "PERMISSIONS",
          "VN_MAD", "STATE", "CLUSTERS", "VIRTUALNETWORKS", "TEMPLATE"] ∧
        (update_from_str r.to_xml).xpaths "/VIRTUALNETWORKSTORE/VN_MAD" = [r.vn_mad] ∧
        (update_from_str r.to_xml).xpaths "/VIRTUALNETWORKSTORE/STATE"
          = [int_to_str r.state]) := by
  refine ⟨?_, ?_, ?_, ?_, ?_⟩
  · simp only [VirtualNetworkStore.to_xml, String.data_append, List.append_assoc,
      List.append_nil, tagged]
    rfl
  · intro h
    rw [h]
    rfl
  · intro h
    rw [h]
    rfl
  · intro flag
    rfl
  · intro h
    refine ⟨r.xml_nodes, update_from_str_to_xml r h, rfl, ?_, ?_⟩
    · rw [update_from_str_to_xml r h]
      exact (xpaths_record r).2.2.2.2.2.2.1
    · rw [update_from_str_to_xml r h]
      exact (xpaths_record r).2.2.2.2.2.2.2

/-- Witness of C19: the valid record `bareStore`, whose driver name `ovs<1>&2` is
written escaped and read back as it was. -/
theorem C19_to_xml_order_witness :
    bareStore.valid_record = true ∧
    (tagged "VN_MAD" (escape_xml bareStore.vn_mad).data []
      = "<VN_MAD>ovs&lt;1&gt;&amp;2</VN_MAD>".data) ∧
    (∃ children : XmlNodes,
      update_from_str bareStore.to_xml
        = some (.elem "VIRTUALNETWORKSTORE".data children .nil) ∧
      children.names = ["ID", "UID", "GID", "UNAME", "GNAME", "NAME", "PERMISSIONS",
        "VN_MAD", "STATE", "CLUSTERS", "VIRTUALNETWORKS", "TEMPLATE"] ∧
      (update_from_str bareStore.to_xml).xpaths "/VIRTUALNETWORKSTORE/VN_MAD"
        = ["ovs<1>&2"] ∧
      (update_from_str bareStore.to_xml).xpaths "/VIRTUALNETWORKSTORE/STATE"
        = [int_to_str bareStore.state]) :=
  ⟨by decide, by decide, (C19_to_xml_order bareStore).2.2.2.2 (by decide)⟩

/-- C20: for a registered driver whose configuration has no `REQUIRED_ATTRS` entry,
`set_vn_mad` returns `0` and leaves the error string as it was, for every record:
the result is the same whatever the template holds (no attribute is looked up). -/
theorem C20_set_vn_mad_no_required (nd : Nebula) (self : VirtualNetworkStore)
    (mad error_str : String) (vatt : VectorAttribute)
    (hreg : nd.get_vn_conf_attribute mad = some vatt)
    (hreq : vatt.vector_value "REQUIRED_ATTRS" = none) :
    self.set_vn_mad nd mad error_str = (0, error_str) ∧
    (∀ other : VirtualNetworkStore,
      other.set_vn_mad nd mad error_str = self.set_vn_mad nd mad error_str) := by
  have hi : ∀ r : VirtualNetworkStore, r.set_vn_mad nd mad error_str = (0, error_str) := by
    intro r
    simp [VirtualNetworkStore.set_vn_mad, hreg, hreq]
  exact ⟨hi self, fun other => by rw [hi self, hi other]⟩

/-- Witness of C20: the driver `dummy` has no `REQUIRED_ATTRS`; a record with an empty
template passes and the error string stays. -/
theorem C20_set_vn_mad_no_required_witness :
    sampleNebula.get_vn_conf_attribute "dummy" = some [("NAME", "dummy")] ∧
    VectorAttribute.vector_value [("NAME", "dummy")] "REQUIRED_ATTRS" = none ∧
    ({ sampleStore with obj_template := [] } : VirtualNetworkStore).set_vn_mad sampleNebula
      "dummy" "unchanged" = (0, "unchanged") :=
  ⟨by decide, by decide,
   (C20_set_vn_mad_no_required sampleNebula { sampleStore with obj_template := [] } "dummy"
      "unchanged" [("NAME", "dummy")] (by decide) (by decide)).1⟩

/-- C21: when the pool is constructed over storage without a stored id counter
(`lastOID = -1`) and the parse of the default template returns a negative code, or the
allocation of the default record leaves a negative id, the construction does not
complete: the constructor throws the runtime error "Error trying to create default
VirtualNetworkStore: " followed by the error string of the step that failed.  The id
counter is not set to `99`: no pool exists, and in the back end the stored counter is
still `-1`, the rows are the ones before and at most the insert statement of the
default record was executed. -/
theorem C21_bootstrap_failure (ext : Externals) (db : SqlDB) (inherit_attrs : List String)
    (hlast : db.last_oid = -1)
    (hfail :
      (ext.parse_str_or_xml ("NAME   = " ++ DEFAULT_VNS_NAME ++ "\n" ++ "VN_MAD = dummy")
        "").1 < 0 ∨
      (VirtualNetworkStorePool.allocate
        { db := db, lastOID := -1, cache := [], inherit_attrs := inherit_attrs } ext
        UserPool.ONEADMIN_ID GroupPool.ONEADMIN_ID ext.oneadmin_name GroupPool.ONEADMIN_NAME 95
        (some (ext.parse_str_or_xml
          ("NAME   = " ++ DEFAULT_VNS_NAME ++ "\n" ++ "VN_MAD = dummy") "").2.2)
        (set_insert ClusterPool.DEFAULT_CLUSTER_ID [])
        (ext.parse_str_or_xml ("NAME   = " ++ DEFAULT_VNS_NAME ++ "\n" ++ "VN_MAD = dummy")
          "").2.1).2.1 < 0) :
    VirtualNetworkStorePool.new ext db inherit_attrs
      = .error ("Error trying to create default VirtualNetworkStore: " ++
          (if (ext.parse_str_or_xml
              ("NAME   = " ++ DEFAULT_VNS_NAME ++ "\n" ++ "VN_MAD = dummy") "").1 < 0
           then (ext.parse_str_or_xml
              ("NAME   = " ++ DEFAULT_VNS_NAME ++ "\n" ++ "VN_MAD = dummy") "").2.1
           else (VirtualNetworkStorePool.allocate
              { db := db, lastOID := -1, cache := [], inherit_attrs := inherit_attrs } ext
              UserPool.ONEADMIN_ID GroupPool.ONEADMIN_ID ext.oneadmin_name
              GroupPool.ONEADMIN_NAME 95
              (some (ext.parse_str_or_xml
                ("NAME   = " ++ DEFAULT_VNS_NAME ++ "\n" ++ "VN_MAD = dummy") "").2.2)
              (set_insert ClusterPool.DEFAULT_CLUSTER_ID [])
              (ext.parse_str_or_xml
                ("NAME   = " ++ DEFAULT_VNS_NAME ++ "\n" ++ "VN_MAD = dummy") "").2.1).2.2.1)) ∧
    (∀ pool : VirtualNetworkStorePool,
      VirtualNetworkStorePool.new ext db inherit_attrs ≠ .ok pool) ∧
    (VirtualNetworkStorePool.new_db ext db inherit_attrs).last_oid = -1 ∧
    (VirtualNetworkStorePool.new_db ext db inherit_attrs).rows = db.rows ∧
    ((VirtualNetworkStorePool.new_db ext db inherit_attrs).journal = db.journal ∨
      ∃ row : Row, (VirtualNetworkStorePool.new_db ext db inherit_attrs).journal
        = db.journal ++ [SqlCmd.insert_row row]) := by
  have hnew : VirtualNetworkStorePool.new ext db inherit_attrs
      = .error ("Error trying to create default VirtualNetworkStore: " ++
          (if (ext.parse_str_or_xml
              ("NAME   = " ++ DEFAULT_VNS_NAME ++ "\n" ++ "VN_MAD = dummy") "").1 < 0
           then (ext.parse_str_or_xml
              ("NAME   = " ++ DEFAULT_VNS_NAME ++ "\n" ++ "VN_MAD = dummy") "").2.1
           else (VirtualNetworkStorePool.allocate
              { db := db, lastOID := -1, cache := [], inherit_attrs := inherit_attrs } ext
              UserPool.ONEADMIN_ID GroupPool.ONEADMIN_ID ext.oneadmin_name
              GroupPool.ONEADMIN_NAME 95
              (some (ext.parse_str_or_xml
                ("NAME   = " ++ DEFAULT_VNS_NAME ++ "\n" ++ "VN_MAD = dummy") "").2.2)
              (set_insert ClusterPool.DEFAULT_CLUSTER_ID [])
              (ext.parse_str_or_xml
                ("NAME   = " ++ DEFAULT_VNS_NAME ++ "\n" ++ "VN_MAD = dummy") "").2.1).2.2.1)) := by
    unfold VirtualNetworkStorePool.new
    simp only [VirtualNetworkStorePool.get_lastOID, hlast, if_true]
    by_cases hp : (ext.parse_str_or_xml
        ("NAME   = " ++ DEFAULT_VNS_NAME ++ "\n" ++ "VN_MAD = dummy") "").1 < 0
    · simp only [hp, if_true]
    · have ha := hfail.resolve_left hp
      simp only [hp, ha, if_false, if_true]
  refine ⟨hnew, ?_, ?_⟩
  · intro pool hpool
    rw [hnew] at hpool
    cases hpool
  · unfold VirtualNetworkStorePool.new_db
    simp only [VirtualNetworkStorePool.get_lastOID, hlast, if_true]
    by_cases hp : (ext.parse_str_or_xml
        ("NAME   = " ++ DEFAULT_VNS_NAME ++ "\n" ++ "VN_MAD = dummy") "").1 < 0
    · simp [hp, hlast]
    · have ha := hfail.resolve_left hp
      simp only [hp, ha, if_false, if_true]
      have hf := allocate_fail_db
        { db := db, lastOID := -1, cache := [], inherit_attrs := inherit_attrs } ext
        UserPool.ONEADMIN_ID GroupPool.ONEADMIN_ID ext.oneadmin_name GroupPool.ONEADMIN_NAME 95
        (some (ext.parse_str_or_xml
          ("NAME   = " ++ DEFAULT_VNS_NAME ++ "\n" ++ "VN_MAD = dummy") "").2.2)
        (set_insert ClusterPool.DEFAULT_CLUSTER_ID [])
        (ext.parse_str_or_xml ("NAME   = " ++ DEFAULT_VNS_NAME ++ "\n" ++ "VN_MAD = dummy")
          "").2.1 (by simp [VirtualNetworkStorePool.next_oid, INT_MAX]) ha
      exact ⟨hf.2.1.trans hlast, hf.1, hf.2.2⟩

/-- Witness of C21: over the empty `sampleDb` a parser that refuses the default text
makes the constructor throw with the message of the parser; over `brokenDb`, on which
every statement fails, the allocation of the default record fails and the constructor
throws, the stored counter stays `-1` and no row is written. -/
theorem C21_bootstrap_failure_witness :
    VirtualNetworkStorePool.new noParseExt sampleDb []
      = .error "Error trying to create default VirtualNetworkStore: syntax error" ∧
    VirtualNetworkStorePool.new sampleExt brokenDb []
      = .error "Error trying to create default VirtualNetworkStore: " ∧
    (VirtualNetworkStorePool.new_db sampleExt brokenDb []).last_oid = -1 ∧
    (VirtualNetworkStorePool.new_db sampleExt brokenDb []).rows = [] :=
  have h1 := C21_bootstrap_failure noParseExt sampleDb [] rfl (Or.inl (by decide))
  have h2 := C21_bootstrap_failure sampleExt brokenDb [] rfl
    (Or.inr (by set_option maxRecDepth 100000 in decide))
  ⟨h1.1.trans (congrArg Except.error (by decide)),
   h2.1.trans (congrArg Except.error (by set_option maxRecDepth 100000 in decide)),
   h2.2.2.1, h2.2.2.2.1⟩

/-- C22: after `insert` has run on a candidate record, whatever it returns, the name of
the record is the value its template held under `NAME`, and the template is the one
before without the entries called `NAME`: no entry of it is called `NAME`, every
entry of another name is in it exactly when it was in the template before, the order
of the entries is kept and every other name reads the value it read before.  After
an `allocate` that succeeds, the row added to the storage is the row of that record:
its name is the `NAME` of the template given and its template has no `NAME`. -/
theorem C22_insert_takes_name (self : VirtualNetworkStore) (nd : Nebula) (db : SqlDB)
    (error_str : String) :
    (self.insert nd db error_str).2.2.1.name = self.get_template_attribute "NAME" ∧
    (self.insert nd db error_str).2.2.1.obj_template = self.obj_template.erase "NAME" ∧
    (∀ a ∈ (self.insert nd db error_str).2.2.1.obj_template, a.name ≠ "NAME") ∧
    (self.insert nd db error_str).2.2.1.get_template_attribute "NAME" = "" ∧
    (∀ a : Attribute, a.name ≠ "NAME" →
      (a ∈ (self.insert nd db error_str).2.2.1.obj_template ↔ a ∈ self.obj_template)) ∧
    List.Sublist (self.insert nd db error_str).2.2.1.obj_template self.obj_template ∧
    (∀ k : String, k ≠ "NAME" →
      (self.insert nd db error_str).2.2.1.get_template_attribute k
        = self.get_template_attribute k) ∧
    (∀ (pool : VirtualNetworkStorePool) (ext : Externals) (uid gid : Int)
      (uname gname : String) (umask : Int) (vns_template : Option Template)
      (cluster_ids : List Int) (msg : String),
      0 ≤ (pool.allocate ext uid gid uname gname umask vns_template cluster_ids msg).1 →
      ∃ stored : VirtualNetworkStore,
        (pool.allocate ext uid gid uname gname umask vns_template cluster_ids
          msg).2.2.2.db.rows = pool.db.rows ++ [stored.row] ∧
        stored.name = Template.get (vns_template.getD []) "NAME" ∧
        stored.obj_template = Template.erase (vns_template.getD []) "NAME") := by
  have hr := insert_record self nd db error_str
  have ht : self.insert_read_template.obj_template = self.obj_template.erase "NAME" := rfl
  refine ⟨?_, ?_, ?_, ?_, ?_, ?_, ?_, ?_⟩
  · rw [hr]
    rfl
  · rw [hr, ht]
  · rw [hr, ht]
    intro a ha
    exact ((template_erase_mem _ _ _).mp ha).2
  · rw [hr]
    unfold VirtualNetworkStore.get_template_attribute
    rw [ht]
    have hall : ∀ a ∈ Template.erase self.obj_template "NAME", a.name ≠ "NAME" :=
      fun a ha => ((template_erase_mem _ _ _).mp ha).2
    have := template_get_append (Template.erase self.obj_template "NAME") [] "NAME" hall
    rw [List.append_nil] at this
    rw [this]
    rfl
  · intro a hne
    rw [hr, ht, template_erase_mem]
    exact ⟨fun h => h.1, fun h => ⟨h, hne⟩⟩
  · rw [hr, ht]
    exact List.filter_sublist _
  · intro k hk
    rw [hr]
    unfold VirtualNetworkStore.get_template_attribute
    rw [ht]
    exact template_get_erase_ne _ _ _ hk
  · intro pool ext uid gid uname gname umask vns_template cluster_ids msg hok
    obtain ⟨_, heq⟩ := allocate_ok pool ext uid gid uname gname umask vns_template
      cluster_ids msg hok
    rw [heq] at hok ⊢
    have hp := PoolSQL_allocate_ok pool ext.nd _ _ hok
    refine ⟨_, hp.2.2.2.1, ?_, ?_⟩
    · cases vns_template <;> rfl
    · cases vns_template <;> rfl

/-- Witness of C22: the candidate `candidateBridge`, with the template `NAME = lab`,
`VN_MAD = ovswitch`, `BRIDGE = br0`; and the allocation of `labTemplate` in
`freshPool`. -/
theorem C22_insert_takes_name_witness :
    (candidateBridge.insert sampleNebula sampleDb "").2.2.1.name = "lab" ∧
    (candidateBridge.insert sampleNebula sampleDb "").2.2.1.obj_template
      = [.single "VN_MAD" "ovswitch", .single "BRIDGE" "br0"] ∧
    (∃ stored : VirtualNetworkStore,
      (freshPool.allocate sampleExt 2 1 "alice" "users" 95 (some labTemplate) [0]
        "").2.2.2.db.rows = freshPool.db.rows ++ [stored.row] ∧
      stored.name = Template.get ((some labTemplate).getD []) "NAME" ∧
      stored.obj_template = Template.erase ((some labTemplate).getD []) "NAME") :=
  have h := C22_insert_takes_name candidateBridge sampleNebula sampleDb ""
  ⟨h.1.trans (by decide), h.2.1.trans (by decide),
   h.2.2.2.2.2.2.2 freshPool sampleExt 2 1 "alice" "users" 95 (some labTemplate) [0] ""
     (by set_option maxRecDepth 100000 in decide)⟩

/-- C23: `add_virtual_network` and `del_virtual_network` change the set of member
networks only, by a set insert and a set remove.  Adding an id twice gives the set
that adding it once gives, and the id is a member afterwards; adding an id that is
already a member of the set (a `set<int>`, in ascending order) leaves the record as it
is.  Removing an id twice gives the record that removing it once gives, and the id is
no member afterwards; removing an id that is no member returns `-1`, a non-zero code,
and leaves the record, the set and every other member, as it is. -/
theorem C23_member_networks (self : VirtualNetworkStore) (id : Int) :
    (self.add_virtual_network id).2
      = { self with virtual_networks := (self.add_virtual_network id).2.virtual_networks } ∧
    (self.del_virtual_network id).2
      = { self with virtual_networks := (self.del_virtual_network id).2.virtual_networks } ∧
    id ∈ (self.add_virtual_network id).2.virtual_networks ∧
    ((self.add_virtual_network id).2.add_virtual_network id).2
      = (self.add_virtual_network id).2 ∧
    (ascending self.virtual_networks = true → id ∈ self.virtual_networks →
      (self.add_virtual_network id).2 = self) ∧
    (id ∉ self.virtual_networks → (self.add_virtual_network id).1 = 0) ∧
    id ∉ (self.del_virtual_network id).2.virtual_networks ∧
    ((self.del_virtual_network id).2.del_virtual_network id).2
      = (self.del_virtual_network id).2 ∧
    ((self.del_virtual_network id).2.del_virtual_network id).1 = -1 ∧
    (id ∉ self.virtual_networks →
      (self.del_virtual_network id).1 = -1 ∧ (self.del_virtual_network id).1 ≠ 0 ∧
      (self.del_virtual_network id).2 = self) ∧
    (ascending self.virtual_networks = true → id ∈ self.virtual_networks →
      (self.del_virtual_network id).1 = 0) := by
  refine ⟨rfl, rfl, set_insert_mem id _, ?_, ?_, ?_, not_mem_filter_ne id _, ?_, ?_, ?_, ?_⟩
  · simp only [VirtualNetworkStore.add_virtual_network, ObjectCollection.add,
      set_insert_idem]
  · intro hasc hmem
    simp only [VirtualNetworkStore.add_virtual_network, ObjectCollection.add,
      set_insert_of_mem id _ (ascending_pairwise _ hasc) hmem]
  · intro hmem
    simp [VirtualNetworkStore.add_virtual_network, ObjectCollection.add, hmem]
  · simp only [VirtualNetworkStore.del_virtual_network, ObjectCollection.del,
      List.filter_filter, Bool.and_self]
  · have hn := not_mem_filter_ne id self.virtual_networks
    simp only [VirtualNetworkStore.del_virtual_network, ObjectCollection.del,
      List.count_eq_zero_of_not_mem hn]
    rfl
  · intro hmem
    simp only [VirtualNetworkStore.del_virtual_network, ObjectCollection.del,
      List.count_eq_zero_of_not_mem hmem, filter_ne_of_not_mem id _ hmem]
    simp
  · intro hasc hmem
    have hnd : self.virtual_networks.Nodup :=
      (ascending_pairwise _ hasc).imp (fun h => ne_of_lt h)
    simp [VirtualNetworkStore.del_virtual_network, ObjectCollection.del,
      List.count_eq_one_of_mem hnd hmem]

/-- Witness of C23: the record `sampleStore5`, whose only member network is `5`. -/
theorem C23_member_networks_witness :
    (sampleStore5.add_virtual_network 5).2 = sampleStore5 ∧
    (sampleStore5.del_virtual_network 7).1 = -1 ∧
    (sampleStore5.del_virtual_network 7).2 = sampleStore5 ∧
    (sampleStore5.del_virtual_network 5).1 = 0 ∧
    (sampleStore5.del_virtual_network 5).2.virtual_networks = [] :=
  have h := C23_member_networks sampleStore5 5
  have h7 := C23_member_networks sampleStore5 7
  ⟨h.2.2.2.2.1 (by decide) (by decide),
   (h7.2.2.2.2.2.2.2.2.2.1 (by decide)).1,
   (h7.2.2.2.2.2.2.2.2.2.1 (by decide)).2.2,
   h.2.2.2.2.2.2.2.2.2.2 (by decide) (by decide),
   by decide⟩

/-- C25: for every owner, umask, template and set of clusters, the record that the
constructor makes has `group_u = 1`, the state `READY`, an empty `vn_mad` and no member
network (and the id `-1`, an empty name, and the clusters and the template it was
given, an empty template for a null pointer).  This holds also when the umask masks
the bit out: when bit 5 of the umask is set, `set_umask` computes `0` for the bit,
whatever the base permissions are, and the constructor sets it to `1` after that. -/
theorem C25_new_defaults (nd : Nebula) (uid gid : Int) (uname gname : String) (umask : Int)
    (vns_template : Option Template) (cluster_ids : List Int) :
    (VirtualNetworkStore.new nd uid gid uname gname umask vns_template cluster_ids).group_u
      = 1 ∧
    (VirtualNetworkStore.new nd uid gid uname gname umask vns_template cluster_ids).state
      = READY ∧
    (VirtualNetworkStore.new nd uid gid uname gname umask vns_template cluster_ids).vn_mad
      = "" ∧
    (VirtualNetworkStore.new nd uid gid uname gname umask vns_template
      cluster_ids).virtual_networks = [] ∧
    (VirtualNetworkStore.new nd uid gid uname gname umask vns_template
      cluster_ids).virtual_networks_size = 0 ∧
    (VirtualNetworkStore.new nd uid gid uname gname umask vns_template cluster_ids).oid
      = -1 ∧
    (VirtualNetworkStore.new nd uid gid uname gname umask vns_template cluster_ids).name
      = "" ∧
    (VirtualNetworkStore.new nd uid gid uname gname umask vns_template
      cluster_ids).cluster_ids = cluster_ids ∧
    (VirtualNetworkStore.new nd uid gid uname gname umask vns_template
      cluster_ids).obj_template = vns_template.getD [] ∧
    ((umask / 2 ^ 5) % 2 = 1 →
      ∀ (base : VirtualNetworkStore),
        (base.set_umask nd umask).group_u = 0 ∧
        ({ base.set_umask nd umask with group_u := 1 } : VirtualNetworkStore).group_u = 1) := by
  refine ⟨rfl, rfl, rfl, rfl, rfl, rfl, rfl, rfl, ?_, ?_⟩
  · cases vns_template <;> rfl
  · intro hbit base
    refine ⟨?_, rfl⟩
    simp only [VirtualNetworkStore.set_umask, VirtualNetworkStore.perm_bit]
    rw [if_neg]
    intro hc
    omega

/-- Witness of C25: with the umask `0777` every bit is masked out and `group_u` is `1`
all the same. -/
theorem C25_new_defaults_witness :
    ((511 : Int) / 2 ^ 5) % 2 = 1 ∧
    (VirtualNetworkStore.new sampleNebula 2 1 "alice" "users" 511 none []).group_u = 1 ∧
    (VirtualNetworkStore.new sampleNebula 2 1 "alice" "users" 511 none []).owner_u = 0 ∧
    (sampleStore.set_umask sampleNebula 511).group_u = 0 :=
  ⟨by decide, (C25_new_defaults sampleNebula 2 1 "alice" "users" 511 none []).1, by decide,
   ((C25_new_defaults sampleNebula 2 1 "alice" "users" 511 none []).2.2.2.2.2.2.2.2.2
      (by decide) sampleStore).1⟩

/-- C26: when the pool is constructed over a back end that holds a stored id counter
(`lastOID` different from `-1`), the constructor does not throw and the pool is the
bare pool over that back end: no statement is executed, so no record is created and
the rows and the stored counter are the ones before; the counter of the pool is the
stored one and nothing is in memory; constructing again over the back end of the
result gives the same pool.  Bootstrap thus runs at most once over a back end: after
a construction that bootstrapped, over a back end that accepts the write of the
counter, the stored counter is `99` and the next construction over the resulting back
end executes no statement. -/
theorem C26_new_no_bootstrap (ext : Externals) (db : SqlDB) (inherit_attrs : List String)
    (h : db.last_oid ≠ -1) :
    VirtualNetworkStorePool.new ext db inherit_attrs
      = .ok { db := db, lastOID := db.last_oid, cache := [], inherit_attrs := inherit_attrs } ∧
    (∀ message : String, VirtualNetworkStorePool.new ext db inherit_attrs ≠ .error message) ∧
    VirtualNetworkStorePool.new_db ext db inherit_attrs = db ∧
    (∀ pool : VirtualNetworkStorePool,
      VirtualNetworkStorePool.new ext db inherit_attrs = .ok pool →
      pool.db.rows = db.rows ∧ pool.db.journal = db.journal ∧
      pool.db.last_oid = db.last_oid ∧ pool.lastOID = db.last_oid ∧ pool.cache = [] ∧
      VirtualNetworkStorePool.new ext pool.db inherit_attrs = .ok pool) ∧
    (∀ (db0 : SqlDB) (pool0 : VirtualNetworkStorePool),
      db0.last_oid = -1 →
      (∀ rows : List Row, db0.verdict rows (.update_last_oid 99) = 0) →
      VirtualNetworkStorePool.new ext db0 inherit_attrs = .ok pool0 →
      pool0.db.last_oid = 99 ∧
      VirtualNetworkStorePool.new ext pool0.db inherit_attrs
        = .ok { db := pool0.db, lastOID := 99, cache := [], inherit_attrs := inherit_attrs } ∧
      VirtualNetworkStorePool.new_db ext pool0.db inherit_attrs = pool0.db) := by
  have hn := new_stored ext db inherit_attrs h
  refine ⟨hn.1, ?_, hn.2, ?_, ?_⟩
  · intro message hm
    rw [hn.1] at hm
    cases hm
  · intro pool hp
    rw [hn.1] at hp
    injection hp with hp
    subst hp
    exact ⟨rfl, rfl, rfl, rfl, rfl, hn.1⟩
  · intro db0 pool0 hlast hacc hok
    have hc := new_bootstrap_counter ext db0 inherit_attrs pool0 hlast hacc hok
    have hs := new_stored ext pool0.db inherit_attrs (by rw [hc]; decide)
    rw [hc] at hs
    exact ⟨hc, hs.1, hs.2⟩

/-- Witness of C26: the back end that the bootstrap over `sampleDb` leaves holds the
counter `99`; the pool constructed over it is the bare pool, with the one row of the
default record and no new statement. -/
theorem C26_new_no_bootstrap_witness :
    bootPool.db.last_oid = 99 ∧
    VirtualNetworkStorePool.new sampleExt bootPool.db []
      = .ok { db := bootPool.db, lastOID := bootPool.db.last_oid, cache := [],
              inherit_attrs := [] } ∧
    (VirtualNetworkStorePool.new_db sampleExt bootPool.db []).rows.map (fun r => r.oid)
      = [0] ∧
    (VirtualNetworkStorePool.new_db sampleExt bootPool.db []).journal = bootPool.db.journal :=
  have h := C26_new_no_bootstrap sampleExt bootPool.db []
    (by set_option maxRecDepth 100000 in decide)
  ⟨by set_option maxRecDepth 100000 in decide, h.1,
   by rw [h.2.2.1]; set_option maxRecDepth 100000 in decide,
   by rw [h.2.2.1]⟩

end OneVnm
